import Mathlib

/-!
# PS4 authentication pass-through over a CH375 bridge

A shallow embedding of `src/addons/ps4authpassthrough.cpp` (with the
declarations of `headers/addons/ps4authpassthrough.h`) and the properties
proved about it.

Conventions of the embedding

* Machine integers are `Nat`; a value stored in a `uint8_t` is reduced
  `% 256`, one stored in a `uint32_t` is reduced `% 2 ^ 32`.
* The serial link is explicit state (`Uart`): the frames put on the wire
  are logged in order, and the bytes the bridge answers are an infinite
  stream consumed front to back, so a blocking read always returns.
* Memory reached through a `uint8_t *` is a function from the byte offset
  to the byte stored there.
* Values the code obtains from outside (`rand()`, `getMillis()`, the initial
  bytes of a local that is never initialised, the CRC32 routine) are
  arguments of the embedded functions.
* Busy-wait delays (`sleep_us`, `sleep_ms`, `uart_tx_wait_blocking`) have
  no effect on the modelled state and are left out.
-/

namespace PS4Auth

/-! ## Constants of `ps4authpassthrough.h` -/

def CH375_DEFAULT_BAUDRATE : Nat := 9600
def CH375_USB_DESCRIPTOR_DEVICE : Nat := 0x01
def DS4_CHUNK_SIZE : Nat := 56
def CONNECTION_CHECK_DELAY : Nat := 500

namespace DS4Endpoint
def epControl : Nat := 0x00
def epOut : Nat := 0x03
def epIn : Nat := 0x84
end DS4Endpoint

namespace CH375UsbMode
def deviceDisabled : Nat := 0x00
def deviceEnabledExternal : Nat := 0x01
def deviceEnabledInternal : Nat := 0x02
def hostDisabled : Nat := 0x04
def hostEnabled : Nat := 0x05
def hostEnabledSOF : Nat := 0x06
def hostEnabledReset : Nat := 0x07
end CH375UsbMode

namespace CH375Cmd
def setBaudRate : Nat := 0x02
def resetAll : Nat := 0x05
def checkExists : Nat := 0x06
def setUsbMode : Nat := 0x15
def testConnect : Nat := 0x16
def setEndp6 : Nat := 0x1c
def setEndp7 : Nat := 0x1d
def getStatus : Nat := 0x22
def rdUsbData0 : Nat := 0x27
def rdUsbData : Nat := 0x28
def wrUsbData : Nat := 0x2b
def getDescr : Nat := 0x46
def autoSetup : Nat := 0x4d
def issueToken : Nat := 0x4f
end CH375Cmd

namespace CH375Retcode
def success : Nat := 0x51
def abrt : Nat := 0x5f
end CH375Retcode

namespace CH375TokenPid
def out : Nat := 0x01
def «in» : Nat := 0x09
def setup : Nat := 0x0d
end CH375TokenPid

namespace CH375WMode
def data0 : Nat := 0x80
def data1 : Nat := 0xc0
end CH375WMode

namespace CH375IntStatus
def intSuccess : Nat := 0x14
def connect : Nat := 0x15
def disconnect : Nat := 0x16
def bufOver : Nat := 0x17
def usbReady : Nat := 0x18
end CH375IntStatus

/-! ## The serial link (Pico SDK `uart0`) -/

/-- The SDK's `uart_parity_t`. -/
inductive uart_parity_t where
  | UART_PARITY_NONE
  | UART_PARITY_EVEN
  | UART_PARITY_ODD
  deriving DecidableEq, Repr

open uart_parity_t

/-- One byte as it leaves the UART: its value and the parity mode the UART
was in when it was written. -/
structure Frame where
  byte : Nat
  parity : uart_parity_t
  deriving DecidableEq, Repr

/-- State of `uart0` and of the wire behind it. `tx` lists the frames
written so far, oldest first; `rx` is the stream of bytes the bridge
answers and `rd` counts how many of them have been read. -/
structure Uart where
  baud : Nat
  parity : uart_parity_t
  tx : List Frame
  rx : Nat → Nat
  rd : Nat

/-- The byte the bridge will deliver `k` reads from now. -/
def Uart.peek (u : Uart) (k : Nat) : Nat := u.rx (u.rd + k) % 256

/-- The SDK's `uart_init`: sets the rate; the format starts as 8N1. -/
def uart_init (u : Uart) (baudrate : Nat) : Uart :=
  { u with baud := baudrate, parity := UART_PARITY_NONE }

/-- The SDK's `uart_set_baudrate`. -/
def uart_set_baudrate (u : Uart) (baudrate : Nat) : Uart :=
  { u with baud := baudrate }

/-- The SDK's `uart_set_format` with 8 data bits and 1 stop bit. -/
def uart_set_format (u : Uart) (parity : uart_parity_t) : Uart :=
  { u with parity := parity }

/-- The SDK's `uart_putc_raw`: one byte goes out in the current format. -/
def uart_putc_raw (u : Uart) (c : Nat) : Uart :=
  { u with tx := u.tx ++ [⟨c % 256, u.parity⟩] }

/-- The SDK's `uart_getc`: blocking read of the next byte. -/
def uart_getc (u : Uart) : Nat × Uart :=
  (u.rx u.rd % 256, { u with rd := u.rd + 1 })

/-! ## Link framer -/

/-- The `while (data > 0)` loop of `countBits`; the first argument bounds
the number of iterations (a `uint8_t` is zero after 8 right shifts). -/
def countBitsLoop : Nat → Nat → Nat → Nat
  | 0, _, ret => ret
  | fuel + 1, data, ret =>
    if data > 0 then
      countBitsLoop fuel (data >>> 1) (if data &&& 1 ≠ 0 then ret + 1 else ret)
    else ret

def countBits (data : Nat) : Nat :=
  countBitsLoop 8 (data % 256) 0 % 256

def getParity (data : Nat) (isCmd : Bool) : uart_parity_t :=
  let numBits := countBits data
  if isCmd then
    (if numBits % 2 = 0 then UART_PARITY_ODD else UART_PARITY_EVEN)
  else
    (if numBits % 2 = 0 then UART_PARITY_EVEN else UART_PARITY_ODD)

def ch375SendCmd (u : Uart) (cmd : Nat) : Uart :=
  uart_putc_raw (uart_set_format u (getParity cmd true)) cmd

def ch375SendData (u : Uart) (data : Nat) : Uart :=
  uart_putc_raw (uart_set_format u (getParity (data % 256) false)) (data % 256)

def ch375GetChar (u : Uart) : Nat × Uart :=
  uart_getc u

/-- The loop of `ch375Read` from index `i` on, with `n` iterations left
(`n = len - i`). -/
def ch375ReadLoop : Nat → Nat → (Nat → Nat) → Uart → (Nat → Nat) × Uart
  | 0, _, buf, u => (buf, u)
  | n + 1, i, buf, u =>
    let (c, u1) := ch375GetChar u
    ch375ReadLoop n (i + 1) (fun a => if a = i then c else buf a) u1

def ch375Read (buf : Nat → Nat) (len : Nat) (u : Uart) : (Nat → Nat) × Uart :=
  ch375ReadLoop (len % 256) 0 buf u

/-! ## Bridge command driver -/

def ch375SetUsbMode (mode : Nat) (u : Uart) : Bool × Uart :=
  let u := ch375SendCmd u CH375Cmd.setUsbMode
  let u := ch375SendData u mode
  let (c, u) := ch375GetChar u
  if c ≠ CH375Retcode.success then (false, u) else (true, u)

def ch375SetBaudRate (baudRate : Nat) (u : Uart) : Bool × Uart :=
  let cc : Option (Nat × Nat) :=
    if baudRate = 9600 then some (0x02, 0xb2)
    else if baudRate = 19200 then some (0x02, 0xd9)
    else if baudRate = 57600 then some (0x03, 0x98)
    else if baudRate = 115200 then some (0x03, 0xcc)
    else none
  match cc with
  | none => (false, u)
  | some (coefficient, constant) =>
    let u := ch375SendCmd u CH375Cmd.setBaudRate
    let u := ch375SendData u coefficient
    let u := ch375SendData u constant
    let u := uart_set_baudrate u baudRate
    let (c, u) := ch375GetChar u
    (decide (c ≠ CH375Retcode.success), u)

/-- The first argument is the value `rand()` returned, as stored in the
`uint8_t testByte`. -/
def ch375CheckExists (testByte : Nat) (u : Uart) : Bool × Uart :=
  let testByte := testByte % 256
  let u := ch375SendCmd u CH375Cmd.checkExists
  let u := ch375SendData u testByte
  let (c, u) := ch375GetChar u
  (decide (c = (0xffffffff - testByte) &&& 0xff), u)

def ch375IssueToken (epAddr : Nat) (pid : Nat) (u : Uart) : Bool × Uart :=
  let u := ch375SendCmd u CH375Cmd.issueToken
  let u := ch375SendData u ((epAddr % 256) <<< 4 ||| pid)
  let u := ch375SendCmd u CH375Cmd.getStatus
  let (c, u) := ch375GetChar u
  (decide (c = CH375IntStatus.intSuccess), u)

/-! ## USB control-transfer emulator -/

/-- The call `memcpy(dst + off, src, n)` on byte memory. -/
def memcpy (dst : Nat → Nat) (off : Nat) (src : Nat → Nat) (n : Nat) : Nat → Nat :=
  fun a => if off ≤ a ∧ a < off + n then src (a - off) % 256 else dst a

/-- The call `memset(dst, c, n)` on byte memory. -/
def memset (dst : Nat → Nat) (c : Nat) (n : Nat) : Nat → Nat :=
  fun a => if a < n then c % 256 else dst a

/-- TinyUSB's `tusb_control_request_t` (the 8-byte USB setup packet). -/
structure tusb_control_request_t where
  bmRequestType : Nat
  bRequest : Nat
  wValue : Nat
  wIndex : Nat
  wLength : Nat

/-- The setup packet as the 8 bytes `reinterpret_cast<uint8_t*>(request)`
walks over (16-bit fields least significant byte first). -/
def tusb_control_request_t.bytes (r : tusb_control_request_t) : List Nat :=
  [r.bmRequestType % 256, r.bRequest % 256,
   r.wValue % 256, r.wValue / 256 % 256,
   r.wIndex % 256, r.wIndex / 256 % 256,
   r.wLength % 256, r.wLength / 256 % 256]

def HID_REQ_CONTROL_GET_REPORT : Nat := 0x01
def HID_REQ_CONTROL_SET_REPORT : Nat := 0x09
def HID_REPORT_TYPE_FEATURE : Nat := 3

/-- The pointer `data` is the memory it points to; `dataSize` is a
`uint16_t` value (the one caller passes 64). -/
def ch375SendDataRequest (request : tusb_control_request_t) (data : Nat → Nat)
    (dataSize : Nat) (u : Uart) : Bool × Uart :=
  let u := ch375SendCmd u CH375Cmd.wrUsbData
  let u := ch375SendData u 8
  let u := request.bytes.foldl ch375SendData u
  let u := ch375SendCmd u CH375Cmd.setEndp7
  let u := ch375SendData u CH375WMode.data0
  let (ok, u) := ch375IssueToken DS4Endpoint.epControl CH375TokenPid.setup u
  if !ok then (false, u) else
  let u := ch375SendCmd u CH375Cmd.wrUsbData
  let u := ch375SendData u dataSize
  let u := ((List.range dataSize).map data).foldl ch375SendData u
  let u := ch375SendCmd u CH375Cmd.setEndp7
  let u := ch375SendData u CH375WMode.data1
  let (ok, u) := ch375IssueToken DS4Endpoint.epControl CH375TokenPid.out u
  if !ok then (false, u) else
  let u := ch375SendCmd u CH375Cmd.setEndp6
  let u := ch375SendData u CH375WMode.data1
  let (ok, u) := ch375IssueToken DS4Endpoint.epControl CH375TokenPid.in u
  if !ok then (false, u) else
  (true, u)

/-- Returns the result, the caller's buffer `buf` as the call leaves it, and
the link. -/
def ch375SendRequest (request : tusb_control_request_t) (buf : Nat → Nat)
    (u : Uart) : Bool × (Nat → Nat) × Uart :=
  let u := ch375SendCmd u CH375Cmd.wrUsbData
  let u := ch375SendData u 8
  let u := request.bytes.foldl ch375SendData u
  let u := ch375SendCmd u CH375Cmd.setEndp7
  let u := ch375SendData u CH375WMode.data0
  let (ok, u) := ch375IssueToken DS4Endpoint.epControl CH375TokenPid.setup u
  if !ok then (false, buf, u) else
  let u := ch375SendCmd u CH375Cmd.setEndp6
  let u := ch375SendData u CH375WMode.data1
  let (ok, u) := ch375IssueToken DS4Endpoint.epControl CH375TokenPid.in u
  if !ok then (false, buf, u) else
  let u := ch375SendCmd u CH375Cmd.rdUsbData0
  let (len, u) := ch375GetChar u
  if len ≠ request.wLength % 65536 then (false, buf, u) else
  let (buf, u) := ch375Read buf len u
  let u := ch375SendCmd u CH375Cmd.wrUsbData
  let u := ch375SendData u 0x00
  let u := ch375SendCmd u CH375Cmd.setEndp7
  let u := ch375SendData u CH375WMode.data1
  let (ok, u) := ch375IssueToken DS4Endpoint.epControl CH375TokenPid.out u
  if !ok then (false, buf, u) else
  (true, buf, u)

/-! ## Authentication handshake -/

/-- The `struct signChallenge`: 64 bytes, `data` indexed `0 .. 55`. -/
structure signChallenge where
  reportId : Nat
  sequenceCounter : Nat
  reportCounter : Nat
  zero : Nat
  data : Nat → Nat
  crc32 : Nat

/-- The 64 bytes of a `struct signChallenge` in memory order (the RP2040
stores the `uint32_t` checksum least significant byte first). -/
def signChallenge.bytes (c : signChallenge) : List Nat :=
  [c.reportId % 256, c.sequenceCounter % 256, c.reportCounter % 256, c.zero % 256]
    ++ (List.range DS4_CHUNK_SIZE).map (fun j => c.data j % 256)
    ++ [c.crc32 % 256, c.crc32 / 256 % 256, c.crc32 / 65536 % 256,
        c.crc32 / 16777216 % 256]

/-- Byte offset of `state` in `struct signState`. -/
def signState.state : Nat := 2

/-- Size of `struct signState`: twelve bytes and the `uint32_t` checksum. -/
def signState.sizeof : Nat := 16

/-- Byte offset of `reportCounter` in `struct signResponse`. -/
def signResponse.reportCounter : Nat := 2

/-- Byte offset of `data` in `struct signResponse`. -/
def signResponse.data : Nat := 4

/-- Size of `struct signResponse`. -/
def signResponse.sizeof : Nat := 64

/-- The local `signStateRequest` of `ch375GetSignState`. -/
def signStateRequest : tusb_control_request_t :=
  { bmRequestType := 0b10100001
    bRequest := HID_REQ_CONTROL_GET_REPORT
    wValue := (HID_REPORT_TYPE_FEATURE <<< 8 ||| 0xf2) % 65536
    wIndex := DS4Endpoint.epControl
    wLength := signState.sizeof }

/-- The local `signChunkRequest` of `ch375GetSignatureChunk`. -/
def signChunkRequest : tusb_control_request_t :=
  { bmRequestType := 0b10100001
    bRequest := HID_REQ_CONTROL_GET_REPORT
    wValue := (HID_REPORT_TYPE_FEATURE <<< 8 ||| 0xf1) % 65536
    wIndex := DS4Endpoint.epOut
    wLength := signResponse.sizeof }

/-- The local `signChallengeRequest` of `ch375SetChallengeChunk`
(`sizeof(struct signChallenge)` is 64). -/
def signChallengeRequest : tusb_control_request_t :=
  { bmRequestType := 0b00100001
    bRequest := HID_REQ_CONTROL_SET_REPORT
    wValue := (HID_REPORT_TYPE_FEATURE <<< 8 ||| 0xf0) % 65536
    wIndex := DS4Endpoint.epOut
    wLength := 64 }

/-- The first argument is the content of the local `state` on entry, which
the code does not initialise. -/
def ch375GetSignState (state : Nat → Nat) (u : Uart) : Bool × Uart :=
  let r := ch375SendRequest signStateRequest state u
  let state := r.2.1
  (decide (state signState.state % 256 = 0x00), r.2.2)

/-- The first argument is the content of the local `response` on entry,
which the code does not initialise. -/
def ch375GetSignatureChunk (response : Nat → Nat) (authBuffer : Nat → Nat)
    (u : Uart) : Bool × (Nat → Nat) × Uart :=
  let r := ch375SendRequest signChunkRequest response u
  let response := r.2.1
  let authBuffer := memcpy authBuffer
    (response signResponse.reportCounter % 256 * DS4_CHUNK_SIZE)
    (fun j => response (signResponse.data + j)) DS4_CHUNK_SIZE
  (true, authBuffer, r.2.2)

/-- The loop of `ch375GetSignature` from index `i` on with `n` iterations
left (`n = 0x13 - i`); `response i` is the initial content of the local
`response` in the call made at index `i`. -/
def ch375GetSignatureLoop (response : Nat → Nat → Nat) :
    Nat → Nat → (Nat → Nat) → Uart → Bool × (Nat → Nat) × Uart
  | 0, _, authBuffer, u => (true, authBuffer, u)
  | n + 1, i, authBuffer, u =>
    let r := ch375GetSignatureChunk (response i) authBuffer u
    if !r.1 then (false, r.2.1, r.2.2) else
    ch375GetSignatureLoop response n (i + 1) r.2.1 r.2.2

def ch375GetSignature (response : Nat → Nat → Nat) (authBuffer : Nat → Nat)
    (u : Uart) : Bool × (Nat → Nat) × Uart :=
  ch375GetSignatureLoop response 0x13 0 authBuffer u

def ch375SetChallengeChunk (chunk : signChallenge) (u : Uart) : Bool × Uart :=
  ch375SendDataRequest signChallengeRequest (fun i => chunk.bytes.getD i 0) 64 u

/-- One iteration of the loop of `ch375SendChallenge` up to the checksum:
the chunk handed to `ch375SetChallengeChunk` and the new `copyBytes`. -/
def challengeStep (crc : List Nat → Nat) (nonceBuffer : Nat → Nat)
    (reportCounter copyBytes : Nat) (challenge : signChallenge) :
    Nat × signChallenge :=
  let challenge := { challenge with reportCounter := reportCounter }
  let (copyBytes, challenge) :=
    if reportCounter = 0x04 then
      (32, { challenge with data := memset challenge.data 0 DS4_CHUNK_SIZE })
    else (copyBytes, challenge)
  let challenge := { challenge with
    data := memcpy challenge.data 0
      (fun j => nonceBuffer (reportCounter * DS4_CHUNK_SIZE + j)) copyBytes }
  let challenge := { challenge with crc32 := crc (challenge.bytes.take 60) % 2 ^ 32 }
  (copyBytes, challenge)

/-- The loop of `ch375SendChallenge` from `reportCounter` on with `n`
iterations left (`n = 5 - reportCounter`). -/
def ch375SendChallengeLoop (crc : List Nat → Nat) (nonceBuffer : Nat → Nat) :
    Nat → Nat → Nat → signChallenge → Uart → Bool × Uart
  | 0, _, _, _, u => (true, u)
  | n + 1, reportCounter, copyBytes, challenge, u =>
    let s := challengeStep crc nonceBuffer reportCounter copyBytes challenge
    let r := ch375SetChallengeChunk s.2 u
    if !r.1 then (false, r.2) else
    ch375SendChallengeLoop crc nonceBuffer n (reportCounter + 1) s.1 s.2 r.2

/-- Takes `CRC32::calculate` (over a byte list), the nonce buffer and the
member `sequenceCounter`. -/
def ch375SendChallenge (crc : List Nat → Nat) (nonceBuffer : Nat → Nat)
    (sequenceCounter : Nat) (u : Uart) : Bool × Uart :=
  let challenge : signChallenge :=
    { reportId := 0xf0
      sequenceCounter := sequenceCounter % 256
      reportCounter := 0
      zero := 0
      data := fun _ => 0
      crc32 := 0 }
  ch375SendChallengeLoop crc nonceBuffer 5 0 DS4_CHUNK_SIZE challenge u

/-- The data members of `class PS4AuthPassThroughAddon`. -/
structure PS4AuthPassThroughAddon where
  initFailed : Bool
  challengeSent : Bool
  lastConnectCheck : Nat
  sequenceCounter : Nat
  curIntStatus : Nat

/-- Byte offset of `idVendor` in TinyUSB's `tusb_desc_device_t`. -/
def tusb_desc_device_t.idVendor : Nat := 8

/-- Byte offset of `idProduct` in TinyUSB's `tusb_desc_device_t`. -/
def tusb_desc_device_t.idProduct : Nat := 10

/-- Size of TinyUSB's `tusb_desc_device_t`. -/
def tusb_desc_device_t.sizeof : Nat := 18

/-- The `case CH375IntStatus::connect` arm of `ch375TestConnect`. Each
`break` returns the link as it is at that point. -/
def ch375TestConnect.connectCase (u : Uart) : Uart :=
  let (ok, u) := ch375SetUsbMode CH375UsbMode.hostEnabledReset u
  if !ok then u else
  let (ok, u) := ch375SetUsbMode CH375UsbMode.hostEnabledSOF u
  if !ok then u else
  let u := ch375SendCmd u CH375Cmd.getDescr
  let u := ch375SendData u CH375_USB_DESCRIPTOR_DEVICE
  let u := ch375SendCmd u CH375Cmd.getStatus
  let (c, u) := ch375GetChar u
  if c ≠ CH375IntStatus.intSuccess then u else
  let u := ch375SendCmd u CH375Cmd.rdUsbData0
  let (len, u) := ch375GetChar u
  if len ≠ tusb_desc_device_t.sizeof then u else
  -- all 18 bytes of `deviceDescriptor` are overwritten before any is read
  let (deviceDescriptor, u) := ch375Read (fun _ => 0) len u
  let idVendor := deviceDescriptor tusb_desc_device_t.idVendor
    + 256 * deviceDescriptor (tusb_desc_device_t.idVendor + 1)
  let idProduct := deviceDescriptor tusb_desc_device_t.idProduct
    + 256 * deviceDescriptor (tusb_desc_device_t.idProduct + 1)
  if idVendor ≠ 0x054c ∨ (idProduct ≠ 0x09cc ∧ idProduct ≠ 0x05c4) then u else
  let u := ch375SendCmd u CH375Cmd.autoSetup
  let u := ch375SendCmd u CH375Cmd.getStatus
  let (_, u) := ch375GetChar u
  u

def ch375TestConnect (self : PS4AuthPassThroughAddon) (u : Uart) :
    PS4AuthPassThroughAddon × Uart :=
  let u := ch375SendCmd u CH375Cmd.testConnect
  let r := ch375GetChar u
  let newStatus := r.1
  let u := r.2
  if self.curIntStatus ≠ newStatus then
    let u :=
      if newStatus = CH375IntStatus.disconnect then
        (ch375SetUsbMode CH375UsbMode.hostEnabled u).2
      else if newStatus = CH375IntStatus.connect then
        ch375TestConnect.connectCase u
      else u
    ({ self with curIntStatus := newStatus }, u)
  else (self, u)

/-- The arguments `rand0`, `rand1` are the values of the first and second
call of `rand()`. -/
def setup (rand0 rand1 : Nat) (self : PS4AuthPassThroughAddon) (u : Uart) :
    PS4AuthPassThroughAddon × Uart :=
  let self := { self with initFailed := false }
  let baudRate := 9600
  let u := uart_init u CH375_DEFAULT_BAUDRATE
  let u := ch375SendCmd u CH375Cmd.resetAll
  let (ok, u) := ch375CheckExists rand0 u
  if !ok then ({ self with initFailed := true }, u) else
  let (ok, u) :=
    if baudRate ≠ CH375_DEFAULT_BAUDRATE then
      let (ok1, u) := ch375SetBaudRate baudRate u
      if !ok1 then (false, u) else
      let (ok2, u) := ch375CheckExists rand1 u
      if !ok2 then (false, u) else (true, u)
    else (true, u)
  if !ok then ({ self with initFailed := true }, u) else
  let (ok, u) := ch375SetUsbMode CH375UsbMode.hostEnabled u
  if !ok then ({ self with initFailed := true }, u) else
  ({ self with
      curIntStatus := CH375IntStatus.disconnect
      lastConnectCheck := 0
      challengeSent := false
      sequenceCounter := 1 }, u)

/-- Modelled from the spec: the tri-state readiness flag of the shared
external state (`PS4State`, declared in `ps4_driver.h`). -/
inductive PS4State where
  | idle
  | nonce_ready
  | signed_nonce_ready
  deriving DecidableEq, Repr

/-- Modelled from the spec: the shared external state (`PS4Data`, declared
in `ps4_driver.h`): the readiness flag, the nonce buffer (256 bytes) and the
authentication-result buffer (19 × 56 = 1064 bytes), each buffer seen
through the pointer to its first byte. -/
structure PS4Data where
  ps4State : PS4State
  nonce_buffer : Nat → Nat
  ps4_auth_buffer : Nat → Nat

/-- Everything a tick can read or change. -/
structure World where
  self : PS4AuthPassThroughAddon
  ps4 : PS4Data
  uart : Uart

/-- What one call of `process` obtains from outside: the clock reading
`getMillis()` (stored in the `uint32_t cTime`) and the initial contents of
the locals the callees leave uninitialised. -/
structure TickEnv where
  cTime : Nat
  state : Nat → Nat
  response : Nat → Nat → Nat

/-- The connectivity check at the head of `process`: the statement
`if (!lastConnectCheck || (cTime - lastConnectCheck) > CONNECTION_CHECK_DELAY)`. -/
def process.connectionCheck (cTime : Nat) (self : PS4AuthPassThroughAddon) (u : Uart) :
    PS4AuthPassThroughAddon × Uart :=
  if self.lastConnectCheck = 0
      ∨ (cTime + 2 ^ 32 - self.lastConnectCheck) % 2 ^ 32 > CONNECTION_CHECK_DELAY then
    let r := ch375TestConnect self u
    ({ r.1 with lastConnectCheck := cTime }, r.2)
  else (self, u)

def process (crc : List Nat → Nat) (env : TickEnv) (w : World) : World :=
  if w.self.initFailed then w else
  let c := process.connectionCheck (env.cTime % 2 ^ 32) w.self w.uart
  let self := c.1
  let u := c.2
  if w.ps4.ps4State = PS4State.nonce_ready then
    if !self.challengeSent then
      let r := ch375SendChallenge crc w.ps4.nonce_buffer self.sequenceCounter u
      if r.1 then ⟨{ self with challengeSent := true }, w.ps4, r.2⟩
      else ⟨self, w.ps4, r.2⟩
    else
      let r := ch375GetSignState env.state u
      if r.1 then
        let authBuffer := w.ps4.ps4_auth_buffer
        let s := ch375GetSignature env.response authBuffer r.2
        let ps4 := { w.ps4 with ps4_auth_buffer := s.2.1 }
        if s.1 then
          ⟨{ self with challengeSent := false
                       sequenceCounter := (self.sequenceCounter + 1) % 2 ^ 32 },
           { ps4 with ps4State := PS4State.signed_nonce_ready }, s.2.2⟩
        else ⟨self, ps4, s.2.2⟩
      else ⟨self, w.ps4, r.2⟩
  else ⟨self, w.ps4, u⟩

/-- A run of ticks, one `TickEnv` per call of `process`. -/
def runTicks (crc : List Nat → Nat) : List TickEnv → World → World
  | [], w => w
  | env :: envs, w => runTicks crc envs (process crc env w)

/-! ## Vocabulary of the properties -/

/-- The number of set bits among the low eight bits of `b`. -/
def popCount (b : Nat) : Nat :=
  ((List.range 8).filter (fun i => b.testBit i)).length

/-- The frame `ch375SendCmd` puts on the wire for command byte `c`. -/
def Frame.cmd (c : Nat) : Frame := ⟨c % 256, getParity c true⟩

/-- The frame `ch375SendData` puts on the wire for data byte `d`. -/
def Frame.data (d : Nat) : Frame := ⟨d % 256, getParity (d % 256) false⟩

/-- The link after the frames `fs` were written and `k` bytes were read. -/
def Uart.step (u : Uart) (fs : List Frame) (k : Nat) : Uart :=
  { u with
    parity := fs.foldl (fun _ f => f.parity) u.parity
    tx := u.tx ++ fs
    rd := u.rd + k }

/-- The frames written to the link between the link states `u` and `u'`. -/
def framesWritten (u u' : Uart) : List Frame := u'.tx.drop u.tx.length

/-! ### Frames of the transfers -/

/-- Frames of the SETUP stage of a control transfer: the setup packet is
staged in the bridge buffer, the data toggle set to DATA0, the SETUP token
issued and the status polled. -/
def setupStageFrames (req : tusb_control_request_t) : List Frame :=
  [Frame.cmd CH375Cmd.wrUsbData, Frame.data 8] ++ req.bytes.map Frame.data
   ++ [Frame.cmd CH375Cmd.setEndp7, Frame.data CH375WMode.data0,
       Frame.cmd CH375Cmd.issueToken,
       Frame.data ((DS4Endpoint.epControl % 256) <<< 4 ||| CH375TokenPid.setup),
       Frame.cmd CH375Cmd.getStatus]

/-- Frames of the OUT data stage of `ch375SendDataRequest`: the length and
the `n` payload bytes are staged, the data toggle set to DATA1, the OUT token
issued and the status polled. -/
def outStageFrames (data : Nat → Nat) (n : Nat) : List Frame :=
  [Frame.cmd CH375Cmd.wrUsbData, Frame.data n] ++ ((List.range n).map data).map Frame.data
   ++ [Frame.cmd CH375Cmd.setEndp7, Frame.data CH375WMode.data1,
       Frame.cmd CH375Cmd.issueToken,
       Frame.data ((DS4Endpoint.epControl % 256) <<< 4 ||| CH375TokenPid.out),
       Frame.cmd CH375Cmd.getStatus]

/-- Frames of an IN stage: data toggle DATA1 on the receive side, IN token,
status poll. -/
def inStageFrames : List Frame :=
  [Frame.cmd CH375Cmd.setEndp6, Frame.data CH375WMode.data1,
       Frame.cmd CH375Cmd.issueToken,
       Frame.data ((DS4Endpoint.epControl % 256) <<< 4 ||| CH375TokenPid.in),
       Frame.cmd CH375Cmd.getStatus]

/-- Frames of the zero-length OUT status stage that closes
`ch375SendRequest`. -/
def closingOutFrames : List Frame :=
  [Frame.cmd CH375Cmd.wrUsbData, Frame.data 0x00,
   Frame.cmd CH375Cmd.setEndp7, Frame.data CH375WMode.data1,
   Frame.cmd CH375Cmd.issueToken,
   Frame.data ((DS4Endpoint.epControl % 256) <<< 4 ||| CH375TokenPid.out),
   Frame.cmd CH375Cmd.getStatus]

/-- Frames of a feature-report read whose four stages all run. -/
def reportReadFrames (req : tusb_control_request_t) : List Frame :=
  setupStageFrames req ++ inStageFrames ++ [Frame.cmd CH375Cmd.rdUsbData0] ++ closingOutFrames

/-- Frames of one challenge-chunk transfer whose three stages all run. -/
def chunkTransferFrames (chunk : signChallenge) : List Frame :=
  setupStageFrames signChallengeRequest
    ++ outStageFrames (fun i => chunk.bytes.getD i 0) 64 ++ inStageFrames

/-- The chunk in iteration `k` of the loop of `ch375SendChallenge`, as it is
handed to `ch375SetChallengeChunk`, together with the value of `copyBytes`
after that iteration. -/
def challengeChunkAt (crc : List Nat → Nat) (nonceBuffer : Nat → Nat) (sequenceCounter : Nat) :
    Nat → Nat × signChallenge
  | 0 => challengeStep crc nonceBuffer 0 DS4_CHUNK_SIZE
      { reportId := 0xf0, sequenceCounter := sequenceCounter % 256, reportCounter := 0,
        zero := 0, data := fun _ => 0, crc32 := 0 }
  | k + 1 => challengeStep crc nonceBuffer (k + 1)
      (challengeChunkAt crc nonceBuffer sequenceCounter k).1
      (challengeChunkAt crc nonceBuffer sequenceCounter k).2

/-- Frames written by the loop of `ch375SendChallenge` when every transfer
succeeds. -/
def challengeLoopFrames (crc : List Nat → Nat) (nonceBuffer : Nat → Nat) :
    Nat → Nat → Nat → signChallenge → List Frame
  | 0, _, _, _ => []
  | n + 1, reportCounter, copyBytes, challenge =>
    chunkTransferFrames (challengeStep crc nonceBuffer reportCounter copyBytes challenge).2
      ++ challengeLoopFrames crc nonceBuffer n (reportCounter + 1)
        (challengeStep crc nonceBuffer reportCounter copyBytes challenge).1
        (challengeStep crc nonceBuffer reportCounter copyBytes challenge).2

/-- Frames of the enumeration in `ch375TestConnect` up to and including the
read-buffer command: bus reset, start-of-frame generation, descriptor fetch,
status poll and read-buffer command. -/
def enumerationFrames : List Frame :=
  [Frame.cmd CH375Cmd.setUsbMode, Frame.data CH375UsbMode.hostEnabledReset,
   Frame.cmd CH375Cmd.setUsbMode, Frame.data CH375UsbMode.hostEnabledSOF,
   Frame.cmd CH375Cmd.getDescr, Frame.data CH375_USB_DESCRIPTOR_DEVICE,
   Frame.cmd CH375Cmd.getStatus, Frame.cmd CH375Cmd.rdUsbData0]

/-- The frames that open a challenge-chunk transfer: the SET_REPORT setup
packet staged in the bridge buffer, data toggle and SETUP token. -/
def challengeSetupFrames : List Frame := setupStageFrames signChallengeRequest

/-- A challenge-chunk transfer is started somewhere in the frames `fs`. -/
def transmitsChallenge (fs : List Frame) : Prop := challengeSetupFrames <:+: fs

instance (fs : List Frame) : Decidable (transmitsChallenge fs) := by
  unfold transmitsChallenge; infer_instance

/-- From `u` to `u'` the link was only written to and read from, and no
data frame carrying 0x21, the request type of SET_REPORT, was written. -/
def Quiet (u u' : Uart) : Prop := ∃ fs k, u' = u.step fs k ∧ Frame.data 0x21 ∉ fs

/-! ### Ticks and bridge answers -/

/-- The link as the connectivity check at the head of a tick leaves it. -/
def polled (env : TickEnv) (w : World) : Uart :=
  (process.connectionCheck (env.cTime % 2 ^ 32) w.self w.uart).2

/-- The tick makes its connectivity check: setup did not fail and the check
is due. -/
def polls (env : TickEnv) (w : World) : Prop :=
  w.self.initFailed = false
    ∧ (w.self.lastConnectCheck = 0
      ∨ (env.cTime % 2 ^ 32 + 2 ^ 32 - w.self.lastConnectCheck) % 2 ^ 32 > CONNECTION_CHECK_DELAY)

instance (env : TickEnv) (w : World) : Decidable (polls env w) := by
  unfold polls; infer_instance

/-- The bridge answers a feature-report read of `len` bytes whose first
status is `pos` reads ahead: success after the SETUP token and after the IN
token, then the length `len`, the report, and success after the closing OUT
token. -/
def reportReadOk (u : Uart) (pos len : Nat) : Prop :=
  u.peek pos = CH375IntStatus.intSuccess ∧ u.peek (pos + 1) = CH375IntStatus.intSuccess
    ∧ u.peek (pos + 2) = len ∧ u.peek (pos + 3 + len) = CH375IntStatus.intSuccess

/-- Byte `o` of the report delivered by the read that starts `pos` reads
ahead. -/
def reportByte (u : Uart) (pos o : Nat) : Nat := u.peek (pos + 3 + o)

/-- Acceptance test of `ch375TestConnect` on the vendor and product id. -/
def acceptedDevice (idVendor idProduct : Nat) : Prop :=
  ¬ (idVendor ≠ 0x054c ∨ (idProduct ≠ 0x09cc ∧ idProduct ≠ 0x05c4))

instance (v p : Nat) : Decidable (acceptedDevice v p) := by
  unfold acceptedDevice; infer_instance

/-- The connectivity check made on the link `u` takes the connect
transition and its enumeration reads a device descriptor: the status read is
`connect` and differs from the recorded one, both set-USB-mode commands are
acknowledged with success, the status after the descriptor fetch is success,
the descriptor length is 18, and the descriptor carries the vendor id
`idVendor` and the product id `idProduct`. -/
def enumerates (self : PS4AuthPassThroughAddon) (u : Uart) (idVendor idProduct : Nat) : Prop :=
  self.curIntStatus ≠ u.peek 0 ∧ u.peek 0 = CH375IntStatus.connect
    ∧ u.peek 1 = CH375Retcode.success ∧ u.peek 2 = CH375Retcode.success
    ∧ u.peek 3 = CH375IntStatus.intSuccess ∧ u.peek 4 = 18
    ∧ u.peek 13 + 256 * u.peek 14 = idVendor ∧ u.peek 15 + 256 * u.peek 16 = idProduct

instance (self : PS4AuthPassThroughAddon) (u : Uart) (v p : Nat) :
    Decidable (enumerates self u v p) := by
  unfold enumerates; infer_instance

/-! ### Checksums, parity bits, chunk sequences and polls -/

/-- The four bytes of a `uint32_t` as they lie in memory, least significant
byte first. -/
def le32Bytes (v : Nat) : List Nat :=
  [v % 256, v / 256 % 256, v / 65536 % 256, v / 16777216 % 256]

/-- The `uint32_t` that four bytes in memory order stand for. -/
def le32 (bs : List Nat) : Nat :=
  bs.getD 0 0 + 256 * bs.getD 1 0 + 65536 * bs.getD 2 0 + 16777216 * bs.getD 3 0

/-- The parity bit a UART sends after the eight data bits of `b` under the
standard semantics of the parity modes: with EVEN parity the bit makes the
total number of ones even, with ODD parity it makes it odd, and without
parity no bit is sent. -/
def wireParityBit (p : uart_parity_t) (b : Nat) : Option Nat :=
  match p with
  | UART_PARITY_NONE => none
  | UART_PARITY_EVEN => some (popCount b % 2)
  | UART_PARITY_ODD => some ((popCount b + 1) % 2)

/-- Transmission of a list of chunks in order, one control-OUT transfer
each, stopping at the first transfer that fails. -/
def sendChunks : List signChallenge → Uart → Bool × Uart
  | [], u => (true, u)
  | c :: cs, u =>
    if !(ch375SetChallengeChunk c u).1 then (false, (ch375SetChallengeChunk c u).2)
    else sendChunks cs (ch375SetChallengeChunk c u).2

/-- The five chunks of a challenge, by chunk index. -/
def challengeChunks (crc : List Nat → Nat) (nonce : Nat → Nat) (seq : Nat) : List signChallenge :=
  [(challengeChunkAt crc nonce seq 0).2, (challengeChunkAt crc nonce seq 1).2,
   (challengeChunkAt crc nonce seq 2).2, (challengeChunkAt crc nonce seq 3).2,
   (challengeChunkAt crc nonce seq 4).2]

/-- Frames of the complete transfers of a list of chunks, in order. -/
def transfersFrames : List signChallenge → List Frame
  | [] => []
  | c :: cs => chunkTransferFrames c ++ transfersFrames cs

/-- Frames written by the transfer of `chunk` when the status after the
SETUP token is `s0` and the status after the OUT token is `s1`: the stages up
to and including the first whose status is not success. -/
def attemptFrames (chunk : signChallenge) (s0 s1 : Nat) : List Frame :=
  if s0 ≠ CH375IntStatus.intSuccess then setupStageFrames signChallengeRequest
  else if s1 ≠ CH375IntStatus.intSuccess then
    setupStageFrames signChallengeRequest ++ outStageFrames (fun i => chunk.bytes.getD i 0) 64
  else chunkTransferFrames chunk

/-- Status bytes read by a chunk transfer when the status after the SETUP
token is `s0` and the status after the OUT token is `s1`. -/
def attemptReads (s0 s1 : Nat) : Nat :=
  if s0 ≠ CH375IntStatus.intSuccess then 1
  else if s1 ≠ CH375IntStatus.intSuccess then 2 else 3

/-- The frames a connectivity check can write: the test-connect command,
the re-arming of host mode on a disconnect, the enumeration on a connect and
the auto-setup command with its status poll. -/
def pollFrames : List Frame :=
  [Frame.cmd CH375Cmd.testConnect, Frame.cmd CH375Cmd.setUsbMode,
    Frame.data CH375UsbMode.hostEnabled]
    ++ enumerationFrames ++ [Frame.cmd CH375Cmd.autoSetup, Frame.cmd CH375Cmd.getStatus]

/-- From `u` to `u'` the link was only written to and read from, and every
frame written is one a connectivity check can write. -/
def PollOnly (u u' : Uart) : Prop := ∃ fs k, u' = u.step fs k ∧ ∀ f ∈ fs, f ∈ pollFrames

/-- The clock readings of the ticks of a run that make their connectivity
check, in order. -/
def pollTimes (crc : List Nat → Nat) : List TickEnv → World → List Nat
  | [], _ => []
  | env :: envs, w =>
    if polls env w then (env.cTime % 2 ^ 32) :: pollTimes crc envs (process crc env w)
    else pollTimes crc envs (process crc env w)

/-- The value of `lastConnectCheck` after each tick of a run, in order. -/
def checkTrace (crc : List Nat → Nat) : List TickEnv → World → List Nat
  | [], _ => []
  | env :: envs, w =>
    (process crc env w).self.lastConnectCheck :: checkTrace crc envs (process crc env w)

/-! ## Concrete scenarios -/

/-- A link at the default rate with nothing written yet, on which the
bridge answers the bytes `rx 0, rx 1, ...`. -/
def exLink (rx : Nat → Nat) : Uart := ⟨CH375_DEFAULT_BAUDRATE, UART_PARITY_NONE, [], rx, 0⟩

/-- An engine state after a successful setup whose last connectivity check
was at clock reading 1000 and found no device. -/
def exSelf (challengeSent : Bool) : PS4AuthPassThroughAddon :=
  ⟨false, challengeSent, 1000, 1, CH375IntStatus.disconnect⟩

/-- A tick at clock reading `cTime` in which the uninitialised locals hold
zero bytes. -/
def exEnv (cTime : Nat) : TickEnv := ⟨cTime, fun _ => 0, fun _ _ => 0⟩

/-- Shared state with the nonce `0, 1, ..., 255` and a zeroed result
buffer. -/
def exData (flag : PS4State) : PS4Data := ⟨flag, fun i => i % 256, fun _ => 0⟩

/-- A stand-in for `CRC32::calculate`. -/
def exCrc (bytes : List Nat) : Nat := bytes.sum

/-- An engine in ready-idle with a nonce pending, no connectivity check due
at clock reading 1001, in front of a bridge that answers every status poll
with `connect` (0x15). -/
def stalledChallengeWorld : World :=
  ⟨exSelf false, exData PS4State.nonce_ready, exLink (fun _ => 0x15)⟩

/-- Bridge answers for a tick in awaiting-signature: the sign-state report
is read successfully with state byte 0, then every SETUP token of the
signature-chunk reads is answered with `connect` (0x15) instead of success. -/
def failingSignatureRx (n : Nat) : Nat :=
  if n < 2 then 0x14 else if n = 2 then 16 else if n < 19 then 0
  else if n = 19 then 0x14 else 0x15

/-- An engine in awaiting-signature, no connectivity check due at clock
reading 1001, in front of the answers `failingSignatureRx`. -/
def failingSignatureWorld : World :=
  ⟨exSelf true, exData PS4State.nonce_ready, exLink failingSignatureRx⟩

/-- Bridge answers of a complete round: the connectivity check of the first
tick reads `disconnect`; the fifteen token statuses of the challenge are
success; the sign-state report (16 bytes, all zero) and the nineteen
signature reports (64 bytes, chunk index `i` at offset 2) are read with
success statuses. -/
def happyRx (n : Nat) : Nat :=
  if n = 0 then 0x16 else if n < 18 then 0x14 else if n = 18 then 16
  else if n < 35 then 0 else if n = 35 then 0x14
  else if (n - 36) % 68 = 0 ∨ (n - 36) % 68 = 1 ∨ (n - 36) % 68 = 67 then 0x14
  else if (n - 36) % 68 = 2 then 64
  else if (n - 36) % 68 = 5 then (n - 36) / 68
  else n % 251

/-- The world right after a successful `setup`, with a nonce pending. -/
def happyWorld : World :=
  ⟨(setup 0x5a 0 (exSelf true) (exLink (fun n => if n = 0 then 0xa5 else 0x51))).1,
    exData PS4State.nonce_ready, exLink happyRx⟩

/-- Bridge answers of a connectivity check that meets a device with the
given ids: `connect`, two acknowledgements, descriptor status and length,
the 18 descriptor bytes, then success for everything that follows. -/
def enumerationRx (idVendor idProduct : Nat) (n : Nat) : Nat :=
  if n = 0 then 0x15 else if n < 3 then 0x51 else if n = 3 then 0x14
  else if n = 4 then 18
  else if n = 13 then idVendor % 256 else if n = 14 then idVendor / 256
  else if n = 15 then idProduct % 256 else if n = 16 then idProduct / 256
  else if n < 23 then 0 else 0x14

/-- The world right after a successful setup, no nonce pending, in front of
a device with vendor id 0x054c and product id 0x0ba0. -/
def wrongDeviceWorld : World :=
  ⟨⟨false, false, 0, 1, CH375IntStatus.disconnect⟩, exData PS4State.idle,
    exLink (enumerationRx 0x054c 0x0ba0)⟩

/-- The world after the tick at clock reading 1000 that enumerated that
device, once the collaborator has posted a nonce. -/
def wrongDeviceWorldNonce : World :=
  { process exCrc (exEnv 1000) wrongDeviceWorld with ps4 := exData PS4State.nonce_ready }

/-- Bridge answers of a tick in awaiting-signature whose connectivity check
reads `disconnect`: the set-USB-mode acknowledgement, a sign-state report
with state byte 0, and nineteen signature reports with chunk indices 0..18
and payload bytes 0xab, all with success statuses. -/
def midRoundRx (n : Nat) : Nat :=
  if n = 0 then 0x16 else if n = 1 then 0x51
  else if n < 4 then 0x14 else if n = 4 then 16 else if n < 21 then 0
  else if n = 21 then 0x14
  else if (n - 22) % 68 = 0 ∨ (n - 22) % 68 = 1 ∨ (n - 22) % 68 = 67 then 0x14
  else if (n - 22) % 68 = 2 then 64
  else if (n - 22) % 68 = 5 then (n - 22) / 68
  else 0xab

/-- An engine in awaiting-signature with a device recorded as connected and
a connectivity check due. -/
def midRoundWorld : World :=
  ⟨⟨false, true, 0, 1, CH375IntStatus.connect⟩, exData PS4State.nonce_ready, exLink midRoundRx⟩

/-- Bridge answers of a tick in awaiting-signature whose connectivity check
reads `disconnect` and whose sign-state report is read successfully with the
state byte 0x10 (not ready). -/
def notReadyRx (n : Nat) : Nat :=
  if n = 0 then 0x16 else if n = 1 then 0x51
  else if n < 4 then 0x14 else if n = 4 then 16 else if n < 21 then 0x10 else 0x14

/-- An engine in awaiting-signature with a device recorded as connected and
a connectivity check due, in front of the answers `notReadyRx`. -/
def notReadyWorld : World :=
  ⟨⟨false, true, 0, 1, CH375IntStatus.connect⟩, exData PS4State.nonce_ready, exLink notReadyRx⟩

/-- Bridge answers of a feature-report read that fails only at its closing
OUT token: success after SETUP and IN, length 16, sixteen report bytes
`0xa0 + i` except the state byte (offset 2), which is 0, then `connect`
(0x15) instead of success. -/
def closingFailsRx (n : Nat) : Nat :=
  if n < 2 then 0x14 else if n = 2 then 16 else if n = 5 then 0
  else if n < 19 then 0xa0 + (n - 3) else 0x15

/-- Bridge answers of a tick in awaiting-signature whose sign-state read
fails at its closing OUT token (the answers `closingFailsRx`, twenty bytes)
and whose nineteen signature reports, chunk indices 0..18 and payload bytes
0xab, are then read with success statuses. -/
def failedPollRx (n : Nat) : Nat :=
  if n < 20 then closingFailsRx n
  else if (n - 20) % 68 = 0 ∨ (n - 20) % 68 = 1 ∨ (n - 20) % 68 = 67 then 0x14
  else if (n - 20) % 68 = 2 then 64
  else if (n - 20) % 68 = 5 then (n - 20) / 68
  else 0xab

/-- An engine in awaiting-signature, no connectivity check due at clock
reading 1001, in front of the answers `failedPollRx`. -/
def failedPollWorld : World :=
  ⟨exSelf true, exData PS4State.nonce_ready, exLink failedPollRx⟩

/-- Bridge answers of nineteen signature-report reads in a row: each takes
68 bytes, success after the SETUP and the IN token, the length 64, the
report with chunk index `i` at offset 2, success after the closing OUT
token. -/
def signatureRx (n : Nat) : Nat :=
  if n % 68 = 0 ∨ n % 68 = 1 ∨ n % 68 = 67 then 0x14
  else if n % 68 = 2 then 64
  else if n % 68 = 5 then n / 68
  else n % 251

/-- Bridge answers of a tick in awaiting-signature without connectivity
check: the sign-state report (16 bytes, all zero) is read with success
statuses, then the nineteen signature reports of `signatureRx`. -/
def readyRoundRx (n : Nat) : Nat :=
  if n < 2 then 0x14 else if n = 2 then 16 else if n < 19 then 0
  else if n = 19 then 0x14 else signatureRx (n - 20)

/-- An engine in awaiting-signature whose sequence counter is 255, no
connectivity check due at clock reading 1001, in front of the answers
`readyRoundRx`. -/
def counter255World : World :=
  ⟨⟨false, true, 1000, 255, CH375IntStatus.disconnect⟩, exData PS4State.nonce_ready,
    exLink readyRoundRx⟩

/-- Bridge answers of one signature-report read with success statuses and
length 64: chunk index 0, payload bytes 0xab, and every byte of the
checksum field (report bytes 60..63) equal to `c`. -/
def checksumRx (c : Nat) (n : Nat) : Nat :=
  if n < 2 then 0x14 else if n = 2 then 64 else if n = 5 then 0
  else if 63 ≤ n ∧ n < 67 then c else if n = 67 then 0x14 else 0xab

/-- Bridge answers of two connectivity polls that both read `connect`
(0x15); the first set-USB-mode command of the enumeration started by the
first poll is answered with the abort code 0x5f. -/
def failedEnumerationRx (n : Nat) : Nat :=
  if n = 1 then 0x5f else 0x15

/-- Bridge answers of one signature-report read with success statuses and
length 64 whose chunk index (report offset 2) is 0xff and whose other report
bytes are 0xab. -/
def outOfRangeRx (n : Nat) : Nat :=
  if n < 2 then 0x14 else if n = 2 then 64 else if n = 5 then 0xff
  else if n = 67 then 0x14 else 0xab

/-- An engine in awaiting-signature, no connectivity check due at clock
reading 1001: the sign-state report is read with state byte 0, then each of
the nineteen signature reports carries the chunk index 0xff. -/
def outOfRangeWorld : World :=
  ⟨exSelf true, exData PS4State.nonce_ready,
    exLink (fun n => if n < 20 then readyRoundRx n else outOfRangeRx ((n - 20) % 68))⟩

/-- A run of three ticks at clock readings 1400, 1600 and 1900 from an engine
whose last connectivity check was at 1000, no nonce pending, in front of a
bridge that answers `disconnect` (0x16) to every poll. -/
def cadenceTicks : List TickEnv := [exEnv 1400, exEnv 1600, exEnv 1900]

/-- The world at the start of the run `cadenceTicks`. -/
def cadenceWorld : World := ⟨exSelf false, exData PS4State.idle, exLink (fun _ => 0x16)⟩

/-- Bridge answers of a challenge whose chunks 0 and 1 are transferred with
success statuses and whose chunk 2 fails at its OUT token (status 0x15). -/
def thirdChunkFailsRx (n : Nat) : Nat := if n = 7 then 0x15 else 0x14

/-! The embedded functions are unfolded in proofs only through their
defining equations. -/

attribute [irreducible] ch375ReadLoop ch375SendDataRequest ch375SendRequest ch375GetSignState
  ch375GetSignatureChunk ch375GetSignatureLoop ch375GetSignature ch375SetChallengeChunk
  ch375SendChallengeLoop ch375SendChallenge ch375TestConnect.connectCase ch375TestConnect
  setup process.connectionCheck process runTicks

/-! ## Link layer lemmas -/

set_option maxRecDepth 100000 in
theorem countBits_eq_popCount : ∀ b < 256, countBits b = popCount b := by
  decide

theorem peek_lt (u : Uart) (k : Nat) : u.peek k < 256 := Nat.mod_lt _ (by decide)

theorem step_zero (u : Uart) : u.step [] 0 = u := by
  simp [Uart.step]

@[simp] theorem step_step (u : Uart) (fs gs : List Frame) (k j : Nat) :
    (u.step fs k).step gs j = u.step (fs ++ gs) (k + j) := by
  simp [Uart.step, Nat.add_assoc]

@[simp] theorem step_peek (u : Uart) (fs : List Frame) (k j : Nat) :
    (u.step fs k).peek j = u.peek (k + j) := by
  simp [Uart.step, Uart.peek, Nat.add_assoc]

@[simp] theorem step_rx (u : Uart) (fs : List Frame) (k : Nat) : (u.step fs k).rx = u.rx := rfl

@[simp] theorem step_rd (u : Uart) (fs : List Frame) (k : Nat) : (u.step fs k).rd = u.rd + k := rfl

@[simp] theorem step_tx (u : Uart) (fs : List Frame) (k : Nat) :
    (u.step fs k).tx = u.tx ++ fs := rfl

@[simp] theorem step_baud (u : Uart) (fs : List Frame) (k : Nat) :
    (u.step fs k).baud = u.baud := rfl

theorem sendCmd_eq (u : Uart) (c : Nat) : ch375SendCmd u c = u.step [Frame.cmd c] 0 := by
  simp [ch375SendCmd, Uart.step, uart_putc_raw, uart_set_format, Frame.cmd]

theorem sendData_eq (u : Uart) (d : Nat) : ch375SendData u d = u.step [Frame.data d] 0 := by
  simp [ch375SendData, Uart.step, uart_putc_raw, uart_set_format, Frame.data]

theorem getChar_eq (u : Uart) : ch375GetChar u = (u.peek 0, u.step [] 1) := by
  simp [ch375GetChar, uart_getc, Uart.step, Uart.peek]

theorem foldl_sendData_eq (l : List Nat) (u : Uart) :
    l.foldl ch375SendData u = u.step (l.map Frame.data) 0 := by
  induction l generalizing u with
  | nil => simp [step_zero]
  | cons d l ih => simp [ih, sendData_eq]

theorem issueToken_eq (e p : Nat) (u : Uart) :
    ch375IssueToken e p u = (decide (u.peek 0 = 0x14),
      u.step [Frame.cmd CH375Cmd.issueToken, Frame.data ((e % 256) <<< 4 ||| p),
        Frame.cmd CH375Cmd.getStatus] 1) := by
  simp [ch375IssueToken, sendCmd_eq, sendData_eq, getChar_eq, CH375IntStatus.intSuccess]

theorem sendDataRequest_eq (req : tusb_control_request_t) (data : Nat → Nat) (n : Nat) (u : Uart) :
    ch375SendDataRequest req data n u =
      if u.peek 0 = 0x14 then
        if u.peek 1 = 0x14 then
          (decide (u.peek 2 = 0x14),
            u.step (setupStageFrames req ++ outStageFrames data n ++ inStageFrames) 3)
        else (false, u.step (setupStageFrames req ++ outStageFrames data n) 2)
      else (false, u.step (setupStageFrames req) 1) := by
  unfold ch375SendDataRequest
  simp only [sendCmd_eq, sendData_eq, foldl_sendData_eq, issueToken_eq, step_step, step_peek]
  by_cases h0 : u.peek 0 = 0x14 <;> by_cases h1 : u.peek 1 = 0x14 <;> by_cases h2 : u.peek 2 = 0x14 <;>
    simp [h0, h1, h2, setupStageFrames, outStageFrames, inStageFrames]

theorem readLoop_eq (n i : Nat) (buf : Nat → Nat) (u : Uart) :
    ch375ReadLoop n i buf u =
      (fun a => if i ≤ a ∧ a < i + n then u.peek (a - i) else buf a, u.step [] n) := by
  induction n generalizing i buf u with
  | zero =>
    refine Prod.ext ?_ ?_
    · funext a
      have h : ¬ (i ≤ a ∧ a < i) := by omega
      simp [ch375ReadLoop, h]
    · simp [ch375ReadLoop, step_zero]
  | succ n ih =>
    simp only [ch375ReadLoop, getChar_eq, ih, step_step, step_peek, List.append_nil]
    refine Prod.ext ?_ ?_
    · funext a
      by_cases h1 : a = i
      · subst h1; simp
      · by_cases h2 : i + 1 ≤ a ∧ a < i + 1 + n
        · have h3 : i ≤ a ∧ a < i + (n + 1) := by omega
          have h4 : 1 + (a - (i + 1)) = a - i := by omega
          simp [h2, h3, h4]
        · have h3 : ¬ (i ≤ a ∧ a < i + (n + 1)) := by omega
          simp [h1, h2, h3]
    · simp [Nat.add_comm]

theorem read_eq (buf : Nat → Nat) (len : Nat) (u : Uart) (h : len < 256) :
    ch375Read buf len u = (fun a => if a < len then u.peek a else buf a, u.step [] len) := by
  simp [ch375Read, readLoop_eq, Nat.mod_eq_of_lt h]

theorem setUsbMode_eq (mode : Nat) (u : Uart) :
    ch375SetUsbMode mode u = (decide (u.peek 0 = 0x51),
      u.step [Frame.cmd CH375Cmd.setUsbMode, Frame.data mode] 1) := by
  simp only [ch375SetUsbMode, sendCmd_eq, sendData_eq, getChar_eq, step_step, CH375Retcode.success]
  by_cases h : u.peek 0 = 0x51 <;> simp [h]

theorem sendRequest_eq (req : tusb_control_request_t) (buf : Nat → Nat) (u : Uart) :
    ch375SendRequest req buf u =
      if u.peek 0 = 0x14 then
        if u.peek 1 = 0x14 then
          if u.peek 2 = req.wLength % 65536 then
            (decide (u.peek (3 + u.peek 2) = 0x14),
              fun a => if a < u.peek 2 then u.peek (3 + a) else buf a,
              u.step (setupStageFrames req ++ inStageFrames
                ++ [Frame.cmd CH375Cmd.rdUsbData0] ++ closingOutFrames) (4 + u.peek 2))
          else (false, buf,
            u.step (setupStageFrames req ++ inStageFrames ++ [Frame.cmd CH375Cmd.rdUsbData0]) 3)
        else (false, buf, u.step (setupStageFrames req ++ inStageFrames) 2)
      else (false, buf, u.step (setupStageFrames req) 1) := by
  unfold ch375SendRequest
  simp only [sendCmd_eq, sendData_eq, foldl_sendData_eq, issueToken_eq, getChar_eq, step_step,
    step_peek, read_eq _ _ _ (peek_lt _ _)]
  have e : ∀ x, 1 + (3 + x) = 4 + x := fun x => by omega
  by_cases h0 : u.peek 0 = 0x14 <;> by_cases h1 : u.peek 1 = 0x14 <;>
    by_cases h2 : u.peek 2 = req.wLength % 65536 <;>
    by_cases h3 : u.peek (3 + req.wLength % 65536) = 0x14 <;>
    simp [h0, h1, h2, h3, e, setupStageFrames, inStageFrames, closingOutFrames, Nat.add_comm]

/-! ## Handshake lemmas -/

theorem setChallengeChunk_eq (chunk : signChallenge) (u : Uart) :
    ch375SetChallengeChunk chunk u =
      if u.peek 0 = 0x14 then
        if u.peek 1 = 0x14 then
          (decide (u.peek 2 = 0x14), u.step (chunkTransferFrames chunk) 3)
        else (false, u.step (setupStageFrames signChallengeRequest
                ++ outStageFrames (fun i => chunk.bytes.getD i 0) 64) 2)
      else (false, u.step (setupStageFrames signChallengeRequest) 1) := by
  simp [ch375SetChallengeChunk, sendDataRequest_eq, chunkTransferFrames]

theorem sendChallengeLoop_fst (crc : List Nat → Nat) (nonce : Nat → Nat) (n rc cb : Nat)
    (ch : signChallenge) (u : Uart) :
    (ch375SendChallengeLoop crc nonce n rc cb ch u).1 = true ↔ ∀ j < 3 * n, u.peek j = 0x14 := by
  induction n generalizing rc cb ch u with
  | zero => simp [ch375SendChallengeLoop]
  | succ n ih =>
    simp only [ch375SendChallengeLoop, setChallengeChunk_eq]
    by_cases h0 : u.peek 0 = 0x14
    · by_cases h1 : u.peek 1 = 0x14
      · by_cases h2 : u.peek 2 = 0x14
        · simp only [h0, h1, h2, if_true, decide_True, Bool.not_true, Bool.false_eq_true, if_false, ih,
            step_peek]
          constructor
          · intro h j hj
            by_cases hj3 : j < 3
            · have : j = 0 ∨ j = 1 ∨ j = 2 := by omega
              rcases this with rfl | rfl | rfl <;> assumption
            · have := h (j - 3) (by omega)
              rwa [show 3 + (j - 3) = j by omega] at this
          · intro h j hj
            exact h (3 + j) (by omega)
        · have : ¬ ∀ j < 3 * (n + 1), u.peek j = 0x14 := fun h => h2 (h 2 (by omega))
          simp [h0, h1, h2, this]
      · have : ¬ ∀ j < 3 * (n + 1), u.peek j = 0x14 := fun h => h1 (h 1 (by omega))
        simp [h0, h1, this]
    · have : ¬ ∀ j < 3 * (n + 1), u.peek j = 0x14 := fun h => h0 (h 0 (by omega))
      simp [h0, this]

theorem sendChallengeLoop_ok (crc : List Nat → Nat) (nonce : Nat → Nat) (n rc cb : Nat)
    (ch : signChallenge) (u : Uart) (h : ∀ j < 3 * n, u.peek j = 0x14) :
    ch375SendChallengeLoop crc nonce n rc cb ch u
      = (true, u.step (challengeLoopFrames crc nonce n rc cb ch) (3 * n)) := by
  induction n generalizing rc cb ch u with
  | zero => simp [ch375SendChallengeLoop, challengeLoopFrames, step_zero]
  | succ n ih =>
    have h0 := h 0 (by omega)
    have h1 := h 1 (by omega)
    have h2 := h 2 (by omega)
    simp only [ch375SendChallengeLoop, setChallengeChunk_eq, h0, h1, h2, if_true, decide_True,
      Bool.not_true, Bool.false_eq_true, if_false]
    rw [ih]
    · simp [challengeLoopFrames, Nat.mul_add, Nat.add_comm]
    · intro j hj
      rw [step_peek]
      exact h (3 + j) (by omega)

theorem sendChallenge_fst (crc : List Nat → Nat) (nonce : Nat → Nat) (seq : Nat) (u : Uart) :
    (ch375SendChallenge crc nonce seq u).1 = true ↔ ∀ j < 15, u.peek j = 0x14 := by
  simp [ch375SendChallenge, sendChallengeLoop_fst]

theorem getSignatureLoop_fst (response : Nat → Nat → Nat) (n i : Nat) (auth : Nat → Nat) (u : Uart) :
    (ch375GetSignatureLoop response n i auth u).1 = true := by
  induction n generalizing i auth u with
  | zero => simp [ch375GetSignatureLoop]
  | succ n ih => simp [ch375GetSignatureLoop, ch375GetSignatureChunk, ih]

theorem testConnect_self (self : PS4AuthPassThroughAddon) (u : Uart) :
    (ch375TestConnect self u).1 = { self with curIntStatus := u.peek 0 } := by
  unfold ch375TestConnect
  simp only [sendCmd_eq, getChar_eq, step_peek]
  by_cases h : self.curIntStatus = u.peek 0
  · simp [h.symm]
  · simp [h]

theorem connectionCheck_challengeSent (cTime : Nat) (self : PS4AuthPassThroughAddon) (u : Uart) :
    (process.connectionCheck cTime self u).1.challengeSent = self.challengeSent := by
  unfold process.connectionCheck
  split_ifs <;> simp [testConnect_self]

theorem connectionCheck_sequenceCounter (cTime : Nat) (self : PS4AuthPassThroughAddon) (u : Uart) :
    (process.connectionCheck cTime self u).1.sequenceCounter = self.sequenceCounter := by
  unfold process.connectionCheck
  split_ifs <;> simp [testConnect_self]

theorem connectionCheck_initFailed (cTime : Nat) (self : PS4AuthPassThroughAddon) (u : Uart) :
    (process.connectionCheck cTime self u).1.initFailed = self.initFailed := by
  unfold process.connectionCheck
  split_ifs <;> simp [testConnect_self]

theorem process_eq (crc : List Nat → Nat) (env : TickEnv) (w : World) :
    process crc env w =
      if w.self.initFailed then w else
      if w.ps4.ps4State = PS4State.nonce_ready then
        if !(process.connectionCheck (env.cTime % 2 ^ 32) w.self w.uart).1.challengeSent then
          if (ch375SendChallenge crc w.ps4.nonce_buffer
                (process.connectionCheck (env.cTime % 2 ^ 32) w.self w.uart).1.sequenceCounter
                (polled env w)).1 then
            ⟨{ (process.connectionCheck (env.cTime % 2 ^ 32) w.self w.uart).1 with
                challengeSent := true }, w.ps4,
              (ch375SendChallenge crc w.ps4.nonce_buffer
                (process.connectionCheck (env.cTime % 2 ^ 32) w.self w.uart).1.sequenceCounter
                (polled env w)).2⟩
          else
            ⟨(process.connectionCheck (env.cTime % 2 ^ 32) w.self w.uart).1, w.ps4,
              (ch375SendChallenge crc w.ps4.nonce_buffer
                (process.connectionCheck (env.cTime % 2 ^ 32) w.self w.uart).1.sequenceCounter
                (polled env w)).2⟩
        else
          if (ch375GetSignState env.state (polled env w)).1 then
            ⟨{ (process.connectionCheck (env.cTime % 2 ^ 32) w.self w.uart).1 with
                challengeSent := false
                sequenceCounter :=
                  ((process.connectionCheck (env.cTime % 2 ^ 32) w.self w.uart).1.sequenceCounter
                    + 1) % 2 ^ 32 },
              { ps4State := PS4State.signed_nonce_ready
                nonce_buffer := w.ps4.nonce_buffer
                ps4_auth_buffer := (ch375GetSignature env.response w.ps4.ps4_auth_buffer
                  (ch375GetSignState env.state (polled env w)).2).2.1 },
              (ch375GetSignature env.response w.ps4.ps4_auth_buffer
                (ch375GetSignState env.state (polled env w)).2).2.2⟩
          else
            ⟨(process.connectionCheck (env.cTime % 2 ^ 32) w.self w.uart).1, w.ps4,
              (ch375GetSignState env.state (polled env w)).2⟩
      else
        ⟨(process.connectionCheck (env.cTime % 2 ^ 32) w.self w.uart).1, w.ps4, polled env w⟩ := by
  have h3 := getSignatureLoop_fst env.response 0x13 0 w.ps4.ps4_auth_buffer
    (ch375GetSignState env.state (polled env w)).2
  simp only [process, polled, ch375GetSignature] at h3 ⊢
  simp only [h3, if_true]

set_option maxRecDepth 100000 in
theorem complement_byte : ∀ t < 256, (0xffffffff - t) &&& 0xff = 255 - t := by
  decide

theorem checkExists_eq (t : Nat) (u : Uart) :
    ch375CheckExists t u = (decide (u.peek 0 = 255 - t % 256),
      u.step [Frame.cmd CH375Cmd.checkExists, Frame.data (t % 256)] 1) := by
  simp [ch375CheckExists, sendCmd_eq, sendData_eq, getChar_eq,
    complement_byte (t % 256) (Nat.mod_lt _ (by decide))]

@[simp] theorem uart_init_peek (u : Uart) (b k : Nat) : (uart_init u b).peek k = u.peek k := rfl

theorem setup_eq (rand0 rand1 : Nat) (self : PS4AuthPassThroughAddon) (u : Uart) :
    setup rand0 rand1 self u =
      if u.peek 0 = 255 - rand0 % 256 then
        if u.peek 1 = CH375Retcode.success then
          ({ initFailed := false
             challengeSent := false
             lastConnectCheck := 0
             sequenceCounter := 1
             curIntStatus := CH375IntStatus.disconnect },
            (uart_init u CH375_DEFAULT_BAUDRATE).step [Frame.cmd CH375Cmd.resetAll, Frame.cmd CH375Cmd.checkExists,
              Frame.data (rand0 % 256), Frame.cmd CH375Cmd.setUsbMode,
              Frame.data CH375UsbMode.hostEnabled] 2)
        else
          ({ self with initFailed := true },
            (uart_init u CH375_DEFAULT_BAUDRATE).step [Frame.cmd CH375Cmd.resetAll, Frame.cmd CH375Cmd.checkExists,
              Frame.data (rand0 % 256), Frame.cmd CH375Cmd.setUsbMode,
              Frame.data CH375UsbMode.hostEnabled] 2)
      else
        ({ self with initFailed := true },
          (uart_init u CH375_DEFAULT_BAUDRATE).step [Frame.cmd CH375Cmd.resetAll, Frame.cmd CH375Cmd.checkExists,
              Frame.data (rand0 % 256)] 1) := by
  unfold setup
  simp only [sendCmd_eq, checkExists_eq, setUsbMode_eq, step_step, step_peek, uart_init_peek,
    CH375_DEFAULT_BAUDRATE, CH375Retcode.success]
  by_cases h0 : u.peek 0 = 255 - rand0 % 256 <;> by_cases h1 : u.peek 1 = 81 <;>
    simp [h0, h1]

theorem process_initFailed (crc : List Nat → Nat) (env : TickEnv) (w : World)
    (h : w.self.initFailed = true) : process crc env w = w := by
  simp [process_eq, h]

theorem runTicks_initFailed (crc : List Nat → Nat) (envs : List TickEnv) (w : World)
    (h : w.self.initFailed = true) : runTicks crc envs w = w := by
  induction envs with
  | nil => simp [runTicks]
  | cons env envs ih => simp [runTicks, process_initFailed crc env w h, ih]

theorem getSignState_read (state : Nat → Nat) (u : Uart)
    (h0 : u.peek 0 = 0x14) (h1 : u.peek 1 = 0x14) (h2 : u.peek 2 = 16) :
    ch375GetSignState state u
      = (decide (u.peek 5 = 0), u.step (reportReadFrames signStateRequest) 20) := by
  have hlt := peek_lt u 5
  have e : u.peek 5 % 256 = u.peek 5 := Nat.mod_eq_of_lt hlt
  simp [ch375GetSignState, sendRequest_eq, h0, h1, h2, signStateRequest, signState.sizeof,
    signState.state, reportReadFrames, e]

theorem getSignatureChunk_read (response authBuffer : Nat → Nat) (u : Uart)
    (h0 : u.peek 0 = 0x14) (h1 : u.peek 1 = 0x14) (h2 : u.peek 2 = 64) :
    (ch375GetSignatureChunk response authBuffer u).1 = true
    ∧ (∀ a, (ch375GetSignatureChunk response authBuffer u).2.1 a
        = if u.peek 5 * 56 ≤ a ∧ a < u.peek 5 * 56 + 56 then u.peek (7 + (a - u.peek 5 * 56))
          else authBuffer a)
    ∧ (ch375GetSignatureChunk response authBuffer u).2.2
        = u.step (reportReadFrames signChunkRequest) 68 := by
  have hlt := peek_lt u 5
  have e : u.peek 5 % 256 = u.peek 5 := Nat.mod_eq_of_lt hlt
  refine ⟨?_, ?_, ?_⟩
  · simp [ch375GetSignatureChunk]
  · intro a
    simp only [ch375GetSignatureChunk, sendRequest_eq, h0, h1, h2, signChunkRequest,
      signResponse.sizeof, signResponse.reportCounter, signResponse.data, DS4_CHUNK_SIZE, memcpy,
      if_true, Nat.reduceMod, Nat.reduceLT, e]
    by_cases ha : u.peek 5 * 56 ≤ a ∧ a < u.peek 5 * 56 + 56
    · have h4 : 4 + (a - u.peek 5 * 56) < 64 := by omega
      have h5 : 3 + (4 + (a - u.peek 5 * 56)) = 7 + (a - u.peek 5 * 56) := by omega
      have h6 := peek_lt u (7 + (a - u.peek 5 * 56))
      simp [ha, h4, h5, Nat.mod_eq_of_lt h6]
    · simp [ha]
  · simp [ch375GetSignatureChunk, sendRequest_eq, h0, h1, h2, signChunkRequest,
      signResponse.sizeof, reportReadFrames]

theorem getSignatureLoop_read (response : Nat → Nat → Nat) (n i : Nat) (authBuffer : Nat → Nat)
    (u : Uart)
    (h : ∀ m < n, reportReadOk u (68 * m) 64 ∧ reportByte u (68 * m) 2 = i + m) :
    (∀ m < n, ∀ o < 56, (ch375GetSignatureLoop response n i authBuffer u).2.1 (56 * (i + m) + o)
        = reportByte u (68 * m) (4 + o))
    ∧ (∀ a < 56 * i, (ch375GetSignatureLoop response n i authBuffer u).2.1 a = authBuffer a)
    ∧ ∃ fs, (ch375GetSignatureLoop response n i authBuffer u).2.2 = u.step fs (68 * n) := by
  induction n generalizing i authBuffer u with
  | zero =>
    refine ⟨fun m hm => absurd hm (Nat.not_lt_zero m), fun a _ => ?_, ⟨[], ?_⟩⟩
    · simp [ch375GetSignatureLoop]
    · simp [ch375GetSignatureLoop, step_zero]
  | succ n ih =>
    obtain ⟨⟨h0, h1, h2, _⟩, h5⟩ := h 0 (Nat.succ_pos n)
    simp only [reportByte, Nat.mul_zero, Nat.zero_add, Nat.add_zero,
      CH375IntStatus.intSuccess] at h0 h1 h2 h5
    obtain ⟨c1, c2, c3⟩ := getSignatureChunk_read (response i) authBuffer u h0 h1 h2
    have hloop : ch375GetSignatureLoop response (n + 1) i authBuffer u
        = ch375GetSignatureLoop response n (i + 1)
            (ch375GetSignatureChunk (response i) authBuffer u).2.1
            (u.step (reportReadFrames signChunkRequest) 68) := by
      rw [ch375GetSignatureLoop]
      simp only [c1, c3, Bool.not_true, Bool.false_eq_true, if_false]
    have hpeek : ∀ k, (u.step (reportReadFrames signChunkRequest) 68).peek k = u.peek (68 + k) :=
      fun k => step_peek _ _ _ _
    have hih : ∀ m < n,
        reportReadOk (u.step (reportReadFrames signChunkRequest) 68) (68 * m) 64
        ∧ reportByte (u.step (reportReadFrames signChunkRequest) 68) (68 * m) 2 = i + 1 + m := by
      intro m hm
      obtain ⟨⟨a0, a1, a2, a3⟩, a5⟩ := h (m + 1) (Nat.succ_lt_succ hm)
      simp only [reportReadOk, reportByte, hpeek]
      rw [show 68 + 68 * m = 68 * (m + 1) by omega,
        show 68 + (68 * m + 1) = 68 * (m + 1) + 1 by omega,
        show 68 + (68 * m + 2) = 68 * (m + 1) + 2 by omega,
        show 68 + (68 * m + 3 + 64) = 68 * (m + 1) + 3 + 64 by omega,
        show 68 + (68 * m + 3 + 2) = 68 * (m + 1) + 3 + 2 by omega,
        show i + 1 + m = i + (m + 1) by omega]
      exact ⟨⟨a0, a1, a2, a3⟩, a5⟩
    obtain ⟨r1, r2, fs, r3⟩ := ih (i + 1) (ch375GetSignatureChunk (response i) authBuffer u).2.1
      (u.step (reportReadFrames signChunkRequest) 68) hih
    rw [hloop]
    refine ⟨?_, ?_, ?_⟩
    · intro m hm o ho
      cases m with
      | zero =>
        rw [r2 _ (by omega), c2, h5]
        have hin : i * 56 ≤ 56 * (i + 0) + o ∧ 56 * (i + 0) + o < i * 56 + 56 := by omega
        rw [if_pos (by simpa using hin)]
        simp only [reportByte]
        congr 1
        omega
      | succ m =>
        have := r1 m (by omega) o ho
        rw [show 56 * (i + (m + 1)) + o = 56 * (i + 1 + m) + o by omega, this]
        simp only [reportByte, hpeek]
        congr 1
        omega
    · intro a ha
      rw [r2 a (by omega), c2, h5]
      have hout : ¬ (i * 56 ≤ a ∧ a < i * 56 + 56) := by omega
      rw [if_neg (by simpa using hout)]
    · refine ⟨reportReadFrames signChunkRequest ++ fs, ?_⟩
      rw [r3, step_step]
      congr 1
      omega

theorem polled_eq (env : TickEnv) (w : World) :
    polled env w = (process.connectionCheck (env.cTime % 2 ^ 32) w.self w.uart).2 := rfl

theorem process_challenge_sent (crc : List Nat → Nat) (env : TickEnv) (w : World)
    (hinit : w.self.initFailed = false) (hcs : w.self.challengeSent = false)
    (hflag : w.ps4.ps4State = PS4State.nonce_ready)
    (hok : ∀ j < 15, (polled env w).peek j = 0x14) :
    (process crc env w).self.initFailed = false
    ∧ (process crc env w).self.challengeSent = true
    ∧ (process crc env w).self.sequenceCounter = w.self.sequenceCounter
    ∧ (process crc env w).ps4 = w.ps4 := by
  have h := (sendChallenge_fst crc w.ps4.nonce_buffer w.self.sequenceCounter
    (polled env w)).2 hok
  rw [process_eq]
  simp [hinit, hflag, hcs, h, connectionCheck_challengeSent, connectionCheck_sequenceCounter,
    connectionCheck_initFailed]

theorem process_signature_read (crc : List Nat → Nat) (env : TickEnv) (w : World)
    (hinit : w.self.initFailed = false) (hcs : w.self.challengeSent = true)
    (hflag : w.ps4.ps4State = PS4State.nonce_ready)
    (hready : (ch375GetSignState env.state (polled env w)).1 = true) :
    (process crc env w).self.challengeSent = false
    ∧ (process crc env w).self.sequenceCounter = (w.self.sequenceCounter + 1) % 2 ^ 32
    ∧ (process crc env w).ps4.ps4State = PS4State.signed_nonce_ready
    ∧ (process crc env w).ps4.ps4_auth_buffer
        = (ch375GetSignature env.response w.ps4.ps4_auth_buffer
            (ch375GetSignState env.state (polled env w)).2).2.1 := by
  rw [process_eq]
  simp [hinit, hflag, hcs, hready, connectionCheck_challengeSent,
    connectionCheck_sequenceCounter]

theorem connectCase_eq (u : Uart) :
    ch375TestConnect.connectCase u =
      if u.peek 0 ≠ 0x51 then u.step (enumerationFrames.take 2) 1
      else if u.peek 1 ≠ 0x51 then u.step (enumerationFrames.take 4) 2
      else if u.peek 2 ≠ 0x14 then u.step (enumerationFrames.take 7) 3
      else if u.peek 3 ≠ 18 then u.step enumerationFrames 4
      else if acceptedDevice (u.peek 12 + 256 * u.peek 13) (u.peek 14 + 256 * u.peek 15) then
        u.step (enumerationFrames ++ [Frame.cmd CH375Cmd.autoSetup, Frame.cmd CH375Cmd.getStatus]) 23
      else u.step enumerationFrames 22 := by
  unfold ch375TestConnect.connectCase
  simp only [sendCmd_eq, sendData_eq, setUsbMode_eq, getChar_eq, step_step, step_peek,
    read_eq _ _ _ (peek_lt _ _), CH375IntStatus.intSuccess, tusb_desc_device_t.sizeof,
    tusb_desc_device_t.idVendor, tusb_desc_device_t.idProduct, acceptedDevice]
  by_cases h0 : u.peek 0 = 0x51 <;> by_cases h1 : u.peek 1 = 0x51 <;>
    by_cases h2 : u.peek 2 = 0x14 <;> by_cases h3 : u.peek 3 = 18 <;>
    simp [h0, h1, h2, h3, enumerationFrames]
  split_ifs <;> first | rfl | (exfalso; tauto)

theorem testConnect_eq (self : PS4AuthPassThroughAddon) (u : Uart) :
    ch375TestConnect self u =
      if self.curIntStatus ≠ u.peek 0 then
        ({ self with curIntStatus := u.peek 0 },
          if u.peek 0 = CH375IntStatus.disconnect then
            u.step [Frame.cmd CH375Cmd.testConnect, Frame.cmd CH375Cmd.setUsbMode,
              Frame.data CH375UsbMode.hostEnabled] 2
          else if u.peek 0 = CH375IntStatus.connect then
            ch375TestConnect.connectCase (u.step [Frame.cmd CH375Cmd.testConnect] 1)
          else u.step [Frame.cmd CH375Cmd.testConnect] 1)
      else (self, u.step [Frame.cmd CH375Cmd.testConnect] 1) := by
  unfold ch375TestConnect
  simp only [sendCmd_eq, getChar_eq, setUsbMode_eq, step_step, step_peek]
  by_cases h : self.curIntStatus = u.peek 0 <;>
    by_cases h1 : u.peek 0 = CH375IntStatus.disconnect <;> simp [h, h1]

theorem framesWritten_step (u : Uart) (fs : List Frame) (k : Nat) :
    framesWritten u (u.step fs k) = fs := by
  simp [framesWritten]

theorem quiet_refl (u : Uart) : Quiet u u := ⟨[], 0, (step_zero u).symm, by simp⟩

theorem quiet_step (u : Uart) (fs : List Frame) (k : Nat) (h : Frame.data 0x21 ∉ fs) :
    Quiet u (u.step fs k) := ⟨fs, k, rfl, h⟩

theorem quiet_trans {u v w : Uart} (h1 : Quiet u v) (h2 : Quiet v w) : Quiet u w := by
  obtain ⟨fs, k, rfl, hf⟩ := h1
  obtain ⟨gs, j, rfl, hg⟩ := h2
  exact ⟨fs ++ gs, k + j, step_step _ _ _ _ _, by simp [hf, hg]⟩

theorem challengeSetupFrames_mem : Frame.data 0x21 ∈ challengeSetupFrames := by decide

theorem not_transmits_of_quiet {u u' : Uart} (h : Quiet u u') :
    ¬ transmitsChallenge (framesWritten u u') := by
  obtain ⟨fs, k, rfl, hf⟩ := h
  rw [framesWritten_step]
  intro hin
  exact hf (hin.subset challengeSetupFrames_mem)

theorem sendRequest_quiet (req : tusb_control_request_t) (buf : Nat → Nat) (u : Uart)
    (h : Frame.data 0x21 ∉ reportReadFrames req) :
    Quiet u (ch375SendRequest req buf u).2.2 := by
  rw [sendRequest_eq]
  simp only [reportReadFrames, List.mem_append, not_or] at h
  obtain ⟨⟨⟨h1, h2⟩, h3⟩, h4⟩ := h
  split_ifs <;> apply quiet_step <;> intro hm <;>
    first
    | exact h1 hm
    | (simp only [List.mem_append] at hm; tauto)

theorem getSignState_quiet (state : Nat → Nat) (u : Uart) :
    Quiet u (ch375GetSignState state u).2 := by
  unfold ch375GetSignState
  exact sendRequest_quiet _ _ _ (by decide)

theorem getSignatureChunk_quiet (response authBuffer : Nat → Nat) (u : Uart) :
    Quiet u (ch375GetSignatureChunk response authBuffer u).2.2 := by
  unfold ch375GetSignatureChunk
  exact sendRequest_quiet _ _ _ (by decide)

theorem getSignatureLoop_quiet (response : Nat → Nat → Nat) (n i : Nat) (authBuffer : Nat → Nat)
    (u : Uart) : Quiet u (ch375GetSignatureLoop response n i authBuffer u).2.2 := by
  induction n generalizing i authBuffer u with
  | zero => simp [ch375GetSignatureLoop, quiet_refl]
  | succ n ih =>
    rw [ch375GetSignatureLoop]
    have h1 : (ch375GetSignatureChunk (response i) authBuffer u).1 = true := by
      simp [ch375GetSignatureChunk]
    simp only [h1, Bool.not_true, Bool.false_eq_true, if_false]
    exact quiet_trans (getSignatureChunk_quiet _ _ _) (ih _ _ _)

theorem getSignature_quiet (response : Nat → Nat → Nat) (authBuffer : Nat → Nat) (u : Uart) :
    Quiet u (ch375GetSignature response authBuffer u).2.2 := by
  unfold ch375GetSignature
  exact getSignatureLoop_quiet _ _ _ _ _

theorem connectCase_quiet (u : Uart) : Quiet u (ch375TestConnect.connectCase u) := by
  rw [connectCase_eq]
  split_ifs <;> apply quiet_step <;> decide

theorem testConnect_quiet (self : PS4AuthPassThroughAddon) (u : Uart) :
    Quiet u (ch375TestConnect self u).2 := by
  rw [testConnect_eq]
  split_ifs
  · exact quiet_step _ _ _ (by decide)
  · exact quiet_trans (quiet_step _ _ 1 (by decide)) (connectCase_quiet _)
  · exact quiet_step _ _ _ (by decide)
  · exact quiet_step _ _ _ (by decide)

theorem polled_quiet (env : TickEnv) (w : World) : Quiet w.uart (polled env w) := by
  unfold polled process.connectionCheck
  split_ifs
  · exact testConnect_quiet _ _
  · exact quiet_refl _

theorem process_quiet (crc : List Nat → Nat) (env : TickEnv) (w : World)
    (h : w.ps4.ps4State ≠ PS4State.nonce_ready ∨ w.self.challengeSent = true) :
    Quiet w.uart (process crc env w).uart := by
  rw [process_eq]
  by_cases h0 : w.self.initFailed = true
  · simp [h0, quiet_refl]
  · by_cases h1 : w.ps4.ps4State = PS4State.nonce_ready
    · have hcs : w.self.challengeSent = true := by
        rcases h with h | h
        · exact absurd h1 h
        · exact h
      simp only [h0, h1, connectionCheck_challengeSent, hcs, if_true, if_false, Bool.not_true,
        Bool.false_eq_true]
      split_ifs
      · exact quiet_trans (polled_quiet env w)
          (quiet_trans (getSignState_quiet _ _) (getSignature_quiet _ _ _))
      · exact quiet_trans (polled_quiet env w) (getSignState_quiet _ _)
    · simp only [h0, h1, if_false]
      exact polled_quiet env w

theorem testConnect_enumerates (self : PS4AuthPassThroughAddon) (u : Uart) (v p : Nat)
    (h : enumerates self u v p) :
    ch375TestConnect self u =
      ({ self with curIntStatus := CH375IntStatus.connect },
        if acceptedDevice v p then
          u.step ([Frame.cmd CH375Cmd.testConnect] ++ enumerationFrames
            ++ [Frame.cmd CH375Cmd.autoSetup, Frame.cmd CH375Cmd.getStatus]) 24
        else u.step ([Frame.cmd CH375Cmd.testConnect] ++ enumerationFrames) 23) := by
  obtain ⟨h0, h1, h2, h3, h4, h5, h6, h7⟩ := h
  rw [testConnect_eq, connectCase_eq]
  simp only [step_peek, step_step]
  simp only [CH375Retcode.success, CH375IntStatus.intSuccess, CH375IntStatus.connect,
    CH375IntStatus.disconnect] at h0 h1 h2 h3 h4 h5 ⊢
  rw [h1] at h0
  simp [h0, h1, h2, h3, h4, h5, h6, h7]

theorem autoSetup_not_mem :
    Frame.cmd CH375Cmd.autoSetup ∉ [Frame.cmd CH375Cmd.testConnect] ++ enumerationFrames := by
  decide

theorem polled_of_polls (env : TickEnv) (w : World) (h : polls env w) :
    polled env w = (ch375TestConnect w.self w.uart).2 := by
  unfold polled process.connectionCheck
  rw [if_pos h.2]

theorem connectionCheck_of_polls (env : TickEnv) (w : World) (h : polls env w) :
    (process.connectionCheck (env.cTime % 2 ^ 32) w.self w.uart).1
      = { w.self with curIntStatus := w.uart.peek 0, lastConnectCheck := env.cTime % 2 ^ 32 } := by
  unfold process.connectionCheck
  rw [if_pos h.2]
  simp [testConnect_self]

theorem process_transmits_only_if (crc : List Nat → Nat) (env : TickEnv) (w : World)
    (h : transmitsChallenge (framesWritten w.uart (process crc env w).uart)) :
    w.ps4.ps4State = PS4State.nonce_ready ∧ w.self.challengeSent = false := by
  by_contra hc
  have hq : w.ps4.ps4State ≠ PS4State.nonce_ready ∨ w.self.challengeSent = true := by
    by_cases h1 : w.ps4.ps4State = PS4State.nonce_ready
    · right
      cases hcs : w.self.challengeSent
      · exact absurd ⟨h1, hcs⟩ hc
      · rfl
    · left; exact h1
  exact not_transmits_of_quiet (process_quiet crc env w hq) h

theorem sendChallenge_ok (crc : List Nat → Nat) (nonce : Nat → Nat) (seq : Nat) (u : Uart)
    (h : ∀ j < 15, u.peek j = 0x14) :
    ch375SendChallenge crc nonce seq u =
      (true, u.step
        (chunkTransferFrames (challengeChunkAt crc nonce seq 0).2
          ++ chunkTransferFrames (challengeChunkAt crc nonce seq 1).2
          ++ chunkTransferFrames (challengeChunkAt crc nonce seq 2).2
          ++ chunkTransferFrames (challengeChunkAt crc nonce seq 3).2
          ++ chunkTransferFrames (challengeChunkAt crc nonce seq 4).2) 15) := by
  unfold ch375SendChallenge
  rw [sendChallengeLoop_ok crc nonce 5 0 _ _ u h]
  simp [challengeLoopFrames, challengeChunkAt]

theorem bytes_length (c : signChallenge) : c.bytes.length = 64 := by
  simp [signChallenge.bytes, DS4_CHUNK_SIZE]

theorem bytes_payload (c : signChallenge) (j : Nat) (hj : j < 56) :
    c.bytes.getD (4 + j) 0 = c.data j % 256 := by
  simp only [signChallenge.bytes, DS4_CHUNK_SIZE, List.getD_eq_getElem?_getD]
  rw [List.append_assoc, List.getElem?_append_right (by simp)]
  simp [List.getElem?_append_left, hj]

theorem chunkAt_data (crc : List Nat → Nat) (nonce : Nat → Nat) (seq k j : Nat)
    (hk : k < 5) (hj : j < 56) :
    (challengeChunkAt crc nonce seq k).2.data j =
      if k = 4 then (if j < 32 then nonce (224 + j) % 256 else 0)
      else nonce (56 * k + j) % 256 := by
  interval_cases k <;>
    simp [challengeChunkAt, challengeStep, memcpy, memset, DS4_CHUNK_SIZE, hj, Nat.add_comm]

theorem outStage_chunk (c : signChallenge) :
    outStageFrames (fun i => c.bytes.getD i 0) 64
      = [Frame.cmd CH375Cmd.wrUsbData, Frame.data 64] ++ c.bytes.map Frame.data
        ++ [Frame.cmd CH375Cmd.setEndp7, Frame.data CH375WMode.data1,
            Frame.cmd CH375Cmd.issueToken,
            Frame.data ((DS4Endpoint.epControl % 256) <<< 4 ||| CH375TokenPid.out),
            Frame.cmd CH375Cmd.getStatus] := by
  have h : (List.range 64).map (fun i => c.bytes.getD i 0) = c.bytes := by
    apply List.ext_getElem
    · simp [bytes_length]
    · intro i h1 h2
      simp [List.getD_eq_getElem?_getD, List.getElem?_eq_getElem h2]
  simp only [outStageFrames, h]

theorem sendChallengeLoop_extends (crc : List Nat → Nat) (nonce : Nat → Nat) (n rc cb : Nat)
    (ch : signChallenge) (u : Uart) :
    ∃ fs k, (ch375SendChallengeLoop crc nonce n rc cb ch u).2 = u.step fs k := by
  induction n generalizing rc cb ch u with
  | zero => exact ⟨[], 0, by simp [ch375SendChallengeLoop, step_zero]⟩
  | succ n ih =>
    rw [ch375SendChallengeLoop]
    simp only [setChallengeChunk_eq]
    by_cases h0 : u.peek 0 = 0x14
    · by_cases h1 : u.peek 1 = 0x14
      · by_cases h2 : u.peek 2 = 0x14
        · simp only [h0, h1, h2, if_true, decide_True, Bool.not_true, Bool.false_eq_true,
            if_false]
          obtain ⟨fs, k, h⟩ := ih (rc + 1) (challengeStep crc nonce rc cb ch).1
            (challengeStep crc nonce rc cb ch).2
            (u.step (chunkTransferFrames (challengeStep crc nonce rc cb ch).2) 3)
          exact ⟨_, _, by rw [h, step_step]⟩
        · simp only [h0, h1, h2, if_true, decide_False, Bool.not_false]
          exact ⟨_, _, rfl⟩
      · simp only [h0, h1, if_true, if_false, Bool.not_false]
        exact ⟨_, _, rfl⟩
    · simp only [h0, if_false, Bool.not_false, if_true]
      exact ⟨_, _, rfl⟩

theorem setChallengeChunk_prefix (chunk : signChallenge) (u : Uart) :
    ∃ fs k, (ch375SetChallengeChunk chunk u).2 = u.step (challengeSetupFrames ++ fs) k := by
  rw [setChallengeChunk_eq]
  simp only [chunkTransferFrames, challengeSetupFrames, List.append_assoc]
  split_ifs
  · exact ⟨_, _, rfl⟩
  · exact ⟨_, _, rfl⟩
  · exact ⟨[], 1, by simp⟩

theorem sendChallenge_prefix (crc : List Nat → Nat) (nonce : Nat → Nat) (seq : Nat)
    (u : Uart) :
    ∃ fs k, (ch375SendChallenge crc nonce seq u).2 = u.step (challengeSetupFrames ++ fs) k := by
  unfold ch375SendChallenge
  rw [ch375SendChallengeLoop]
  obtain ⟨fs, k, h⟩ := setChallengeChunk_prefix
    (challengeStep crc nonce 0 DS4_CHUNK_SIZE
      { reportId := 0xf0, sequenceCounter := seq % 256, reportCounter := 0, zero := 0,
        data := fun _ => 0, crc32 := 0 }).2 u
  split_ifs
  · exact ⟨fs, k, h⟩
  · obtain ⟨gs, j, h2⟩ := sendChallengeLoop_extends crc nonce 4 (0 + 1)
      (challengeStep crc nonce 0 DS4_CHUNK_SIZE
        { reportId := 0xf0, sequenceCounter := seq % 256, reportCounter := 0, zero := 0,
          data := fun _ => 0, crc32 := 0 }).1
      (challengeStep crc nonce 0 DS4_CHUNK_SIZE
        { reportId := 0xf0, sequenceCounter := seq % 256, reportCounter := 0, zero := 0,
          data := fun _ => 0, crc32 := 0 }).2
      (ch375SetChallengeChunk (challengeStep crc nonce 0 DS4_CHUNK_SIZE
        { reportId := 0xf0, sequenceCounter := seq % 256, reportCounter := 0, zero := 0,
          data := fun _ => 0, crc32 := 0 }).2 u).2
    exact ⟨fs ++ gs, k + j, by rw [h2, h, step_step, List.append_assoc]⟩

theorem sendChallenge_transmits (crc : List Nat → Nat) (nonce : Nat → Nat) (seq : Nat)
    (u : Uart) :
    transmitsChallenge (framesWritten u (ch375SendChallenge crc nonce seq u).2) := by
  obtain ⟨fs, k, h⟩ := sendChallenge_prefix crc nonce seq u
  rw [h, framesWritten_step]
  exact ⟨[], fs, by simp⟩

theorem process_transmits_iff (crc : List Nat → Nat) (env : TickEnv) (w : World) :
    transmitsChallenge (framesWritten w.uart (process crc env w).uart)
      ↔ (w.self.initFailed = false ∧ w.ps4.ps4State = PS4State.nonce_ready
          ∧ w.self.challengeSent = false) := by
  constructor
  · intro h
    obtain ⟨h1, h2⟩ := process_transmits_only_if crc env w h
    refine ⟨?_, h1, h2⟩
    cases hi : w.self.initFailed
    · rfl
    · rw [process_initFailed crc env w hi] at h
      exact absurd h (not_transmits_of_quiet (quiet_refl _))
  · rintro ⟨h0, h1, h2⟩
    obtain ⟨ps, k, hp, _⟩ := polled_quiet env w
    obtain ⟨fs, j, hs⟩ := sendChallenge_prefix crc w.ps4.nonce_buffer
      (process.connectionCheck (env.cTime % 2 ^ 32) w.self w.uart).1.sequenceCounter
      (polled env w)
    have hu : (process crc env w).uart = w.uart.step (ps ++ (challengeSetupFrames ++ fs)) (k + j) := by
      rw [process_eq]
      simp only [h0, h1, connectionCheck_challengeSent, h2, Bool.false_eq_true, if_false,
        if_true, Bool.not_false]
      split_ifs <;> rw [hs, hp, step_step]
    rw [hu, framesWritten_step]
    exact ⟨ps, fs, by simp⟩

theorem process_keeps_initFailed (crc : List Nat → Nat) (env : TickEnv) (w : World) :
    (process crc env w).self.initFailed = w.self.initFailed := by
  rw [process_eq]
  split_ifs <;> simp [connectionCheck_initFailed]

theorem setBaudRate_eq (baudRate : Nat) (u : Uart) :
    ch375SetBaudRate baudRate u =
      if baudRate = 9600 then
        (decide (u.peek 0 ≠ CH375Retcode.success),
          uart_set_baudrate (u.step [Frame.cmd CH375Cmd.setBaudRate, Frame.data 0x02,
            Frame.data 0xb2] 1) baudRate)
      else if baudRate = 19200 then
        (decide (u.peek 0 ≠ CH375Retcode.success),
          uart_set_baudrate (u.step [Frame.cmd CH375Cmd.setBaudRate, Frame.data 0x02,
            Frame.data 0xd9] 1) baudRate)
      else if baudRate = 57600 then
        (decide (u.peek 0 ≠ CH375Retcode.success),
          uart_set_baudrate (u.step [Frame.cmd CH375Cmd.setBaudRate, Frame.data 0x03,
            Frame.data 0x98] 1) baudRate)
      else if baudRate = 115200 then
        (decide (u.peek 0 ≠ CH375Retcode.success),
          uart_set_baudrate (u.step [Frame.cmd CH375Cmd.setBaudRate, Frame.data 0x03,
            Frame.data 0xcc] 1) baudRate)
      else (false, u) := by
  unfold ch375SetBaudRate
  split_ifs <;>
    simp [sendCmd_eq, sendData_eq, getChar_eq, uart_set_baudrate, Uart.step, Uart.peek]

theorem setBaudRate_result (baudRate : Nat) (u : Uart)
    (h : baudRate = 9600 ∨ baudRate = 19200 ∨ baudRate = 57600 ∨ baudRate = 115200) :
    ((ch375SetBaudRate baudRate u).1 = true ↔ u.peek 0 ≠ CH375Retcode.success) := by
  rw [setBaudRate_eq]
  rcases h with h | h | h | h <;> simp [h]

theorem le32_le32Bytes (v : Nat) : le32 (le32Bytes v) = v % 2 ^ 32 := by
  simp only [le32, le32Bytes, List.getD_cons_zero, List.getD_cons_succ]
  omega

theorem bytes_take (c : signChallenge) :
    c.bytes.take 60
      = [c.reportId % 256, c.sequenceCounter % 256, c.reportCounter % 256, c.zero % 256]
        ++ (List.range 56).map (fun j => c.data j % 256) := by
  simp only [signChallenge.bytes, DS4_CHUNK_SIZE]
  rw [List.take_append_of_le_length (by simp)]
  rw [List.take_of_length_le (by simp)]

theorem bytes_drop (c : signChallenge) : c.bytes.drop 60 = le32Bytes c.crc32 := by
  simp only [signChallenge.bytes, DS4_CHUNK_SIZE, le32Bytes]
  rw [List.drop_append_of_le_length (by simp)]
  rw [List.drop_of_length_le (by simp)]
  rfl

theorem bytes_header (c : signChallenge) :
    c.bytes.getD 0 0 = c.reportId % 256 ∧ c.bytes.getD 1 0 = c.sequenceCounter % 256
    ∧ c.bytes.getD 2 0 = c.reportCounter % 256 ∧ c.bytes.getD 3 0 = c.zero % 256 := by
  simp [signChallenge.bytes]

theorem challengeStep_header (crc : List Nat → Nat) (nonce : Nat → Nat) (rc cb : Nat)
    (ch : signChallenge) :
    (challengeStep crc nonce rc cb ch).2.reportId = ch.reportId
    ∧ (challengeStep crc nonce rc cb ch).2.sequenceCounter = ch.sequenceCounter
    ∧ (challengeStep crc nonce rc cb ch).2.reportCounter = rc
    ∧ (challengeStep crc nonce rc cb ch).2.zero = ch.zero := by
  unfold challengeStep
  split_ifs <;> simp

theorem challengeStep_crc (crc : List Nat → Nat) (nonce : Nat → Nat) (rc cb : Nat)
    (ch : signChallenge) :
    (challengeStep crc nonce rc cb ch).2.crc32
      = crc ((challengeStep crc nonce rc cb ch).2.bytes.take 60) % 2 ^ 32 := by
  unfold challengeStep
  split_ifs <;> simp [bytes_take]

theorem chunkAt_header (crc : List Nat → Nat) (nonce : Nat → Nat) (seq : Nat) :
    ∀ k, (challengeChunkAt crc nonce seq k).2.reportId = 0xf0
    ∧ (challengeChunkAt crc nonce seq k).2.sequenceCounter = seq % 256
    ∧ (challengeChunkAt crc nonce seq k).2.reportCounter = k
    ∧ (challengeChunkAt crc nonce seq k).2.zero = 0
  | 0 => by
    simp only [challengeChunkAt]
    exact challengeStep_header _ _ _ _ _
  | k + 1 => by
    have ih := chunkAt_header crc nonce seq k
    simp only [challengeChunkAt]
    obtain ⟨h1, h2, h3, h4⟩ := challengeStep_header crc nonce (k + 1)
      (challengeChunkAt crc nonce seq k).1 (challengeChunkAt crc nonce seq k).2
    exact ⟨h1.trans ih.1, h2.trans ih.2.1, h3, h4.trans ih.2.2.2⟩

theorem chunkAt_crc (crc : List Nat → Nat) (nonce : Nat → Nat) (seq : Nat) (k : Nat) :
    (challengeChunkAt crc nonce seq k).2.crc32
      = crc ((challengeChunkAt crc nonce seq k).2.bytes.take 60) % 2 ^ 32 := by
  cases k <;> simp only [challengeChunkAt] <;> exact challengeStep_crc _ _ _ _ _

theorem process_completes_round (crc : List Nat → Nat) (env : TickEnv) (w : World)
    (hflag : w.ps4.ps4State = PS4State.nonce_ready)
    (hdone : (process crc env w).ps4.ps4State = PS4State.signed_nonce_ready) :
    w.self.initFailed = false ∧ w.self.challengeSent = true
    ∧ (ch375GetSignState env.state (polled env w)).1 = true := by
  rw [process_eq] at hdone
  cases hinit : w.self.initFailed
  · cases hcs : w.self.challengeSent
    · simp only [hinit, hflag, connectionCheck_challengeSent, hcs] at hdone
      split_ifs at hdone <;> simp_all
    · cases hr : (ch375GetSignState env.state (polled env w)).1
      · simp [hinit, hflag, connectionCheck_challengeSent, hcs, hr] at hdone
      · simp
  · simp [hinit, hflag] at hdone

set_option maxRecDepth 100000 in
theorem complement_xor : ∀ t < 256, 255 - t = t ^^^ 0xff := by
  decide

theorem countBits_mod (b : Nat) : countBits (b % 256) = countBits b := by
  simp [countBits]

theorem getParity_mod (b : Nat) (isCmd : Bool) : getParity (b % 256) isCmd = getParity b isCmd := by
  simp [getParity, countBits_mod]

theorem getParity_ne (b : Nat) : getParity b true ≠ getParity b false := by
  by_cases h : countBits b % 2 = 0 <;> simp [getParity, h]

theorem getParity_congr (a b : Nat) (isCmd : Bool) (h : a % 256 = b % 256) :
    getParity a isCmd = getParity b isCmd := by
  rw [← getParity_mod a, ← getParity_mod b, h]

theorem cmd_ne_data (c d : Nat) : Frame.cmd c ≠ Frame.data d := by
  intro h
  have hb : c % 256 = d % 256 := congrArg Frame.byte h
  have hp : getParity c true = getParity (d % 256) false := congrArg Frame.parity h
  rw [getParity_congr c (d % 256) true (by rw [hb, Nat.mod_mod])] at hp
  exact getParity_ne _ hp

theorem frameData_mod (d : Nat) : Frame.data (d % 256) = Frame.data d := by
  simp [Frame.data]

theorem pollOnly_refl (u : Uart) : PollOnly u u := ⟨[], 0, (step_zero u).symm, by simp⟩

theorem pollOnly_step (u : Uart) (fs : List Frame) (k : Nat) (h : ∀ f ∈ fs, f ∈ pollFrames) :
    PollOnly u (u.step fs k) := ⟨fs, k, rfl, h⟩

theorem pollOnly_trans {u v w : Uart} (h1 : PollOnly u v) (h2 : PollOnly v w) : PollOnly u w := by
  obtain ⟨fs, k, rfl, hf⟩ := h1
  obtain ⟨gs, j, rfl, hg⟩ := h2
  refine ⟨fs ++ gs, k + j, step_step _ _ _ _ _, fun f hm => ?_⟩
  rcases List.mem_append.1 hm with h | h
  · exact hf f h
  · exact hg f h

theorem pollOnly_framesWritten {u u' : Uart} (h : PollOnly u u') :
    ∀ f ∈ framesWritten u u', f ∈ pollFrames := by
  obtain ⟨fs, k, rfl, hf⟩ := h
  rw [framesWritten_step]
  exact hf

theorem connectCase_pollOnly (u : Uart) : PollOnly u (ch375TestConnect.connectCase u) := by
  rw [connectCase_eq]
  split_ifs <;> apply pollOnly_step <;> decide

theorem testConnect_pollOnly (self : PS4AuthPassThroughAddon) (u : Uart) :
    PollOnly u (ch375TestConnect self u).2 := by
  rw [testConnect_eq]
  split_ifs
  · exact pollOnly_step _ _ _ (by decide)
  · exact pollOnly_trans (pollOnly_step _ _ 1 (by decide)) (connectCase_pollOnly _)
  · exact pollOnly_step _ _ _ (by decide)
  · exact pollOnly_step _ _ _ (by decide)

theorem polled_pollOnly (env : TickEnv) (w : World) : PollOnly w.uart (polled env w) := by
  unfold polled process.connectionCheck
  split_ifs
  · exact testConnect_pollOnly _ _
  · exact pollOnly_refl _

theorem polled_of_not_polls (env : TickEnv) (w : World) (hinit : w.self.initFailed = false)
    (h : ¬ polls env w) : polled env w = w.uart := by
  unfold polled process.connectionCheck
  rw [if_neg (fun hc => h ⟨hinit, hc⟩)]

theorem testConnect_first (self : PS4AuthPassThroughAddon) (u : Uart) :
    Frame.cmd CH375Cmd.testConnect ∈ framesWritten u (ch375TestConnect self u).2 := by
  rw [testConnect_eq]
  split_ifs
  · rw [framesWritten_step]
    exact List.mem_cons_self _ _
  · rw [connectCase_eq]
    split_ifs <;> simp only [step_step, framesWritten_step] <;> exact List.mem_cons_self _ _
  · rw [framesWritten_step]
    exact List.mem_cons_self _ _
  · rw [framesWritten_step]
    exact List.mem_cons_self _ _

theorem framesWritten_self (u : Uart) : framesWritten u u = [] := by
  simp [framesWritten]

theorem process_lastConnectCheck (crc : List Nat → Nat) (env : TickEnv) (w : World)
    (hinit : w.self.initFailed = false) :
    (process crc env w).self.lastConnectCheck
      = if polls env w then env.cTime % 2 ^ 32 else w.self.lastConnectCheck := by
  have h1 : (process crc env w).self.lastConnectCheck
      = (process.connectionCheck (env.cTime % 2 ^ 32) w.self w.uart).1.lastConnectCheck := by
    rw [process_eq]
    simp only [hinit, Bool.false_eq_true, if_false]
    split_ifs <;> rfl
  rw [h1]
  by_cases hp : polls env w
  · rw [if_pos hp, connectionCheck_of_polls env w hp]
  · rw [if_neg hp]
    unfold process.connectionCheck
    rw [if_neg (fun hc => hp ⟨hinit, hc⟩)]

theorem polls_iff_elapsed (env : TickEnv) (w : World) (hinit : w.self.initFailed = false)
    (hL : w.self.lastConnectCheck ≠ 0) (hle : w.self.lastConnectCheck ≤ env.cTime)
    (hlt : env.cTime < 2 ^ 32) :
    polls env w ↔ w.self.lastConnectCheck + 500 < env.cTime := by
  unfold polls
  simp only [hinit, true_and, CONNECTION_CHECK_DELAY, hL, false_or]
  have h32 : (2 : Nat) ^ 32 = 4294967296 := by norm_num
  rw [h32] at hlt ⊢
  omega

theorem run_cadence (crc : List Nat → Nat) : ∀ (envs : List TickEnv) (w : World),
    w.self.initFailed = false → w.self.lastConnectCheck ≠ 0 →
    (∀ e ∈ envs, w.self.lastConnectCheck ≤ e.cTime ∧ e.cTime < 2 ^ 32) →
    List.Pairwise (fun a b : TickEnv => a.cTime ≤ b.cTime) envs →
    (∀ t ∈ pollTimes crc envs w, w.self.lastConnectCheck + 500 < t)
    ∧ List.Pairwise (fun a b => a + 500 < b) (pollTimes crc envs w)
    ∧ (∀ c ∈ checkTrace crc envs w, w.self.lastConnectCheck ≤ c)
    ∧ List.Pairwise (fun a b => a ≤ b) (checkTrace crc envs w)
  | [], w, _, _, _, _ => by simp [pollTimes, checkTrace]
  | env :: rest, w, hinit, hL, hb, hmono => by
    obtain ⟨hle, hlt⟩ := hb env (List.mem_cons_self _ _)
    obtain ⟨hnext, hrest⟩ := List.pairwise_cons.1 hmono
    have hmod : env.cTime % 2 ^ 32 = env.cTime := Nat.mod_eq_of_lt hlt
    have hinit' : (process crc env w).self.initFailed = false := by
      rw [process_keeps_initFailed, hinit]
    have hlast := process_lastConnectCheck crc env w hinit
    by_cases hp : polls env w
    · have hgap := (polls_iff_elapsed env w hinit hL hle hlt).1 hp
      rw [if_pos hp, hmod] at hlast
      obtain ⟨i1, i2, i3, i4⟩ := run_cadence crc rest (process crc env w) hinit'
        (by rw [hlast]; omega)
        (fun e he => by rw [hlast]; exact ⟨hnext e he, (hb e (List.mem_cons_of_mem _ he)).2⟩)
        hrest
      rw [hlast] at i1 i3
      simp only [pollTimes, checkTrace, if_pos hp, hmod, hlast, List.mem_cons,
        List.pairwise_cons]
      refine ⟨?_, ⟨i1, i2⟩, ?_, ⟨i3, i4⟩⟩
      · rintro t (rfl | ht)
        · exact hgap
        · have := i1 t ht
          omega
      · rintro c (rfl | hc)
        · exact hle
        · have := i3 c hc
          omega
    · rw [if_neg hp] at hlast
      obtain ⟨i1, i2, i3, i4⟩ := run_cadence crc rest (process crc env w) hinit'
        (by rw [hlast]; exact hL)
        (fun e he => by rw [hlast]; exact hb e (List.mem_cons_of_mem _ he))
        hrest
      rw [hlast] at i1 i3
      simp only [pollTimes, checkTrace, if_neg hp, hlast, List.mem_cons, List.pairwise_cons]
      refine ⟨i1, i2, ?_, ⟨i3, i4⟩⟩
      rintro c (rfl | hc)
      · exact Nat.le_refl _
      · exact i3 c hc

theorem sendChallenge_sendChunks (crc : List Nat → Nat) (nonce : Nat → Nat) (seq : Nat)
    (u : Uart) :
    ch375SendChallenge crc nonce seq u = sendChunks (challengeChunks crc nonce seq) u := by
  unfold ch375SendChallenge
  simp only [ch375SendChallengeLoop, sendChunks, challengeChunks, challengeChunkAt]

theorem setChallengeChunk_attempt (chunk : signChallenge) (u : Uart) :
    ch375SetChallengeChunk chunk u
      = (decide (u.peek 0 = 0x14 ∧ u.peek 1 = 0x14 ∧ u.peek 2 = 0x14),
          u.step (attemptFrames chunk (u.peek 0) (u.peek 1))
            (attemptReads (u.peek 0) (u.peek 1))) := by
  rw [setChallengeChunk_eq]
  simp only [attemptFrames, attemptReads, CH375IntStatus.intSuccess]
  by_cases h0 : u.peek 0 = 0x14 <;> by_cases h1 : u.peek 1 = 0x14 <;>
    simp [h0, h1, chunkTransferFrames]

theorem sendChunks_stop : ∀ (pre : List signChallenge) (c : signChallenge)
    (post : List signChallenge) (u : Uart),
    (∀ j < 3 * pre.length, u.peek j = 0x14) →
    ¬ (u.peek (3 * pre.length) = 0x14 ∧ u.peek (3 * pre.length + 1) = 0x14
        ∧ u.peek (3 * pre.length + 2) = 0x14) →
    sendChunks (pre ++ c :: post) u
      = (false, u.step
          (transfersFrames pre
            ++ attemptFrames c (u.peek (3 * pre.length)) (u.peek (3 * pre.length + 1)))
          (3 * pre.length
            + attemptReads (u.peek (3 * pre.length)) (u.peek (3 * pre.length + 1))))
  | [], c, post, u, _, hfail => by
    have hd : decide (u.peek 0 = 0x14 ∧ u.peek 1 = 0x14 ∧ u.peek 2 = 0x14) = false := by
      simpa using hfail
    simp only [List.nil_append, sendChunks, setChallengeChunk_attempt, hd, Bool.not_false,
      if_true, List.length_nil, Nat.mul_zero, Nat.zero_add, transfersFrames]
  | p :: pre, c, post, u, hok, hfail => by
    have e0 : 3 * (p :: pre).length = 3 + 3 * pre.length := by
      simp only [List.length_cons]
      omega
    rw [e0] at hok hfail ⊢
    have h0 := hok 0 (by omega)
    have h1 := hok 1 (by omega)
    have h2 := hok 2 (by omega)
    have hd : decide (u.peek 0 = 0x14 ∧ u.peek 1 = 0x14 ∧ u.peek 2 = 0x14) = true := by
      simp [h0, h1, h2]
    have hf : attemptFrames p 0x14 0x14 = chunkTransferFrames p := by
      simp [attemptFrames, CH375IntStatus.intSuccess]
    have hr : attemptReads 0x14 0x14 = 3 := by
      simp [attemptReads, CH375IntStatus.intSuccess]
    have ih := sendChunks_stop pre c post (u.step (chunkTransferFrames p) 3)
      (fun j hj => by
        rw [step_peek]
        exact hok (3 + j) (by omega))
      (by
        simp only [step_peek, ← Nat.add_assoc]
        exact hfail)
    simp only [step_peek, step_step] at ih
    show sendChunks (p :: (pre ++ c :: post)) u = _
    rw [sendChunks, setChallengeChunk_attempt, hd, h0, h1, hf, hr]
    simp only [Bool.not_true, Bool.false_eq_true, if_false]
    rw [ih]
    simp only [transfersFrames, List.append_assoc, Nat.add_assoc]

theorem sendChallenge_stop (crc : List Nat → Nat) (nonce : Nat → Nat) (seq : Nat) (u : Uart)
    (k : Nat) (hk : k < 5) (hprev : ∀ j < 3 * k, u.peek j = 0x14)
    (hfail : ¬ (u.peek (3 * k) = 0x14 ∧ u.peek (3 * k + 1) = 0x14 ∧ u.peek (3 * k + 2) = 0x14)) :
    ch375SendChallenge crc nonce seq u
      = (false, u.step
          (transfersFrames ((challengeChunks crc nonce seq).take k)
            ++ attemptFrames (challengeChunkAt crc nonce seq k).2 (u.peek (3 * k))
                (u.peek (3 * k + 1)))
          (3 * k + attemptReads (u.peek (3 * k)) (u.peek (3 * k + 1)))) := by
  rw [sendChallenge_sendChunks]
  interval_cases k
  · exact sendChunks_stop [] (challengeChunkAt crc nonce seq 0).2
      [(challengeChunkAt crc nonce seq 1).2, (challengeChunkAt crc nonce seq 2).2,
        (challengeChunkAt crc nonce seq 3).2, (challengeChunkAt crc nonce seq 4).2] u hprev hfail
  · exact sendChunks_stop [(challengeChunkAt crc nonce seq 0).2]
      (challengeChunkAt crc nonce seq 1).2
      [(challengeChunkAt crc nonce seq 2).2, (challengeChunkAt crc nonce seq 3).2,
        (challengeChunkAt crc nonce seq 4).2] u hprev hfail
  · exact sendChunks_stop
      [(challengeChunkAt crc nonce seq 0).2, (challengeChunkAt crc nonce seq 1).2]
      (challengeChunkAt crc nonce seq 2).2
      [(challengeChunkAt crc nonce seq 3).2, (challengeChunkAt crc nonce seq 4).2] u hprev hfail
  · exact sendChunks_stop
      [(challengeChunkAt crc nonce seq 0).2, (challengeChunkAt crc nonce seq 1).2,
        (challengeChunkAt crc nonce seq 2).2]
      (challengeChunkAt crc nonce seq 3).2 [(challengeChunkAt crc nonce seq 4).2] u hprev hfail
  · exact sendChunks_stop
      [(challengeChunkAt crc nonce seq 0).2, (challengeChunkAt crc nonce seq 1).2,
        (challengeChunkAt crc nonce seq 2).2, (challengeChunkAt crc nonce seq 3).2]
      (challengeChunkAt crc nonce seq 4).2 [] u hprev hfail

theorem transfersFrames_all (crc : List Nat → Nat) (nonce : Nat → Nat) (seq : Nat) :
    transfersFrames (challengeChunks crc nonce seq)
      = chunkTransferFrames (challengeChunkAt crc nonce seq 0).2
          ++ chunkTransferFrames (challengeChunkAt crc nonce seq 1).2
          ++ chunkTransferFrames (challengeChunkAt crc nonce seq 2).2
          ++ chunkTransferFrames (challengeChunkAt crc nonce seq 3).2
          ++ chunkTransferFrames (challengeChunkAt crc nonce seq 4).2 := by
  simp [transfersFrames, challengeChunks]

theorem chunkAt_bytes_header (crc : List Nat → Nat) (nonce : Nat → Nat) (seq i : Nat)
    (hi : i < 5) :
    (challengeChunkAt crc nonce seq i).2.bytes.take 4 = [0xf0, seq % 256, i, 0] := by
  obtain ⟨h1, h2, h3, h4⟩ := chunkAt_header crc nonce seq i
  simp only [signChallenge.bytes, h1, h2, h3, h4, Nat.mod_mod]
  rw [List.append_assoc, List.take_append_of_le_length (by simp)]
  simp [Nat.mod_eq_of_lt (show i < 256 by omega)]

theorem sendRequest_prefix (req : tusb_control_request_t) (buf : Nat → Nat) (u : Uart) :
    ∃ fs k, (ch375SendRequest req buf u).2.2 = u.step (setupStageFrames req ++ fs) (1 + k) := by
  rw [sendRequest_eq]
  split_ifs
  · exact ⟨inStageFrames ++ [Frame.cmd CH375Cmd.rdUsbData0] ++ closingOutFrames, 3 + u.peek 2,
      by rw [show 1 + (3 + u.peek 2) = 4 + u.peek 2 by omega]; simp only [List.append_assoc]⟩
  · exact ⟨inStageFrames ++ [Frame.cmd CH375Cmd.rdUsbData0], 2,
      by simp only [List.append_assoc]⟩
  · exact ⟨inStageFrames, 1, rfl⟩
  · exact ⟨[], 0, by simp⟩

theorem getSignState_prefix (state : Nat → Nat) (u : Uart) :
    ∃ fs k, (ch375GetSignState state u).2
      = u.step (setupStageFrames signStateRequest ++ fs) (1 + k) := by
  rw [ch375GetSignState]
  exact sendRequest_prefix signStateRequest state u

theorem process_polls_signState (crc : List Nat → Nat) (env : TickEnv) (w : World)
    (hinit : w.self.initFailed = false) (hcs : w.self.challengeSent = true)
    (hflag : w.ps4.ps4State = PS4State.nonce_ready) :
    ∃ fs k, (process crc env w).uart
      = (polled env w).step (setupStageFrames signStateRequest ++ fs) (1 + k) := by
  obtain ⟨fs, k, hs⟩ := getSignState_prefix env.state (polled env w)
  rw [process_eq]
  simp only [hinit, hflag, connectionCheck_challengeSent, hcs, Bool.false_eq_true, if_false,
    if_true, Bool.not_true]
  split_ifs
  · obtain ⟨gs, j, hg, _⟩ := getSignature_quiet env.response w.ps4.ps4_auth_buffer
      (ch375GetSignState env.state (polled env w)).2
    refine ⟨fs ++ gs, k + j, ?_⟩
    show (ch375GetSignature env.response w.ps4.ps4_auth_buffer
      (ch375GetSignState env.state (polled env w)).2).2.2 = _
    rw [hg, hs, step_step, List.append_assoc, Nat.add_assoc]
  · exact ⟨fs, k, hs⟩

theorem challengeSent_cleared_when_ready (crc : List Nat → Nat) (env : TickEnv) (w : World)
    (hcs : w.self.challengeSent = true)
    (hdrop : (process crc env w).self.challengeSent = false) :
    w.self.initFailed = false ∧ w.ps4.ps4State = PS4State.nonce_ready
    ∧ (ch375GetSignState env.state (polled env w)).1 = true
    ∧ (process crc env w).ps4.ps4State = PS4State.signed_nonce_ready
    ∧ (process crc env w).self.sequenceCounter = (w.self.sequenceCounter + 1) % 2 ^ 32 := by
  rw [process_eq] at hdrop ⊢
  by_cases h0 : w.self.initFailed = true
  · simp [h0, hcs] at hdrop
  · by_cases h1 : w.ps4.ps4State = PS4State.nonce_ready
    · by_cases h2 : (ch375GetSignState env.state (polled env w)).1 = true
      · simp [h0, h1, h2, hcs, connectionCheck_challengeSent, connectionCheck_sequenceCounter]
      · simp [h0, h1, h2, hcs, connectionCheck_challengeSent] at hdrop
    · simp [h0, h1, hcs, connectionCheck_challengeSent] at hdrop

/-- C1: for every byte `b`, a command byte gets ODD parity when the number
of set bits of `b` is even and EVEN parity when it is odd; a data byte gets
EVEN parity when the number of set bits is even and ODD when it is odd. -/
theorem getParity_rule (b : Nat) (hb : b < 256) :
    (popCount b % 2 = 0 →
      getParity b true = UART_PARITY_ODD ∧ getParity b false = UART_PARITY_EVEN) ∧
    (popCount b % 2 = 1 →
      getParity b true = UART_PARITY_EVEN ∧ getParity b false = UART_PARITY_ODD) := by
  have h := countBits_eq_popCount b hb
  constructor
  · intro hp
    simp [getParity, h, hp]
  · intro hp
    simp [getParity, h, hp]

theorem getParity_rule_witness :
    0x16 < 256 ∧
    (popCount 0x16 % 2 = 0 →
      getParity 0x16 true = UART_PARITY_ODD ∧ getParity 0x16 false = UART_PARITY_EVEN) ∧
    (popCount 0x16 % 2 = 1 →
      getParity 0x16 true = UART_PARITY_EVEN ∧ getParity 0x16 false = UART_PARITY_ODD) :=
  ⟨by decide, getParity_rule 0x16 (by decide)⟩

/-- C2: in a tick that starts with `challengeSent = false` and the shared
flag nonce-ready, if one of the token statuses of the five challenge-chunk
transfers (SETUP, OUT and IN of each, fifteen in all, read after the
connectivity check) is not success, then the transmission returns failure
and after the tick the sequence counter is unchanged, the flag is still
nonce-ready and `challengeSent` is still false; and, setup having succeeded,
whatever tick comes next starts the challenge again with a first chunk
transfer. -/
theorem challenge_failure_no_advance (crc : List Nat → Nat) (env : TickEnv) (w : World)
    (hcs : w.self.challengeSent = false)
    (hflag : w.ps4.ps4State = PS4State.nonce_ready)
    (hfail : ∃ j < 15, (polled env w).peek j ≠ CH375IntStatus.intSuccess) :
    (ch375SendChallenge crc w.ps4.nonce_buffer w.self.sequenceCounter (polled env w)).1 = false ∧
    (process crc env w).self.sequenceCounter = w.self.sequenceCounter ∧
    (process crc env w).ps4.ps4State = PS4State.nonce_ready ∧
    (process crc env w).self.challengeSent = false ∧
    (w.self.initFailed = false → ∀ env' : TickEnv,
      transmitsChallenge (framesWritten (process crc env w).uart
        (process crc env' (process crc env w)).uart)) := by
  have hf : (ch375SendChallenge crc w.ps4.nonce_buffer w.self.sequenceCounter (polled env w)).1
      = false := by
    rw [Bool.eq_false_iff]
    intro h
    rw [sendChallenge_fst] at h
    obtain ⟨j, hj, hne⟩ := hfail
    exact hne (h j hj)
  have hrest : (process crc env w).self.sequenceCounter = w.self.sequenceCounter ∧
      (process crc env w).ps4.ps4State = PS4State.nonce_ready ∧
      (process crc env w).self.challengeSent = false := by
    rw [process_eq]
    cases hinit : w.self.initFailed
    · simp [hflag, hf, connectionCheck_challengeSent, connectionCheck_sequenceCounter, hcs]
    · simp [hflag, hcs]
  refine ⟨hf, hrest.1, hrest.2.1, hrest.2.2, fun hinit env' => ?_⟩
  exact (process_transmits_iff crc env' (process crc env w)).2
    ⟨by rw [process_keeps_initFailed, hinit], hrest.2.1, hrest.2.2⟩

theorem challenge_failure_no_advance_witness :
    stalledChallengeWorld.self.challengeSent = false
    ∧ stalledChallengeWorld.ps4.ps4State = PS4State.nonce_ready
    ∧ (∃ j < 15, (polled (exEnv 1001) stalledChallengeWorld).peek j
        ≠ CH375IntStatus.intSuccess)
    ∧ (ch375SendChallenge exCrc stalledChallengeWorld.ps4.nonce_buffer
        stalledChallengeWorld.self.sequenceCounter (polled (exEnv 1001) stalledChallengeWorld)).1
        = false
    ∧ (process exCrc (exEnv 1001) stalledChallengeWorld).self.sequenceCounter
        = stalledChallengeWorld.self.sequenceCounter
    ∧ (process exCrc (exEnv 1001) stalledChallengeWorld).ps4.ps4State = PS4State.nonce_ready
    ∧ (process exCrc (exEnv 1001) stalledChallengeWorld).self.challengeSent = false
    ∧ (stalledChallengeWorld.self.initFailed = false → ∀ env' : TickEnv,
        transmitsChallenge (framesWritten (process exCrc (exEnv 1001) stalledChallengeWorld).uart
          (process exCrc env' (process exCrc (exEnv 1001) stalledChallengeWorld)).uart)) :=
  ⟨rfl, rfl, ⟨0, by decide, by decide!⟩,
    challenge_failure_no_advance exCrc (exEnv 1001) stalledChallengeWorld rfl rfl
      ⟨0, by decide, by decide!⟩⟩

/-- C3 (the code departs from the claim): in a tick that starts with
`challengeSent = true` and the flag nonce-ready, the sign-state report reads
ready and then the first signature-chunk read fails at its SETUP token;
`ch375GetSignatureChunk` drops the result of `ch375SendRequest`, so the
retrieval is not aborted: after the tick the flag is signed-nonce-ready, the
sequence counter went from 1 to 2 and `challengeSent` is false. -/
theorem signature_read_failure_still_advances :
    (ch375SendRequest signChunkRequest ((exEnv 1001).response 0)
      (ch375GetSignState (exEnv 1001).state
        (polled (exEnv 1001) failingSignatureWorld)).2).1 = false ∧
    (ch375GetSignature (exEnv 1001).response failingSignatureWorld.ps4.ps4_auth_buffer
      (ch375GetSignState (exEnv 1001).state
        (polled (exEnv 1001) failingSignatureWorld)).2).1 = true ∧
    failingSignatureWorld.self.sequenceCounter = 1 ∧
    (process exCrc (exEnv 1001) failingSignatureWorld).ps4.ps4State
      = PS4State.signed_nonce_ready ∧
    (process exCrc (exEnv 1001) failingSignatureWorld).self.sequenceCounter = 2 ∧
    (process exCrc (exEnv 1001) failingSignatureWorld).self.challengeSent = false := by
  decide!

/-- C4: from an engine state as a successful setup leaves it (counter 1,
`challengeSent` false) with the flag nonce-ready, if in the first tick the
fifteen token statuses of the five challenge transfers are success, and in
the second tick the sign-state report is read successfully with state byte
0 and the nineteen signature reports are read successfully with length 64
and chunk indices 0..18 in order, then after the second tick the flag is
signed-nonce-ready, byte `56 * i + o` of the result buffer is payload byte
`o` of the `i`-th report (so its first 1064 bytes are the concatenated
payloads), `challengeSent` is false and the sequence counter is 2. Read
positions count from the link as the connectivity check of the tick leaves
it: the sign-state read takes 20 bytes (two statuses, the length, 16 report
bytes, the closing status) and each signature read 68. -/
theorem happy_path (crc : List Nat → Nat) (env1 env2 : TickEnv) (w : World)
    (hinit : w.self.initFailed = false) (hcs : w.self.challengeSent = false)
    (hseq : w.self.sequenceCounter = 1)
    (hflag : w.ps4.ps4State = PS4State.nonce_ready)
    (hchal : ∀ j < 15, (polled env1 w).peek j = CH375IntStatus.intSuccess)
    (hstate : reportReadOk (polled env2 (process crc env1 w)) 0 16)
    (hready : reportByte (polled env2 (process crc env1 w)) 0 2 = 0)
    (hsig : ∀ i < 19, reportReadOk (polled env2 (process crc env1 w)) (20 + 68 * i) 64
      ∧ reportByte (polled env2 (process crc env1 w)) (20 + 68 * i) 2 = i) :
    (process crc env2 (process crc env1 w)).ps4.ps4State = PS4State.signed_nonce_ready
    ∧ (∀ i < 19, ∀ o < 56,
        (process crc env2 (process crc env1 w)).ps4.ps4_auth_buffer (56 * i + o)
          = reportByte (polled env2 (process crc env1 w)) (20 + 68 * i) (4 + o))
    ∧ (process crc env2 (process crc env1 w)).self.challengeSent = false
    ∧ (process crc env2 (process crc env1 w)).self.sequenceCounter = 2 := by
  obtain ⟨i1, c1, s1, p1⟩ := process_challenge_sent crc env1 w hinit hcs hflag hchal
  obtain ⟨a0, a1, a2, _⟩ := hstate
  simp only [Nat.zero_add, CH375IntStatus.intSuccess] at a0 a1 a2
  simp only [reportByte, Nat.zero_add] at hready
  have hst := getSignState_read env2.state (polled env2 (process crc env1 w)) a0 a1 a2
  have hflag1 : (process crc env1 w).ps4.ps4State = PS4State.nonce_ready := by rw [p1, hflag]
  have hrd : (ch375GetSignState env2.state (polled env2 (process crc env1 w))).1 = true := by
    rw [hst]; simp [show (3 + 2 : Nat) = 5 from rfl] at hready; simp [hready]
  obtain ⟨r1, r2, r3, r4⟩ := process_signature_read crc env2 (process crc env1 w) i1 c1 hflag1 hrd
  have hloop := getSignatureLoop_read env2.response 19 0 (process crc env1 w).ps4.ps4_auth_buffer
    ((polled env2 (process crc env1 w)).step (reportReadFrames signStateRequest) 20)
    (by
      intro m hm
      obtain ⟨⟨b0, b1, b2, b3⟩, b5⟩ := hsig m hm
      simp only [reportReadOk, reportByte, step_peek, Nat.zero_add]
      simp only [reportByte] at b5
      refine ⟨⟨b0, ?_, ?_, ?_⟩, ?_⟩
      · rw [← b1]; congr 1
      · rw [← b2]; congr 1
      · rw [← b3]; congr 1
      · rw [show 20 + (68 * m + 3 + 2) = 20 + 68 * m + 3 + 2 by omega]
        exact b5)
  refine ⟨r3, ?_, r1, ?_⟩
  · intro i hi o ho
    have := hloop.1 i hi o ho
    rw [r4, ch375GetSignature, hst]
    simp only [Nat.zero_add] at this
    rw [this]
    simp only [reportByte, step_peek]
    congr 1
    omega
  · rw [r2, s1, hseq]
    decide

theorem happy_path_witness :
    happyWorld.self.initFailed = false ∧ happyWorld.self.challengeSent = false
    ∧ happyWorld.self.sequenceCounter = 1
    ∧ happyWorld.ps4.ps4State = PS4State.nonce_ready
    ∧ (∀ j < 15, (polled (exEnv 1000) happyWorld).peek j = CH375IntStatus.intSuccess)
    ∧ reportReadOk (polled (exEnv 1001) (process exCrc (exEnv 1000) happyWorld)) 0 16
    ∧ reportByte (polled (exEnv 1001) (process exCrc (exEnv 1000) happyWorld)) 0 2 = 0
    ∧ (∀ i < 19,
        reportReadOk (polled (exEnv 1001) (process exCrc (exEnv 1000) happyWorld)) (20 + 68 * i) 64
        ∧ reportByte (polled (exEnv 1001) (process exCrc (exEnv 1000) happyWorld)) (20 + 68 * i) 2
            = i)
    ∧ (process exCrc (exEnv 1001) (process exCrc (exEnv 1000) happyWorld)).ps4.ps4State
        = PS4State.signed_nonce_ready
    ∧ (process exCrc (exEnv 1001) (process exCrc (exEnv 1000) happyWorld)).self.sequenceCounter
        = 2 :=
  have h1 : ∀ j < 15, (polled (exEnv 1000) happyWorld).peek j = CH375IntStatus.intSuccess := by
    decide!
  have h2 : reportReadOk (polled (exEnv 1001) (process exCrc (exEnv 1000) happyWorld)) 0 16 := by
    unfold reportReadOk; decide!
  have h3 : reportByte (polled (exEnv 1001) (process exCrc (exEnv 1000) happyWorld)) 0 2 = 0 := by
    decide!
  have h4 : ∀ i < 19,
      reportReadOk (polled (exEnv 1001) (process exCrc (exEnv 1000) happyWorld)) (20 + 68 * i) 64
      ∧ reportByte (polled (exEnv 1001) (process exCrc (exEnv 1000) happyWorld)) (20 + 68 * i) 2
          = i := by
    unfold reportReadOk; decide!
  have h := happy_path exCrc (exEnv 1000) (exEnv 1001) happyWorld (by decide!) (by decide!)
    (by decide!) rfl h1 h2 h3 h4
  ⟨by decide!, by decide!, by decide!, rfl, h1, h2, h3, h4, h.1, h.2.2.2⟩

/-- C5 as stated fails: after the connectivity check of a first tick
enumerated a device with vendor id 0x054c and product id 0x0ba0, a second
tick that finds the shared flag nonce-ready starts a challenge-chunk
transfer, and with success statuses from the bridge ends with
`challengeSent = true`. -/
theorem wrong_device_still_challenged :
    polls (exEnv 1000) wrongDeviceWorld
    ∧ enumerates wrongDeviceWorld.self wrongDeviceWorld.uart 0x054c 0x0ba0
    ∧ transmitsChallenge (framesWritten wrongDeviceWorldNonce.uart
        (process exCrc (exEnv 1001) wrongDeviceWorldNonce).uart)
    ∧ (process exCrc (exEnv 1001) wrongDeviceWorldNonce).self.challengeSent = true := by
  decide!

/-- C5 (amended): if the connectivity check of a tick enumerates a device
with vendor id 0x054c and product id 0x0ba0, that check issues no auto-setup
command and starts no challenge-chunk transfer, and the status recorded is
`connect`. The handshake is not gated on the enumerated device: in every
tick, then and later, a challenge-chunk transfer is started exactly when
setup succeeded, the shared flag is nonce-ready and `challengeSent` is
false; so none is started while the flag has another value. -/
theorem wrong_device_gating (env : TickEnv) (w : World) (hpoll : polls env w)
    (henum : enumerates w.self w.uart 0x054c 0x0ba0) :
    Frame.cmd CH375Cmd.autoSetup ∉ framesWritten w.uart (polled env w)
    ∧ ¬ transmitsChallenge (framesWritten w.uart (polled env w))
    ∧ (process.connectionCheck (env.cTime % 2 ^ 32) w.self w.uart).1.curIntStatus
        = CH375IntStatus.connect
    ∧ ∀ (crc : List Nat → Nat) (env' : TickEnv) (w' : World),
        transmitsChallenge (framesWritten w'.uart (process crc env' w').uart)
          ↔ (w'.self.initFailed = false ∧ w'.ps4.ps4State = PS4State.nonce_ready
              ∧ w'.self.challengeSent = false) := by
  refine ⟨?_, not_transmits_of_quiet (polled_quiet env w), ?_,
    fun crc env' w' => process_transmits_iff crc env' w'⟩
  · rw [polled_of_polls env w hpoll, testConnect_enumerates _ _ _ _ henum]
    have hna : ¬ acceptedDevice 0x054c 0x0ba0 := by decide
    rw [if_neg hna, framesWritten_step]
    exact autoSetup_not_mem
  · rw [connectionCheck_of_polls env w hpoll]
    exact henum.2.1

theorem wrong_device_gating_witness :
    polls (exEnv 1000) wrongDeviceWorld
    ∧ enumerates wrongDeviceWorld.self wrongDeviceWorld.uart 0x054c 0x0ba0
    ∧ Frame.cmd CH375Cmd.autoSetup
        ∉ framesWritten wrongDeviceWorld.uart (polled (exEnv 1000) wrongDeviceWorld)
    ∧ ¬ transmitsChallenge
        (framesWritten wrongDeviceWorld.uart (polled (exEnv 1000) wrongDeviceWorld)) :=
  ⟨by decide!, by decide!,
    (wrong_device_gating (exEnv 1000) wrongDeviceWorld (by decide!) (by decide!)).1,
    (wrong_device_gating (exEnv 1000) wrongDeviceWorld (by decide!) (by decide!)).2.1⟩

/-- C6 as stated fails: in a tick that starts in awaiting-signature with
the flag nonce-ready and whose connectivity check reads `disconnect` while
`connect` is recorded, the bridge goes on to deliver a ready sign state and
nineteen signature reports; at the end of the tick the sequence counter has
advanced and the result buffer has been overwritten. -/
theorem mid_round_disconnect_still_completes :
    midRoundWorld.self.challengeSent = true
    ∧ midRoundWorld.ps4.ps4State = PS4State.nonce_ready
    ∧ polls (exEnv 1000) midRoundWorld
    ∧ midRoundWorld.uart.peek 0 = CH375IntStatus.disconnect
    ∧ midRoundWorld.self.curIntStatus ≠ CH375IntStatus.disconnect
    ∧ (process exCrc (exEnv 1000) midRoundWorld).self.sequenceCounter
        ≠ midRoundWorld.self.sequenceCounter
    ∧ (process exCrc (exEnv 1000) midRoundWorld).ps4.ps4_auth_buffer 0
        ≠ midRoundWorld.ps4.ps4_auth_buffer 0 := by
  decide!

/-- C6 (amended): in a tick that starts with `challengeSent = true` and the
flag nonce-ready and whose connectivity check reads `disconnect` (0x16)
while another status is recorded, the check writes the test-connect command,
the set-USB-mode command and the host-enabled mode byte, and the status
recorded after the tick is `disconnect`. The round is not stopped by the
disconnect: the tick goes on to poll the sign state, and the result buffer
and the sequence counter are unchanged at the end of the tick when that poll
does not report ready. That the tick goes on is shown by its frames: after
the three frames of the check comes the SETUP stage of the sign-state
request; when the poll does not report ready the link is left as the poll
leaves it, with `challengeSent` still true and the flag still nonce-ready,
and when it reports ready the tick retrieves the signature and completes the
round. -/
theorem mid_round_disconnect (crc : List Nat → Nat) (env : TickEnv) (w : World)
    (hcs : w.self.challengeSent = true) (hflag : w.ps4.ps4State = PS4State.nonce_ready)
    (hpoll : polls env w) (hdis : w.uart.peek 0 = CH375IntStatus.disconnect)
    (hne : w.self.curIntStatus ≠ CH375IntStatus.disconnect) :
    framesWritten w.uart (polled env w)
      = [Frame.cmd CH375Cmd.testConnect, Frame.cmd CH375Cmd.setUsbMode,
          Frame.data CH375UsbMode.hostEnabled]
    ∧ (process crc env w).self.curIntStatus = CH375IntStatus.disconnect
    ∧ ((ch375GetSignState env.state (polled env w)).1 = false →
        (process crc env w).ps4.ps4_auth_buffer = w.ps4.ps4_auth_buffer
        ∧ (process crc env w).self.sequenceCounter = w.self.sequenceCounter)
    ∧ (∃ fs k, framesWritten w.uart (process crc env w).uart
          = [Frame.cmd CH375Cmd.testConnect, Frame.cmd CH375Cmd.setUsbMode,
              Frame.data CH375UsbMode.hostEnabled]
            ++ setupStageFrames signStateRequest ++ fs
        ∧ (process crc env w).uart.rd = w.uart.rd + 2 + 1 + k)
    ∧ ((ch375GetSignState env.state (polled env w)).1 = false →
        (process crc env w).uart = (ch375GetSignState env.state (polled env w)).2
        ∧ (process crc env w).self.challengeSent = true
        ∧ (process crc env w).ps4.ps4State = PS4State.nonce_ready)
    ∧ ((ch375GetSignState env.state (polled env w)).1 = true →
        (process crc env w).self.challengeSent = false
        ∧ (process crc env w).self.sequenceCounter = (w.self.sequenceCounter + 1) % 2 ^ 32
        ∧ (process crc env w).ps4.ps4State = PS4State.signed_nonce_ready
        ∧ (process crc env w).ps4.ps4_auth_buffer
            = (ch375GetSignature env.response w.ps4.ps4_auth_buffer
                (ch375GetSignState env.state (polled env w)).2).2.1) := by
  have hc := connectionCheck_of_polls env w hpoll
  have hp : polled env w = w.uart.step [Frame.cmd CH375Cmd.testConnect,
      Frame.cmd CH375Cmd.setUsbMode, Frame.data CH375UsbMode.hostEnabled] 2 := by
    rw [polled_of_polls env w hpoll, testConnect_eq]
    simp [hne, hdis]
  refine ⟨by rw [hp, framesWritten_step], ?_, ?_, ?_, ?_,
    fun hr => process_signature_read crc env w hpoll.1 hcs hflag hr⟩
  · rw [process_eq]
    simp only [hpoll.1, hflag, hc, hcs, hdis, Bool.false_eq_true, if_false, if_true, Bool.not_true]
    split_ifs <;> rfl
  · intro hns
    rw [process_eq]
    simp only [hpoll.1, hflag, hc, hcs, hns, Bool.false_eq_true, if_false, if_true,
      Bool.not_true, and_self]
  · obtain ⟨fs, k, hs⟩ := process_polls_signState crc env w hpoll.1 hcs hflag
    refine ⟨fs, k, ?_, ?_⟩
    · rw [hs, hp, step_step, framesWritten_step, List.append_assoc]
    · rw [hs, hp, step_step, step_rd, Nat.add_assoc, Nat.add_assoc]
  · intro hns
    rw [process_eq]
    simp only [hpoll.1, hflag, hc, hcs, hns, Bool.false_eq_true, if_false, if_true,
      Bool.not_true, and_self]

theorem mid_round_disconnect_witness :
    notReadyWorld.self.challengeSent = true
    ∧ notReadyWorld.ps4.ps4State = PS4State.nonce_ready
    ∧ polls (exEnv 1000) notReadyWorld
    ∧ notReadyWorld.uart.peek 0 = CH375IntStatus.disconnect
    ∧ notReadyWorld.self.curIntStatus ≠ CH375IntStatus.disconnect
    ∧ framesWritten notReadyWorld.uart (polled (exEnv 1000) notReadyWorld)
        = [Frame.cmd CH375Cmd.testConnect, Frame.cmd CH375Cmd.setUsbMode,
            Frame.data CH375UsbMode.hostEnabled]
    ∧ (process exCrc (exEnv 1000) notReadyWorld).self.curIntStatus = CH375IntStatus.disconnect
    ∧ (process exCrc (exEnv 1000) notReadyWorld).ps4.ps4_auth_buffer
        = notReadyWorld.ps4.ps4_auth_buffer
    ∧ (process exCrc (exEnv 1000) notReadyWorld).self.sequenceCounter
        = notReadyWorld.self.sequenceCounter :=
  ⟨rfl, rfl, by decide!, by decide!, by decide,
    (mid_round_disconnect exCrc (exEnv 1000) notReadyWorld rfl rfl (by decide!) (by decide!)
      (by decide)).1,
    (mid_round_disconnect exCrc (exEnv 1000) notReadyWorld rfl rfl (by decide!) (by decide!)
      (by decide)).2.1,
    (mid_round_disconnect exCrc (exEnv 1000) notReadyWorld rfl rfl (by decide!) (by decide!)
      (by decide)).2.2.1 (by decide!)⟩

/-- C7 (the code departs from the claim): in a tick that starts with
`challengeSent = true` and the flag nonce-ready no challenge-chunk transfer
is started and the sign state reads ready; then each of the nineteen
signature-chunk reads fails at its SETUP token (status 0x15), so no
signature is retrieved and the 1064 bytes of the result buffer are what they
were; yet `challengeSent` changes from true to false in that tick, the flag
becomes signed-nonce-ready and the sequence counter goes from 1 to 2. -/
theorem round_closed_without_signature :
    failingSignatureWorld.self.initFailed = false
    ∧ failingSignatureWorld.self.challengeSent = true
    ∧ failingSignatureWorld.ps4.ps4State = PS4State.nonce_ready
    ∧ ¬ transmitsChallenge (framesWritten failingSignatureWorld.uart
        (process exCrc (exEnv 1001) failingSignatureWorld).uart)
    ∧ (ch375GetSignState (exEnv 1001).state (polled (exEnv 1001) failingSignatureWorld)).1 = true
    ∧ (∀ n < 19,
        (ch375SendRequest signChunkRequest ((exEnv 1001).response n)
          (ch375GetSignatureLoop (exEnv 1001).response n 0
            failingSignatureWorld.ps4.ps4_auth_buffer
            (ch375GetSignState (exEnv 1001).state
              (polled (exEnv 1001) failingSignatureWorld)).2).2.2).1 = false)
    ∧ (∀ a < 1064, (process exCrc (exEnv 1001) failingSignatureWorld).ps4.ps4_auth_buffer a
        = failingSignatureWorld.ps4.ps4_auth_buffer a)
    ∧ (process exCrc (exEnv 1001) failingSignatureWorld).self.challengeSent = false
    ∧ (process exCrc (exEnv 1001) failingSignatureWorld).ps4.ps4State
        = PS4State.signed_nonce_ready
    ∧ failingSignatureWorld.self.sequenceCounter = 1
    ∧ (process exCrc (exEnv 1001) failingSignatureWorld).self.sequenceCounter = 2 := by
  decide!

/-- C8: if during setup the echo of the existence probe is not the
complement of the test byte, or the answer to the host-mode set-USB-mode
command is not 0x51, then `initFailed` is true after setup, and every later
tick, whatever the shared state and the link then are, returns the world it
was given: nothing is written to the link, nothing is read from it, and the
engine state, the shared flag and the result buffer are unchanged. -/
theorem setup_failure_permanent (rand0 rand1 : Nat) (self : PS4AuthPassThroughAddon) (u : Uart)
    (hfail : u.peek 0 ≠ 255 - rand0 % 256 ∨ u.peek 1 ≠ CH375Retcode.success) :
    (setup rand0 rand1 self u).1.initFailed = true ∧
    (∀ (crc : List Nat → Nat) (env : TickEnv) (ps4 : PS4Data) (link : Uart),
      process crc env ⟨(setup rand0 rand1 self u).1, ps4, link⟩
        = ⟨(setup rand0 rand1 self u).1, ps4, link⟩) ∧
    (∀ (crc : List Nat → Nat) (envs : List TickEnv) (ps4 : PS4Data) (link : Uart),
      runTicks crc envs ⟨(setup rand0 rand1 self u).1, ps4, link⟩
        = ⟨(setup rand0 rand1 self u).1, ps4, link⟩) := by
  have h : (setup rand0 rand1 self u).1.initFailed = true := by
    rw [setup_eq]
    by_cases h0 : u.peek 0 = 255 - rand0 % 256
    · have h1 : ¬ u.peek 1 = CH375Retcode.success := by
        rcases hfail with h | h
        · exact absurd h0 h
        · exact h
      simp [h0, h1]
    · simp [h0]
  exact ⟨h, fun crc env ps4 link => process_initFailed crc env _ h,
    fun crc envs ps4 link => runTicks_initFailed crc envs _ h⟩

theorem setup_failure_permanent_witness :
    ((exLink (fun _ => 0)).peek 0 ≠ 255 - 0x5a % 256
      ∨ (exLink (fun _ => 0)).peek 1 ≠ CH375Retcode.success) ∧
    (setup 0x5a 0 (exSelf false) (exLink (fun _ => 0))).1.initFailed = true :=
  ⟨Or.inl (by decide), (setup_failure_permanent 0x5a 0 (exSelf false) (exLink (fun _ => 0))
    (Or.inl (by decide))).1⟩

/-- C10: for every 256-byte nonce, when every transfer of a
`ch375SendChallenge` call succeeds the frames written are exactly five
challenge-chunk transfers, each staging the 64 bytes of its chunk in the
bridge buffer; for `k = 0..3` bytes 4..59 of chunk `k` are
`nonce[56k .. 56k+55]`, and bytes 4..59 of chunk 4 are `nonce[224..255]`
followed by 24 zero bytes. -/
theorem challenge_chunk_shape (crc : List Nat → Nat) (nonce : Nat → Nat) (seq : Nat) (u : Uart)
    (hnonce : ∀ i < 256, nonce i < 256)
    (hok : ∀ j < 15, u.peek j = CH375IntStatus.intSuccess) :
    (ch375SendChallenge crc nonce seq u).1 = true
    ∧ framesWritten u (ch375SendChallenge crc nonce seq u).2
        = chunkTransferFrames (challengeChunkAt crc nonce seq 0).2
          ++ chunkTransferFrames (challengeChunkAt crc nonce seq 1).2
          ++ chunkTransferFrames (challengeChunkAt crc nonce seq 2).2
          ++ chunkTransferFrames (challengeChunkAt crc nonce seq 3).2
          ++ chunkTransferFrames (challengeChunkAt crc nonce seq 4).2
    ∧ (∀ k < 5, (challengeChunkAt crc nonce seq k).2.bytes.length = 64
        ∧ chunkTransferFrames (challengeChunkAt crc nonce seq k).2
          = setupStageFrames signChallengeRequest
            ++ ([Frame.cmd CH375Cmd.wrUsbData, Frame.data 64]
              ++ (challengeChunkAt crc nonce seq k).2.bytes.map Frame.data
              ++ [Frame.cmd CH375Cmd.setEndp7, Frame.data CH375WMode.data1,
                  Frame.cmd CH375Cmd.issueToken,
                  Frame.data ((DS4Endpoint.epControl % 256) <<< 4 ||| CH375TokenPid.out),
                  Frame.cmd CH375Cmd.getStatus])
            ++ inStageFrames)
    ∧ (∀ k < 4, ∀ j < 56,
        (challengeChunkAt crc nonce seq k).2.bytes.getD (4 + j) 0 = nonce (56 * k + j))
    ∧ (∀ j < 32, (challengeChunkAt crc nonce seq 4).2.bytes.getD (4 + j) 0 = nonce (224 + j))
    ∧ (∀ j, 32 ≤ j → j < 56 → (challengeChunkAt crc nonce seq 4).2.bytes.getD (4 + j) 0 = 0) := by
  have hs := sendChallenge_ok crc nonce seq u hok
  refine ⟨by rw [hs], by rw [hs, framesWritten_step], ?_, ?_, ?_, ?_⟩
  · intro k _
    exact ⟨bytes_length _, by rw [chunkTransferFrames, outStage_chunk]⟩
  · intro k hk j hj
    rw [bytes_payload _ j hj, chunkAt_data crc nonce seq k j (by omega) hj,
      if_neg (by omega), Nat.mod_mod,
      Nat.mod_eq_of_lt (hnonce _ (by omega))]
  · intro j hj
    rw [bytes_payload _ j (by omega), chunkAt_data crc nonce seq 4 j (by omega) (by omega),
      if_pos rfl, if_pos hj, Nat.mod_mod, Nat.mod_eq_of_lt (hnonce _ (by omega))]
  · intro j h1 h2
    rw [bytes_payload _ j h2, chunkAt_data crc nonce seq 4 j (by omega) h2, if_pos rfl,
      if_neg (by omega)]

theorem challenge_chunk_shape_witness :
    (∀ i < 256, (exData PS4State.nonce_ready).nonce_buffer i < 256)
    ∧ (∀ j < 15, (exLink (fun _ => 0x14)).peek j = CH375IntStatus.intSuccess)
    ∧ (ch375SendChallenge exCrc (exData PS4State.nonce_ready).nonce_buffer 1
        (exLink (fun _ => 0x14))).1 = true
    ∧ (∀ k < 4, ∀ j < 56,
        (challengeChunkAt exCrc (exData PS4State.nonce_ready).nonce_buffer 1 k).2.bytes.getD
          (4 + j) 0 = (exData PS4State.nonce_ready).nonce_buffer (56 * k + j)) :=
  ⟨fun i _ => Nat.mod_lt i (by decide), fun _ _ => rfl,
    (challenge_chunk_shape exCrc (exData PS4State.nonce_ready).nonce_buffer 1
      (exLink (fun _ => 0x14)) (fun i _ => Nat.mod_lt i (by decide)) (fun _ _ => rfl)).1,
    (challenge_chunk_shape exCrc (exData PS4State.nonce_ready).nonce_buffer 1
      (exLink (fun _ => 0x14)) (fun i _ => Nat.mod_lt i (by decide)) (fun _ _ => rfl)).2.2.2.1⟩

/-- C11: `ch375SendChallenge` hands the chunks `k = 0..4` to the
control-OUT transfer in order (stopping at the first failing transfer), and
for each of them bytes 60..63 of the chunk are the little-endian bytes of
CRC32 applied to bytes 0..59 of that same chunk (so they decode to that
value), where bytes 0..59 are the report id 0xf0, the sequence number, the
chunk index `k`, the reserved 0 and the 56 payload bytes of chunk `k`; the
64 bytes staged in the bridge buffer by the transfer are these bytes. -/
theorem challenge_checksum (crc : List Nat → Nat) (nonce : Nat → Nat) (seq k : Nat)
    (hk : k < 5) :
    (challengeChunkAt crc nonce seq k).2.bytes.drop 60
      = le32Bytes (crc ((challengeChunkAt crc nonce seq k).2.bytes.take 60) % 2 ^ 32)
    ∧ le32 ((challengeChunkAt crc nonce seq k).2.bytes.drop 60)
      = crc ((challengeChunkAt crc nonce seq k).2.bytes.take 60) % 2 ^ 32
    ∧ (challengeChunkAt crc nonce seq k).2.bytes.take 60
      = [0xf0, seq % 256, k, 0]
        ++ (List.range 56).map (fun j =>
            if k = 4 then (if j < 32 then nonce (224 + j) % 256 else 0)
            else nonce (56 * k + j) % 256)
    ∧ (challengeChunkAt crc nonce seq k).2.bytes
      = (challengeChunkAt crc nonce seq k).2.bytes.take 60
        ++ (challengeChunkAt crc nonce seq k).2.bytes.drop 60
    ∧ chunkTransferFrames (challengeChunkAt crc nonce seq k).2
      = setupStageFrames signChallengeRequest
        ++ ([Frame.cmd CH375Cmd.wrUsbData, Frame.data 64]
          ++ (challengeChunkAt crc nonce seq k).2.bytes.map Frame.data
          ++ [Frame.cmd CH375Cmd.setEndp7, Frame.data CH375WMode.data1,
              Frame.cmd CH375Cmd.issueToken,
              Frame.data ((DS4Endpoint.epControl % 256) <<< 4 ||| CH375TokenPid.out),
              Frame.cmd CH375Cmd.getStatus])
        ++ inStageFrames
    ∧ (challengeChunks crc nonce seq)[k]? = some (challengeChunkAt crc nonce seq k).2
    ∧ (∀ u : Uart,
        ch375SendChallenge crc nonce seq u = sendChunks (challengeChunks crc nonce seq) u) := by
  have hd : (challengeChunkAt crc nonce seq k).2.bytes.drop 60
      = le32Bytes (crc ((challengeChunkAt crc nonce seq k).2.bytes.take 60) % 2 ^ 32) := by
    rw [bytes_drop, ← chunkAt_crc]
  refine ⟨hd, ?_, ?_, (List.take_append_drop 60 _).symm, ?_, by interval_cases k <;> rfl,
    fun u => sendChallenge_sendChunks crc nonce seq u⟩
  · rw [hd, le32_le32Bytes, Nat.mod_mod]
  · obtain ⟨h1, h2, h3, h4⟩ := chunkAt_header crc nonce seq k
    rw [bytes_take, h1, h2, h3, h4, Nat.mod_mod, Nat.mod_eq_of_lt (show k < 256 by omega)]
    congr 1
    apply List.map_congr_left
    intro j hj
    rw [chunkAt_data crc nonce seq k j hk (List.mem_range.1 hj)]
    split_ifs <;> simp
  · rw [chunkTransferFrames, outStage_chunk]

theorem challenge_checksum_witness :
    (4 : Nat) < 5
    ∧ (challengeChunkAt exCrc (exData PS4State.nonce_ready).nonce_buffer 1 4).2.bytes.drop 60
      = le32Bytes (exCrc
          ((challengeChunkAt exCrc (exData PS4State.nonce_ready).nonce_buffer 1 4).2.bytes.take 60)
          % 2 ^ 32)
    ∧ (challengeChunkAt exCrc (exData PS4State.nonce_ready).nonce_buffer 1 4).2.bytes.drop 60
      = [229, 30, 0, 0] :=
  ⟨by decide,
    (challenge_checksum exCrc (exData PS4State.nonce_ready).nonce_buffer 1 4 (by decide)).1,
    by decide⟩

/-- C12: if the nineteen feature-report reads of `ch375GetSignature`
succeed (statuses success, length 64; the `i`-th read starts `68 * i` bytes
into the answers) and the `i`-th report carries chunk index `i`, then the
call returns true and byte `56 * i + o` of the result buffer is payload byte
`o` (report offset `4 + o`) of the `i`-th report, for every `i` in 0..18 and
`o` in 0..55. -/
theorem signature_reassembly (response : Nat → Nat → Nat) (authBuffer : Nat → Nat) (u : Uart)
    (h : ∀ i < 19, reportReadOk u (68 * i) 64 ∧ reportByte u (68 * i) 2 = i) :
    (ch375GetSignature response authBuffer u).1 = true
    ∧ (∀ i < 19, ∀ o < 56,
        (ch375GetSignature response authBuffer u).2.1 (56 * i + o)
          = reportByte u (68 * i) (4 + o))
    ∧ (ch375GetSignature response authBuffer u).2.2.rd = u.rd + 68 * 19 := by
  rw [ch375GetSignature]
  have hl := getSignatureLoop_read response 19 0 authBuffer u
    (fun m hm => by simpa using h m hm)
  refine ⟨getSignatureLoop_fst response 19 0 authBuffer u, fun i hi o ho => ?_, ?_⟩
  · have := hl.1 i hi o ho
    simpa using this
  · obtain ⟨fs, hfs⟩ := hl.2.2
    rw [hfs]
    rfl

theorem signature_reassembly_witness :
    (∀ i < 19, reportReadOk (exLink signatureRx) (68 * i) 64
      ∧ reportByte (exLink signatureRx) (68 * i) 2 = i)
    ∧ (ch375GetSignature (fun _ _ => 0) (fun _ => 0) (exLink signatureRx)).1 = true
    ∧ (∀ i < 19, ∀ o < 56,
        (ch375GetSignature (fun _ _ => 0) (fun _ => 0) (exLink signatureRx)).2.1 (56 * i + o)
          = reportByte (exLink signatureRx) (68 * i) (4 + o)) :=
  have h : ∀ i < 19, reportReadOk (exLink signatureRx) (68 * i) 64
      ∧ reportByte (exLink signatureRx) (68 * i) 2 = i := by
    unfold reportReadOk; decide
  ⟨h, (signature_reassembly (fun _ _ => 0) (fun _ => 0) (exLink signatureRx) h).1,
    (signature_reassembly (fun _ _ => 0) (fun _ => 0) (exLink signatureRx) h).2.1⟩

/-- C13 as stated fails: two signature reports that agree on their first 60
bytes and differ in the checksum field (bytes 60..63 all 0 in one, all 1 in
the other) are both read successfully and both have their payload copied
into the result buffer; whatever function CRC32 is, it cannot match the
checksum field of both. -/
theorem unchecked_signature_checksum :
    (List.range 60).map (reportByte (exLink (checksumRx 0)) 0)
      = (List.range 60).map (reportByte (exLink (checksumRx 1)) 0)
    ∧ (List.range 4).map (fun j => reportByte (exLink (checksumRx 0)) 0 (60 + j)) = [0, 0, 0, 0]
    ∧ (List.range 4).map (fun j => reportByte (exLink (checksumRx 1)) 0 (60 + j)) = [1, 1, 1, 1]
    ∧ (ch375SendRequest signChunkRequest (fun _ => 0) (exLink (checksumRx 0))).1 = true
    ∧ (ch375SendRequest signChunkRequest (fun _ => 0) (exLink (checksumRx 1))).1 = true
    ∧ (ch375GetSignatureChunk (fun _ => 0) (fun _ => 0) (exLink (checksumRx 0))).1 = true
    ∧ (ch375GetSignatureChunk (fun _ => 0) (fun _ => 0) (exLink (checksumRx 1))).1 = true
    ∧ (List.range 56).map (ch375GetSignatureChunk (fun _ => 0) (fun _ => 0)
        (exLink (checksumRx 0))).2.1 = List.replicate 56 0xab
    ∧ (List.range 56).map (ch375GetSignatureChunk (fun _ => 0) (fun _ => 0)
        (exLink (checksumRx 1))).2.1 = List.replicate 56 0xab
    ∧ ¬ ∃ crc : List Nat → Nat, ∀ c < 2,
        le32 ((List.range 4).map (fun j => reportByte (exLink (checksumRx c)) 0 (60 + j)))
          = crc ((List.range 60).map (reportByte (exLink (checksumRx c)) 0)) % 2 ^ 32 := by
  have h60 : (List.range 60).map (reportByte (exLink (checksumRx 0)) 0)
      = (List.range 60).map (reportByte (exLink (checksumRx 1)) 0) := by decide
  have hc0 : (List.range 4).map (fun j => reportByte (exLink (checksumRx 0)) 0 (60 + j))
      = [0, 0, 0, 0] := by decide
  have hc1 : (List.range 4).map (fun j => reportByte (exLink (checksumRx 1)) 0 (60 + j))
      = [1, 1, 1, 1] := by decide
  refine ⟨h60, hc0, hc1, by decide!, by decide!, by decide!, by decide!, by decide!, by decide!,
    ?_⟩
  rintro ⟨crc, h⟩
  have e0 := h 0 (by decide)
  have e1 := h 1 (by decide)
  rw [hc0, h60] at e0
  rw [hc1] at e1
  have : le32 [0, 0, 0, 0] = le32 [1, 1, 1, 1] := e0.trans e1.symm
  exact absurd this (by decide)

/-- C13 (amended): for every signature report read with success statuses
and length 64, `ch375GetSignatureChunk` copies the 56 payload bytes (report
offsets 4..59) into the result buffer at offset 56 × the chunk index of the
report (report offset 2) and leaves the rest of the buffer unchanged; the
checksum field (report bytes 60..63) is not examined: the buffer is the same
whatever these four bytes are. -/
theorem signature_chunk_copy (response authBuffer : Nat → Nat) (u : Uart)
    (h : reportReadOk u 0 64) :
    (ch375GetSignatureChunk response authBuffer u).1 = true
    ∧ (∀ o < 56, (ch375GetSignatureChunk response authBuffer u).2.1
          (56 * reportByte u 0 2 + o) = reportByte u 0 (4 + o))
    ∧ (∀ a, a < 56 * reportByte u 0 2 ∨ 56 * reportByte u 0 2 + 56 ≤ a →
          (ch375GetSignatureChunk response authBuffer u).2.1 a = authBuffer a)
    ∧ (∀ u' : Uart, (∀ k, k < 63 ∨ 66 < k → u'.peek k = u.peek k) →
          (ch375GetSignatureChunk response authBuffer u').2.1
            = (ch375GetSignatureChunk response authBuffer u).2.1) := by
  obtain ⟨h0, h1, h2, _⟩ := h
  simp only [Nat.zero_add, CH375IntStatus.intSuccess] at h0 h1 h2
  obtain ⟨r1, r2, _⟩ := getSignatureChunk_read response authBuffer u h0 h1 h2
  refine ⟨r1, fun o ho => ?_, fun a ha => ?_, fun u' hu => ?_⟩
  · rw [r2]
    simp only [reportByte, Nat.zero_add, show (3 + 2 : Nat) = 5 from rfl]
    rw [if_pos (by omega)]
    congr 1
    omega
  · rw [r2]
    simp only [reportByte, Nat.zero_add, show (3 + 2 : Nat) = 5 from rfl] at ha
    rw [if_neg (by omega)]
  · obtain ⟨_, r2', _⟩ := getSignatureChunk_read response authBuffer u'
      (by rw [hu 0 (by omega), h0]) (by rw [hu 1 (by omega), h1]) (by rw [hu 2 (by omega), h2])
    funext a
    rw [r2, r2', hu 5 (by omega)]
    split_ifs with hc
    · rw [hu _ (by omega)]
    · rfl

theorem signature_chunk_copy_witness :
    reportReadOk (exLink (checksumRx 1)) 0 64
    ∧ (ch375GetSignatureChunk (fun _ => 0) (fun _ => 0) (exLink (checksumRx 1))).1 = true
    ∧ (∀ o < 56, (ch375GetSignatureChunk (fun _ => 0) (fun _ => 0) (exLink (checksumRx 1))).2.1
          (56 * reportByte (exLink (checksumRx 1)) 0 2 + o)
            = reportByte (exLink (checksumRx 1)) 0 (4 + o)) :=
  have h : reportReadOk (exLink (checksumRx 1)) 0 64 := by unfold reportReadOk; decide
  ⟨h, (signature_chunk_copy (fun _ => 0) (fun _ => 0) (exLink (checksumRx 1)) h).1,
    (signature_chunk_copy (fun _ => 0) (fun _ => 0) (exLink (checksumRx 1)) h).2.1⟩

/-- C14 as stated fails: a tick that completes a round with the sequence
counter at 255 leaves the counter at 256, not at 0; the sequence-number
byte of the chunks of the next challenge is 256 mod 256 = 0. -/
theorem sequence_counter_exceeds_byte :
    counter255World.self.sequenceCounter = 255
    ∧ (process exCrc (exEnv 1001) counter255World).ps4.ps4State = PS4State.signed_nonce_ready
    ∧ (process exCrc (exEnv 1001) counter255World).self.sequenceCounter = 256
    ∧ (process exCrc (exEnv 1001) counter255World).self.sequenceCounter ≠ (255 + 1) % 256
    ∧ (challengeChunkAt exCrc (exData PS4State.nonce_ready).nonce_buffer
        (process exCrc (exEnv 1001) counter255World).self.sequenceCounter 0).2.bytes.getD 1 0
        = 0 := by
  decide!

/-- C14 (amended): the round sequence counter is a 32-bit counter: in a
tick that completes a round (the flag goes from nonce-ready to
signed-nonce-ready) the new counter value is (old + 1) mod 2^32; the
sequence-number byte (byte 1) of every challenge chunk is the counter value
mod 256. -/
theorem sequence_counter_width (crc : List Nat → Nat) (env : TickEnv) (w : World)
    (hflag : w.ps4.ps4State = PS4State.nonce_ready)
    (hdone : (process crc env w).ps4.ps4State = PS4State.signed_nonce_ready) :
    (process crc env w).self.sequenceCounter = (w.self.sequenceCounter + 1) % 2 ^ 32
    ∧ ∀ (nonce : Nat → Nat) (k : Nat),
        (challengeChunkAt crc nonce w.self.sequenceCounter k).2.bytes.getD 1 0
          = w.self.sequenceCounter % 256 := by
  obtain ⟨hinit, hcs, hready⟩ := process_completes_round crc env w hflag hdone
  refine ⟨(process_signature_read crc env w hinit hcs hflag hready).2.1, fun nonce k => ?_⟩
  rw [(bytes_header _).2.1, (chunkAt_header crc nonce w.self.sequenceCounter k).2.1, Nat.mod_mod]

theorem sequence_counter_width_witness :
    counter255World.ps4.ps4State = PS4State.nonce_ready
    ∧ (process exCrc (exEnv 1001) counter255World).ps4.ps4State = PS4State.signed_nonce_ready
    ∧ (process exCrc (exEnv 1001) counter255World).self.sequenceCounter
        = (counter255World.self.sequenceCounter + 1) % 2 ^ 32 :=
  ⟨rfl, by decide!,
    (sequence_counter_width exCrc (exEnv 1001) counter255World rfl (by decide!)).1⟩

/-- C15 as stated fails: a sign-state read whose SETUP and IN statuses are
success, whose length byte is the expected 16 and whose closing OUT token is
answered 0x15 returns false, yet the caller's buffer, all zero before, holds
the bytes read from the bridge afterwards. -/
theorem sendRequest_failure_leaves_data :
    (ch375SendRequest signStateRequest (fun _ => 0) (exLink closingFailsRx)).1 = false
    ∧ (ch375SendRequest signStateRequest (fun _ => 0) (exLink closingFailsRx)).2.1 0 = 0xa0
    ∧ (ch375SendRequest signStateRequest (fun _ => 0) (exLink closingFailsRx)).2.1 15 = 0xaf := by
  decide!

/-- C15 (amended): when `ch375SendRequest` returns false because the SETUP
status, the IN status or the length byte is wrong, the caller's buffer is
unchanged; when these three are right and it returns false because the
closing OUT token fails, the bytes read from the bridge are already in the
buffer: its first `wLength` bytes are overwritten and the others unchanged. -/
theorem sendRequest_failure_buffer (req : tusb_control_request_t) (buf : Nat → Nat) (u : Uart)
    (hfalse : (ch375SendRequest req buf u).1 = false) :
    (¬ (u.peek 0 = CH375IntStatus.intSuccess ∧ u.peek 1 = CH375IntStatus.intSuccess
          ∧ u.peek 2 = req.wLength % 65536) →
        (ch375SendRequest req buf u).2.1 = buf)
    ∧ ((u.peek 0 = CH375IntStatus.intSuccess ∧ u.peek 1 = CH375IntStatus.intSuccess
          ∧ u.peek 2 = req.wLength % 65536) →
        u.peek (3 + u.peek 2) ≠ CH375IntStatus.intSuccess
        ∧ ∀ a, (ch375SendRequest req buf u).2.1 a
            = if a < req.wLength % 65536 then u.peek (3 + a) else buf a) := by
  rw [sendRequest_eq] at hfalse ⊢
  simp only [CH375IntStatus.intSuccess]
  by_cases h0 : u.peek 0 = 0x14
  · by_cases h1 : u.peek 1 = 0x14
    · by_cases h2 : u.peek 2 = req.wLength % 65536
      · simp only [h0, h1, h2, if_true, and_self, not_true_eq_false, false_implies, true_and,
          true_implies] at hfalse ⊢
        simp only [decide_eq_false_iff_not] at hfalse
        exact ⟨hfalse, fun a => trivial⟩
      · simp [h0, h1, h2]
    · simp [h0, h1]
  · simp [h0]

theorem sendRequest_failure_buffer_witness :
    (ch375SendRequest signStateRequest (fun _ => 0) (exLink closingFailsRx)).1 = false
    ∧ ((exLink closingFailsRx).peek 0 = CH375IntStatus.intSuccess
        ∧ (exLink closingFailsRx).peek 1 = CH375IntStatus.intSuccess
        ∧ (exLink closingFailsRx).peek 2 = signStateRequest.wLength % 65536)
    ∧ (exLink closingFailsRx).peek (3 + (exLink closingFailsRx).peek 2)
        ≠ CH375IntStatus.intSuccess
    ∧ ∀ a, (ch375SendRequest signStateRequest (fun _ => 0) (exLink closingFailsRx)).2.1 a
        = if a < signStateRequest.wLength % 65536 then (exLink closingFailsRx).peek (3 + a)
          else (fun _ => 0) a :=
  ⟨by decide!, by decide,
    (sendRequest_failure_buffer signStateRequest (fun _ => 0) (exLink closingFailsRx)
      (by decide!)).2 (by decide)⟩

/-- C16: `ch375SendRequest` returns true if and only if the status read
after the SETUP token is success, the status read after the IN token is
success, the length byte read after the read-buffer command equals `wLength`
and the status read after the closing OUT token is success; on success the
first `wLength` bytes of the buffer are the bytes read after the length
byte, in order, the link has delivered `4 + wLength` bytes in all, and the
frames written are those of the four stages. -/
theorem sendRequest_success (req : tusb_control_request_t) (buf : Nat → Nat) (u : Uart)
    (hw : req.wLength < 65536) :
    ((ch375SendRequest req buf u).1 = true ↔
      (u.peek 0 = CH375IntStatus.intSuccess ∧ u.peek 1 = CH375IntStatus.intSuccess
        ∧ u.peek 2 = req.wLength
        ∧ u.peek (3 + req.wLength) = CH375IntStatus.intSuccess))
    ∧ ((ch375SendRequest req buf u).1 = true →
        (∀ a < req.wLength, (ch375SendRequest req buf u).2.1 a = u.peek (3 + a))
        ∧ (∀ a, req.wLength ≤ a → (ch375SendRequest req buf u).2.1 a = buf a)
        ∧ (ch375SendRequest req buf u).2.2.rd = u.rd + (4 + req.wLength)
        ∧ framesWritten u (ch375SendRequest req buf u).2.2 = reportReadFrames req) := by
  have hm : req.wLength % 65536 = req.wLength := Nat.mod_eq_of_lt hw
  rw [sendRequest_eq, hm]
  simp only [CH375IntStatus.intSuccess]
  by_cases h0 : u.peek 0 = 0x14
  · by_cases h1 : u.peek 1 = 0x14
    · by_cases h2 : u.peek 2 = req.wLength
      · simp only [h0, h1, h2, if_true, true_and, decide_eq_true_eq, framesWritten_step,
          step_rd, reportReadFrames]
        refine fun _ => ⟨fun a ha => by simp [ha], fun a ha => ?_, trivial⟩
        have : ¬ a < req.wLength := by omega
        simp [this]
      · simp [h0, h1, h2]
    · simp [h0, h1]
  · simp [h0]

theorem sendRequest_success_witness :
    signStateRequest.wLength < 65536
    ∧ ((ch375SendRequest signStateRequest (fun _ => 0)
          (exLink (fun n => if n = 2 then 16 else 0x14))).1 = true ↔
        ((exLink (fun n => if n = 2 then 16 else 0x14)).peek 0 = CH375IntStatus.intSuccess
          ∧ (exLink (fun n => if n = 2 then 16 else 0x14)).peek 1 = CH375IntStatus.intSuccess
          ∧ (exLink (fun n => if n = 2 then 16 else 0x14)).peek 2 = signStateRequest.wLength
          ∧ (exLink (fun n => if n = 2 then 16 else 0x14)).peek (3 + signStateRequest.wLength)
              = CH375IntStatus.intSuccess))
    ∧ (ch375SendRequest signStateRequest (fun _ => 0)
          (exLink (fun n => if n = 2 then 16 else 0x14))).1 = true :=
  ⟨by decide,
    (sendRequest_success signStateRequest (fun _ => 0)
      (exLink (fun n => if n = 2 then 16 else 0x14)) (by decide)).1,
    by decide!⟩

/-- C17: `ch375SendDataRequest` returns true if and only if the statuses
read after the SETUP token, the OUT token and the closing IN token are all
success. It stops at the first failing stage: when the SETUP status is not
success only the SETUP stage was written (the payload is not staged) and one
byte read; when the OUT status is not success only the SETUP and OUT stages
were written and two bytes read; otherwise all three stages were written and
three bytes read. The SETUP stage sets the data toggle with the byte 0x80
(data0) and the OUT stage with the byte 0xc0 (data1). -/
theorem sendDataRequest_stages (req : tusb_control_request_t) (data : Nat → Nat) (n : Nat)
    (u : Uart) :
    ((ch375SendDataRequest req data n u).1 = true ↔
      (u.peek 0 = CH375IntStatus.intSuccess ∧ u.peek 1 = CH375IntStatus.intSuccess
        ∧ u.peek 2 = CH375IntStatus.intSuccess))
    ∧ (u.peek 0 ≠ CH375IntStatus.intSuccess →
        framesWritten u (ch375SendDataRequest req data n u).2 = setupStageFrames req
        ∧ (ch375SendDataRequest req data n u).2.rd = u.rd + 1)
    ∧ (u.peek 0 = CH375IntStatus.intSuccess → u.peek 1 ≠ CH375IntStatus.intSuccess →
        framesWritten u (ch375SendDataRequest req data n u).2
          = setupStageFrames req ++ outStageFrames data n
        ∧ (ch375SendDataRequest req data n u).2.rd = u.rd + 2)
    ∧ (u.peek 0 = CH375IntStatus.intSuccess → u.peek 1 = CH375IntStatus.intSuccess →
        framesWritten u (ch375SendDataRequest req data n u).2
          = setupStageFrames req ++ outStageFrames data n ++ inStageFrames
        ∧ (ch375SendDataRequest req data n u).2.rd = u.rd + 3)
    ∧ setupStageFrames req
        = [Frame.cmd 0x2b, Frame.data 8] ++ req.bytes.map Frame.data
          ++ [Frame.cmd 0x1d, Frame.data 0x80, Frame.cmd 0x4f, Frame.data 0x0d, Frame.cmd 0x22]
    ∧ outStageFrames data n
        = [Frame.cmd 0x2b, Frame.data n] ++ ((List.range n).map data).map Frame.data
          ++ [Frame.cmd 0x1d, Frame.data 0xc0, Frame.cmd 0x4f, Frame.data 0x01, Frame.cmd 0x22]
    ∧ inStageFrames
        = [Frame.cmd 0x1c, Frame.data 0xc0, Frame.cmd 0x4f, Frame.data 0x09, Frame.cmd 0x22] := by
  rw [sendDataRequest_eq]
  simp only [CH375IntStatus.intSuccess]
  refine ⟨?_, ?_, ?_, ?_, rfl, rfl, rfl⟩
  · by_cases h0 : u.peek 0 = 0x14 <;> by_cases h1 : u.peek 1 = 0x14 <;> simp [h0, h1]
  · intro h0
    simp [h0, framesWritten_step]
  · intro h0 h1
    simp [h0, h1, framesWritten_step]
  · intro h0 h1
    simp [h0, h1, framesWritten_step]

theorem sendDataRequest_stages_witness :
    (exLink (fun _ => 0x15)).peek 0 ≠ CH375IntStatus.intSuccess
    ∧ (ch375SendDataRequest signChallengeRequest (fun i => i) 64 (exLink (fun _ => 0x15))).1
        = false
    ∧ framesWritten (exLink (fun _ => 0x15))
        (ch375SendDataRequest signChallengeRequest (fun i => i) 64 (exLink (fun _ => 0x15))).2
        = setupStageFrames signChallengeRequest
    ∧ (ch375SendDataRequest signChallengeRequest (fun i => i) 64 (exLink (fun _ => 0x15))).2.rd
        = (exLink (fun _ => 0x15)).rd + 1 :=
  ⟨by decide, by decide!,
    ((sendDataRequest_stages signChallengeRequest (fun i => i) 64
      (exLink (fun _ => 0x15))).2.1 (by decide)).1,
    ((sendDataRequest_stages signChallengeRequest (fun i => i) 64
      (exLink (fun _ => 0x15))).2.1 (by decide)).2⟩

/-- C18 (the code departs from the claim): the feature-report read of
`ch375GetSignState` fails at its closing OUT token (status 0x15), so
`ch375SendRequest` returns false, yet `ch375GetSignState` returns true
because the state byte left in the local is 0; the same happens when the
read fails at the SETUP token and the uninitialised local holds 0. In a
tick in awaiting-signature the engine then retrieves the signature, posts
signed-nonce-ready and leaves awaiting-signature. -/
theorem signState_trusted_after_failed_read :
    (ch375SendRequest signStateRequest (fun _ => 0) (exLink closingFailsRx)).1 = false
    ∧ (ch375GetSignState (fun _ => 0) (exLink closingFailsRx)).1 = true
    ∧ (ch375SendRequest signStateRequest (fun _ => 0) (exLink (fun _ => 0x15))).1 = false
    ∧ (ch375GetSignState (fun _ => 0) (exLink (fun _ => 0x15))).1 = true
    ∧ ¬ polls (exEnv 1001) failedPollWorld
    ∧ (polled (exEnv 1001) failedPollWorld).rd = failedPollWorld.uart.rd
    ∧ (ch375SendRequest signStateRequest (exEnv 1001).state failedPollWorld.uart).1 = false
    ∧ (process exCrc (exEnv 1001) failedPollWorld).ps4.ps4State = PS4State.signed_nonce_ready
    ∧ (process exCrc (exEnv 1001) failedPollWorld).self.challengeSent = false
    ∧ (process exCrc (exEnv 1001) failedPollWorld).ps4.ps4_auth_buffer 0 = 0xab := by
  decide!

/-- C20: for every rate other than 9600, 19200, 57600 and 115200,
`ch375SetBaudRate` returns false and hands the link back as it was:
nothing written, nothing read, baud rate unchanged. -/
theorem setBaudRate_unsupported (baudRate : Nat) (u : Uart)
    (h : baudRate ≠ 9600 ∧ baudRate ≠ 19200 ∧ baudRate ≠ 57600 ∧ baudRate ≠ 115200) :
    (ch375SetBaudRate baudRate u).1 = false
    ∧ (ch375SetBaudRate baudRate u).2 = u
    ∧ (ch375SetBaudRate baudRate u).2.tx = u.tx
    ∧ (ch375SetBaudRate baudRate u).2.rd = u.rd
    ∧ (ch375SetBaudRate baudRate u).2.baud = u.baud := by
  obtain ⟨h1, h2, h3, h4⟩ := h
  rw [setBaudRate_eq]
  simp [h1, h2, h3, h4]

theorem setBaudRate_unsupported_witness :
    ((38400 : Nat) ≠ 9600 ∧ (38400 : Nat) ≠ 19200 ∧ (38400 : Nat) ≠ 57600
      ∧ (38400 : Nat) ≠ 115200)
    ∧ (ch375SetBaudRate 38400 (exLink (fun _ => 0x51))).1 = false
    ∧ (ch375SetBaudRate 38400 (exLink (fun _ => 0x51))).2 = exLink (fun _ => 0x51)
    ∧ (ch375SetBaudRate 38400 (exLink (fun _ => 0x51))).2.tx = (exLink (fun _ => 0x51)).tx
    ∧ (ch375SetBaudRate 38400 (exLink (fun _ => 0x51))).2.rd = (exLink (fun _ => 0x51)).rd
    ∧ (ch375SetBaudRate 38400 (exLink (fun _ => 0x51))).2.baud
        = (exLink (fun _ => 0x51)).baud :=
  ⟨by decide, setBaudRate_unsupported 38400 (exLink (fun _ => 0x51)) (by decide)⟩

/-- C21: for every test byte `t` (the value of `rand()` reduced to eight
bits) and every answer of the bridge, `ch375CheckExists` writes the
check-exists command (0x06) followed by the data byte `t`, reads one byte
`r`, and returns true if and only if `r = 255 - t`, the bitwise complement
of `t` in eight bits. -/
theorem checkExists_probe (t : Nat) (u : Uart) :
    ((ch375CheckExists t u).1 = true ↔ u.peek 0 = 255 - t % 256)
    ∧ 255 - t % 256 = (t % 256) ^^^ 0xff
    ∧ framesWritten u (ch375CheckExists t u).2
        = [Frame.cmd CH375Cmd.checkExists, Frame.data (t % 256)]
    ∧ (Frame.cmd CH375Cmd.checkExists).byte = 0x06
    ∧ (Frame.data (t % 256)).byte = t % 256
    ∧ (ch375CheckExists t u).2.rd = u.rd + 1 := by
  rw [checkExists_eq]
  refine ⟨by simp, complement_xor _ (Nat.mod_lt _ (by decide)), framesWritten_step _ _ _, rfl,
    ?_, rfl⟩
  simp [Frame.data]

/-- C22: for every 8-bit endpoint address `e` and every token pid `p`
(among them out = 0x01, in = 0x09, setup = 0x0d), `ch375IssueToken` writes the
issue-token command (0x4f), then the single data byte `(e * 16 OR p) mod 256`,
then the get-status command (0x22), reads one byte, and returns true if and
only if that byte is the interrupt-success code 0x14. -/
theorem issueToken_frames (e p : Nat) (u : Uart) (he : e < 256) :
    framesWritten u (ch375IssueToken e p u).2
        = [Frame.cmd CH375Cmd.issueToken, Frame.data ((e * 16 ||| p) % 256),
            Frame.cmd CH375Cmd.getStatus]
    ∧ (Frame.cmd CH375Cmd.issueToken).byte = 0x4f
    ∧ (Frame.data ((e * 16 ||| p) % 256)).byte = (e * 16 ||| p) % 256
    ∧ (Frame.cmd CH375Cmd.getStatus).byte = 0x22
    ∧ (ch375IssueToken e p u).2.rd = u.rd + 1
    ∧ ((ch375IssueToken e p u).1 = true ↔ u.peek 0 = CH375IntStatus.intSuccess) := by
  rw [issueToken_eq]
  refine ⟨?_, rfl, by simp [Frame.data], rfl, rfl, by simp [CH375IntStatus.intSuccess]⟩
  rw [framesWritten_step, Nat.mod_eq_of_lt he, frameData_mod, Nat.shiftLeft_eq]

theorem issueToken_frames_witness :
    DS4Endpoint.epControl < 256
    ∧ framesWritten (exLink (fun _ => 0x14))
        (ch375IssueToken DS4Endpoint.epControl CH375TokenPid.setup (exLink (fun _ => 0x14))).2
        = [Frame.cmd CH375Cmd.issueToken,
            Frame.data ((DS4Endpoint.epControl * 16 ||| CH375TokenPid.setup) % 256),
            Frame.cmd CH375Cmd.getStatus]
    ∧ (ch375IssueToken DS4Endpoint.epControl CH375TokenPid.setup (exLink (fun _ => 0x14))).1
        = true :=
  ⟨by decide,
    (issueToken_frames DS4Endpoint.epControl CH375TokenPid.setup (exLink (fun _ => 0x14))
      (by decide)).1,
    by decide⟩

/-- C23: after a successful setup, a tick in which the shared flag is not
nonce-ready leaves `challengeSent`, the sequence counter, the shared flag,
the nonce buffer and the result buffer unchanged, and the link is left as
the connectivity check of the tick leaves it (untouched when no check is
due): every frame written is one of the connectivity check, and neither the
write-buffer command (0x2b) nor the issue-token command (0x4f), with which
every control transfer is made, is written. -/
theorem idle_tick (crc : List Nat → Nat) (env : TickEnv) (w : World)
    (hinit : w.self.initFailed = false) (hflag : w.ps4.ps4State ≠ PS4State.nonce_ready) :
    (process crc env w).self.challengeSent = w.self.challengeSent
    ∧ (process crc env w).self.sequenceCounter = w.self.sequenceCounter
    ∧ (process crc env w).ps4 = w.ps4
    ∧ (process crc env w).uart = polled env w
    ∧ (¬ polls env w → (process crc env w).uart = w.uart)
    ∧ (∀ f ∈ framesWritten w.uart (process crc env w).uart, f ∈ pollFrames)
    ∧ Frame.cmd CH375Cmd.wrUsbData ∉ framesWritten w.uart (process crc env w).uart
    ∧ Frame.cmd CH375Cmd.issueToken ∉ framesWritten w.uart (process crc env w).uart
    ∧ (∀ req : tusb_control_request_t,
        ¬ setupStageFrames req <:+: framesWritten w.uart (process crc env w).uart) := by
  have hu : (process crc env w).uart = polled env w := by
    rw [process_eq]
    simp [hinit, hflag]
  have hp := pollOnly_framesWritten (polled_pollOnly env w)
  have hwr : Frame.cmd CH375Cmd.wrUsbData ∉ framesWritten w.uart (process crc env w).uart := by
    rw [hu]
    exact fun hm => absurd (hp _ hm) (by decide)
  refine ⟨?_, ?_, ?_, hu, fun hn => ?_, ?_, hwr, ?_,
    fun req hin => hwr (hin.subset (by simp [setupStageFrames]))⟩
  · rw [process_eq]
    simp [hinit, hflag, connectionCheck_challengeSent]
  · rw [process_eq]
    simp [hinit, hflag, connectionCheck_sequenceCounter]
  · rw [process_eq]
    simp [hinit, hflag]
  · rw [hu, polled_of_not_polls env w hinit hn]
  · rw [hu]
    exact hp
  · rw [hu]
    exact fun hm => absurd (hp _ hm) (by decide)

theorem idle_tick_witness :
    wrongDeviceWorld.self.initFailed = false
    ∧ wrongDeviceWorld.ps4.ps4State ≠ PS4State.nonce_ready
    ∧ (process exCrc (exEnv 1000) wrongDeviceWorld).self.challengeSent
        = wrongDeviceWorld.self.challengeSent
    ∧ (process exCrc (exEnv 1000) wrongDeviceWorld).ps4 = wrongDeviceWorld.ps4
    ∧ Frame.cmd CH375Cmd.issueToken
        ∉ framesWritten wrongDeviceWorld.uart (process exCrc (exEnv 1000) wrongDeviceWorld).uart :=
  ⟨rfl, by decide,
    (idle_tick exCrc (exEnv 1000) wrongDeviceWorld rfl (by decide)).1,
    (idle_tick exCrc (exEnv 1000) wrongDeviceWorld rfl (by decide)).2.2.1,
    (idle_tick exCrc (exEnv 1000) wrongDeviceWorld rfl (by decide)).2.2.2.2.2.2.2.1⟩

/-- C24: let `k` be the number of chunk transfers of a `ch375SendChallenge`
call that succeed before the call stops: the statuses of chunks 0..k-1 are
all success and, when `k < 5`, one of the three statuses of chunk `k` is not.
Then the call returns true if and only if `k = 5`; the frames written are the
complete transfers of chunks 0, 1, ..., k-1 in that order followed, when
`k < 5`, by the stages of the transfer of chunk `k` up to the failing one,
and nothing of a later chunk; each status read is one byte. Chunk `i` has
report id 0xf0 at byte 0, the sequence counter mod 256 at byte 1, `i` at
byte 2 and 0 at byte 3. The call is the in-order transmission of the five
chunks that stops at the first failing transfer. -/
theorem challenge_chunk_order (crc : List Nat → Nat) (nonce : Nat → Nat) (seq : Nat) (u : Uart)
    (k : Nat) (hk : k ≤ 5) (hprev : ∀ j < 3 * k, u.peek j = CH375IntStatus.intSuccess)
    (hstop : k < 5 → ¬ (u.peek (3 * k) = CH375IntStatus.intSuccess
      ∧ u.peek (3 * k + 1) = CH375IntStatus.intSuccess
      ∧ u.peek (3 * k + 2) = CH375IntStatus.intSuccess)) :
    ((ch375SendChallenge crc nonce seq u).1 = true ↔ k = 5)
    ∧ framesWritten u (ch375SendChallenge crc nonce seq u).2
        = transfersFrames ((challengeChunks crc nonce seq).take k)
          ++ (if k < 5 then
                attemptFrames (challengeChunkAt crc nonce seq k).2 (u.peek (3 * k))
                  (u.peek (3 * k + 1))
              else [])
    ∧ (ch375SendChallenge crc nonce seq u).2.rd
        = u.rd + (3 * k
          + (if k < 5 then attemptReads (u.peek (3 * k)) (u.peek (3 * k + 1)) else 0))
    ∧ (∀ i < 5, (challengeChunkAt crc nonce seq i).2.bytes.take 4 = [0xf0, seq % 256, i, 0])
    ∧ ch375SendChallenge crc nonce seq u = sendChunks (challengeChunks crc nonce seq) u := by
  refine ⟨?_, ?_, ?_, fun i hi => chunkAt_bytes_header crc nonce seq i hi,
    sendChallenge_sendChunks crc nonce seq u⟩
  all_goals
    by_cases h5 : k < 5
    · rw [sendChallenge_stop crc nonce seq u k h5 hprev (hstop h5)]
      first
        | exact ⟨fun h => absurd h (by simp), fun h => absurd h (by omega)⟩
        | (rw [framesWritten_step, if_pos h5])
        | (rw [if_pos h5]; rfl)
    · have hk5 : k = 5 := by omega
      subst hk5
      rw [sendChallenge_ok crc nonce seq u hprev]
      first
        | exact ⟨fun _ => rfl, fun _ => rfl⟩
        | (rw [framesWritten_step, if_neg h5, List.append_nil]
           exact (transfersFrames_all crc nonce seq).symm)
        | rfl

theorem challenge_chunk_order_witness :
    (2 : Nat) ≤ 5
    ∧ (∀ j < 3 * 2, (exLink thirdChunkFailsRx).peek j = CH375IntStatus.intSuccess)
    ∧ (ch375SendChallenge exCrc (exData PS4State.nonce_ready).nonce_buffer 1
        (exLink thirdChunkFailsRx)).1 = false
    ∧ framesWritten (exLink thirdChunkFailsRx)
        (ch375SendChallenge exCrc (exData PS4State.nonce_ready).nonce_buffer 1
          (exLink thirdChunkFailsRx)).2
        = transfersFrames
            ((challengeChunks exCrc (exData PS4State.nonce_ready).nonce_buffer 1).take 2)
          ++ (if 2 < 5 then
                attemptFrames
                  (challengeChunkAt exCrc (exData PS4State.nonce_ready).nonce_buffer 1 2).2
                  ((exLink thirdChunkFailsRx).peek (3 * 2))
                  ((exLink thirdChunkFailsRx).peek (3 * 2 + 1))
              else [])
    ∧ (ch375SendChallenge exCrc (exData PS4State.nonce_ready).nonce_buffer 1
        (exLink thirdChunkFailsRx)).2.rd = 8 :=
  ⟨by decide, by decide, by decide!,
    (challenge_chunk_order exCrc (exData PS4State.nonce_ready).nonce_buffer 1
      (exLink thirdChunkFailsRx) 2 (by decide) (by decide) (fun _ => by decide)).2.1,
    by decide!⟩

/-- C25: `setup` leaves `initFailed = false` if and only if the echo of the
existence probe is the complement of the test byte and the bridge answers
the host-enabled set-USB-mode command with 0x51; in that case the recorded
connection status is disconnect, `lastConnectCheck` is 0, `challengeSent` is
false, the sequence counter is 1, and the bytes written to the link are
exactly reset-all (0x05), check-exists (0x06), the test byte, set-USB-mode
(0x15) and host-enabled (0x05). Whatever the bridge answers, no
set-baud-rate command is written and the link rate is the default 9600. -/
theorem setup_success (rand0 rand1 : Nat) (self : PS4AuthPassThroughAddon) (u : Uart) :
    ((setup rand0 rand1 self u).1.initFailed = false
      ↔ (u.peek 0 = 255 - rand0 % 256 ∧ u.peek 1 = CH375Retcode.success))
    ∧ ((setup rand0 rand1 self u).1.initFailed = false →
        (setup rand0 rand1 self u).1.curIntStatus = CH375IntStatus.disconnect
        ∧ (setup rand0 rand1 self u).1.lastConnectCheck = 0
        ∧ (setup rand0 rand1 self u).1.challengeSent = false
        ∧ (setup rand0 rand1 self u).1.sequenceCounter = 1
        ∧ framesWritten u (setup rand0 rand1 self u).2
            = [Frame.cmd CH375Cmd.resetAll, Frame.cmd CH375Cmd.checkExists,
                Frame.data (rand0 % 256), Frame.cmd CH375Cmd.setUsbMode,
                Frame.data CH375UsbMode.hostEnabled]
        ∧ (framesWritten u (setup rand0 rand1 self u).2).map Frame.byte
            = [0x05, 0x06, rand0 % 256, 0x15, 0x05]
        ∧ (setup rand0 rand1 self u).2.rd = u.rd + 2)
    ∧ Frame.cmd CH375Cmd.setBaudRate ∉ framesWritten u (setup rand0 rand1 self u).2
    ∧ (setup rand0 rand1 self u).2.baud = CH375_DEFAULT_BAUDRATE := by
  have hfw : ∀ fs k, framesWritten u ((uart_init u CH375_DEFAULT_BAUDRATE).step fs k) = fs := by
    intro fs k
    simp [framesWritten, uart_init]
  have hmem : Frame.cmd CH375Cmd.setBaudRate ∉ [Frame.cmd CH375Cmd.resetAll,
      Frame.cmd CH375Cmd.checkExists, Frame.data (rand0 % 256), Frame.cmd CH375Cmd.setUsbMode,
      Frame.data CH375UsbMode.hostEnabled] := by
    intro hm
    simp only [List.mem_cons, List.mem_singleton, List.not_mem_nil, or_false] at hm
    rcases hm with h | h | h | h | h
    · exact absurd h (by decide)
    · exact absurd h (by decide)
    · exact cmd_ne_data _ _ h
    · exact absurd h (by decide)
    · exact cmd_ne_data _ _ h
  have hmem1 : Frame.cmd CH375Cmd.setBaudRate ∉ [Frame.cmd CH375Cmd.resetAll,
      Frame.cmd CH375Cmd.checkExists, Frame.data (rand0 % 256)] := by
    intro hm
    simp only [List.mem_cons, List.mem_singleton, List.not_mem_nil, or_false] at hm
    rcases hm with h | h | h
    · exact absurd h (by decide)
    · exact absurd h (by decide)
    · exact cmd_ne_data _ _ h
  have hbytes : ([Frame.cmd CH375Cmd.resetAll, Frame.cmd CH375Cmd.checkExists,
      Frame.data (rand0 % 256), Frame.cmd CH375Cmd.setUsbMode,
      Frame.data CH375UsbMode.hostEnabled]).map Frame.byte
        = [0x05, 0x06, rand0 % 256, 0x15, 0x05] := by
    simp [Frame.cmd, Frame.data, CH375Cmd.resetAll, CH375Cmd.checkExists,
      CH375Cmd.setUsbMode, CH375UsbMode.hostEnabled]
  have hiff : (setup rand0 rand1 self u).1.initFailed = false
      ↔ (u.peek 0 = 255 - rand0 % 256 ∧ u.peek 1 = CH375Retcode.success) := by
    rw [setup_eq]
    by_cases h0 : u.peek 0 = 255 - rand0 % 256 <;>
      by_cases h1 : u.peek 1 = CH375Retcode.success <;> simp [h0, h1]
  refine ⟨hiff, fun hok => ?_, ?_, ?_⟩
  · obtain ⟨h0, h1⟩ := hiff.1 hok
    rw [setup_eq, if_pos h0, if_pos h1]
    exact ⟨rfl, rfl, rfl, rfl, hfw _ _, (congrArg (List.map Frame.byte) (hfw _ _)).trans hbytes,
      rfl⟩
  · rw [setup_eq]
    split_ifs
    · simp only [hfw]
      exact hmem
    · simp only [hfw]
      exact hmem
    · simp only [hfw]
      exact hmem1
  · rw [setup_eq]
    split_ifs <;> rfl

theorem setup_success_witness :
    (setup 0x5a 0 (exSelf true) (exLink (fun n => if n = 0 then 0xa5 else 0x51))).1.initFailed
      = false
    ∧ (setup 0x5a 0 (exSelf true)
        (exLink (fun n => if n = 0 then 0xa5 else 0x51))).1.sequenceCounter = 1
    ∧ (framesWritten (exLink (fun n => if n = 0 then 0xa5 else 0x51))
        (setup 0x5a 0 (exSelf true) (exLink (fun n => if n = 0 then 0xa5 else 0x51))).2).map
          Frame.byte = [0x05, 0x06, 0x5a % 256, 0x15, 0x05] :=
  ⟨by decide!,
    ((setup_success 0x5a 0 (exSelf true)
      (exLink (fun n => if n = 0 then 0xa5 else 0x51))).2.1 (by decide!)).2.2.2.1,
    ((setup_success 0x5a 0 (exSelf true)
      (exLink (fun n => if n = 0 then 0xa5 else 0x51))).2.1 (by decide!)).2.2.2.2.2.1⟩

/-- C26: after a successful setup, a tick at clock reading `now` makes its
connectivity check (the test-connect command is written by the check) if and
only if `lastConnectCheck` is 0 or `(now - lastConnectCheck) mod 2^32 > 500`;
when it does, `lastConnectCheck` becomes `now`, otherwise it is unchanged and
the check touches nothing. Hence in every run of ticks that starts with a
nonzero `lastConnectCheck` and has non-decreasing clock readings (no wrap of
the 32-bit clock), any two checks, the one recorded in `lastConnectCheck`
included, are more than 500 apart and `lastConnectCheck` never decreases. -/
theorem poll_cadence (crc : List Nat → Nat) (env : TickEnv) (envs : List TickEnv) (w : World)
    (hinit : w.self.initFailed = false) :
    (polls env w ↔ (w.self.lastConnectCheck = 0
        ∨ (env.cTime % 2 ^ 32 + 2 ^ 32 - w.self.lastConnectCheck) % 2 ^ 32 > 500))
    ∧ (Frame.cmd CH375Cmd.testConnect ∈ framesWritten w.uart (polled env w) ↔ polls env w)
    ∧ (polls env w → (process crc env w).self.lastConnectCheck = env.cTime % 2 ^ 32)
    ∧ (¬ polls env w → (process crc env w).self.lastConnectCheck = w.self.lastConnectCheck
        ∧ polled env w = w.uart)
    ∧ (w.self.lastConnectCheck ≠ 0 →
        List.Pairwise (fun a b => a ≤ b) (w.self.lastConnectCheck :: envs.map TickEnv.cTime) →
        (∀ e ∈ envs, e.cTime < 2 ^ 32) →
        List.Pairwise (fun a b => a + 500 < b) (w.self.lastConnectCheck :: pollTimes crc envs w)
        ∧ List.Pairwise (fun a b => a ≤ b)
            (w.self.lastConnectCheck :: checkTrace crc envs w)) := by
  have hlast := process_lastConnectCheck crc env w hinit
  refine ⟨?_, ?_, fun hp => ?_, fun hp => ⟨?_, polled_of_not_polls env w hinit hp⟩, ?_⟩
  · unfold polls
    simp [hinit, CONNECTION_CHECK_DELAY]
  · constructor
    · intro hm
      by_contra hp
      rw [polled_of_not_polls env w hinit hp, framesWritten_self] at hm
      exact absurd hm (List.not_mem_nil _)
    · intro hp
      rw [polled_of_polls env w hp]
      exact testConnect_first _ _
  · rw [hlast, if_pos hp]
  · rw [hlast, if_neg hp]
  · intro hL hmono hlt
    obtain ⟨hall, hpw⟩ := List.pairwise_cons.1 hmono
    obtain ⟨r1, r2, r3, r4⟩ := run_cadence crc envs w hinit hL
      (fun e he => ⟨hall _ (List.mem_map_of_mem _ he), hlt e he⟩)
      (List.pairwise_map.1 hpw)
    exact ⟨List.pairwise_cons.2 ⟨r1, r2⟩, List.pairwise_cons.2 ⟨r3, r4⟩⟩

theorem poll_cadence_witness :
    cadenceWorld.self.initFailed = false
    ∧ cadenceWorld.self.lastConnectCheck ≠ 0
    ∧ List.Pairwise (fun a b => a ≤ b)
        (cadenceWorld.self.lastConnectCheck :: cadenceTicks.map TickEnv.cTime)
    ∧ (∀ e ∈ cadenceTicks, e.cTime < 2 ^ 32)
    ∧ ¬ polls (exEnv 1400) cadenceWorld
    ∧ pollTimes exCrc cadenceTicks cadenceWorld = [1600]
    ∧ checkTrace exCrc cadenceTicks cadenceWorld = [1000, 1600, 1600]
    ∧ List.Pairwise (fun a b => a + 500 < b)
        (cadenceWorld.self.lastConnectCheck :: pollTimes exCrc cadenceTicks cadenceWorld) :=
  have h1 : List.Pairwise (fun a b => a ≤ b)
      (cadenceWorld.self.lastConnectCheck :: cadenceTicks.map TickEnv.cTime) := by decide
  have h2 : ∀ e ∈ cadenceTicks, e.cTime < 2 ^ 32 := by
    intro e he
    simp only [cadenceTicks, List.mem_cons, List.mem_singleton, List.not_mem_nil, or_false] at he
    rcases he with rfl | rfl | rfl <;> decide
  ⟨rfl, by decide, h1, h2, by decide, by decide!, by decide!,
    ((poll_cadence exCrc (exEnv 1400) cadenceTicks cadenceWorld rfl).2.2.2.2
      (by decide) h1 h2).1⟩

/-- C27 as stated fails: on a connect transition whose first enumeration
step fails (the set-USB-mode acknowledgement is 0x5f), the recorded status
changes from disconnect to connect all the same, and the next poll, which
reads connect again, writes only the test-connect command: the enumeration
is not attempted again. -/
theorem failed_enumeration_recorded :
    (exLink failedEnumerationRx).peek 0 = CH375IntStatus.connect
    ∧ (exLink failedEnumerationRx).peek 1 ≠ CH375Retcode.success
    ∧ framesWritten (exLink failedEnumerationRx)
        (ch375TestConnect ⟨false, false, 0, 1, CH375IntStatus.disconnect⟩
          (exLink failedEnumerationRx)).2
        = [Frame.cmd CH375Cmd.testConnect, Frame.cmd CH375Cmd.setUsbMode,
            Frame.data CH375UsbMode.hostEnabledReset]
    ∧ (ch375TestConnect ⟨false, false, 0, 1, CH375IntStatus.disconnect⟩
          (exLink failedEnumerationRx)).1.curIntStatus = CH375IntStatus.connect
    ∧ (ch375TestConnect ⟨false, false, 0, 1, CH375IntStatus.disconnect⟩
          (exLink failedEnumerationRx)).1.curIntStatus ≠ CH375IntStatus.disconnect
    ∧ (ch375TestConnect ⟨false, false, 0, 1, CH375IntStatus.disconnect⟩
          (exLink failedEnumerationRx)).2.peek 0 = CH375IntStatus.connect
    ∧ framesWritten
        (ch375TestConnect ⟨false, false, 0, 1, CH375IntStatus.disconnect⟩
          (exLink failedEnumerationRx)).2
        (ch375TestConnect
          (ch375TestConnect ⟨false, false, 0, 1, CH375IntStatus.disconnect⟩
            (exLink failedEnumerationRx)).1
          (ch375TestConnect ⟨false, false, 0, 1, CH375IntStatus.disconnect⟩
            (exLink failedEnumerationRx)).2).2
        = [Frame.cmd CH375Cmd.testConnect] := by
  decide!

/-- C27 (amended): on a connect transition (the poll reads connect while
another status is recorded) the enumeration is started and the recorded
status becomes connect whether or not the enumeration steps succeed; the
other members are unchanged. A later poll that reads connect again then
writes only the test-connect command, reads one byte and changes no state:
the enumeration is not attempted again while connect stays recorded. -/
theorem enumeration_not_retried (self : PS4AuthPassThroughAddon) (u u' : Uart)
    (hne : self.curIntStatus ≠ u.peek 0) (hc : u.peek 0 = CH375IntStatus.connect)
    (hc' : u'.peek 0 = CH375IntStatus.connect) :
    (ch375TestConnect self u).1 = { self with curIntStatus := CH375IntStatus.connect }
    ∧ (∃ fs k, (ch375TestConnect self u).2
        = u.step ([Frame.cmd CH375Cmd.testConnect, Frame.cmd CH375Cmd.setUsbMode,
            Frame.data CH375UsbMode.hostEnabledReset] ++ fs) (2 + k))
    ∧ (ch375TestConnect (ch375TestConnect self u).1 u').1 = (ch375TestConnect self u).1
    ∧ framesWritten u' (ch375TestConnect (ch375TestConnect self u).1 u').2
        = [Frame.cmd CH375Cmd.testConnect]
    ∧ (ch375TestConnect (ch375TestConnect self u).1 u').2.rd = u'.rd + 1 := by
  have h1 : (ch375TestConnect self u).1 = { self with curIntStatus := CH375IntStatus.connect } := by
    rw [testConnect_self, hc]
  have hsame : ¬ ({ self with curIntStatus := CH375IntStatus.connect } :
      PS4AuthPassThroughAddon).curIntStatus ≠ u'.peek 0 := by
    rw [hc']
    exact not_not.2 rfl
  refine ⟨h1, ?_, ?_, ?_, ?_⟩
  · rw [testConnect_eq, if_pos hne, if_neg (by rw [hc]; decide), if_pos hc, connectCase_eq]
    split_ifs <;> simp only [step_step]
    · exact ⟨[], 0, rfl⟩
    · exact ⟨(enumerationFrames.take 4).drop 2, 1, rfl⟩
    · exact ⟨(enumerationFrames.take 7).drop 2, 2, rfl⟩
    · exact ⟨enumerationFrames.drop 2, 3, rfl⟩
    · exact ⟨enumerationFrames.drop 2
        ++ [Frame.cmd CH375Cmd.autoSetup, Frame.cmd CH375Cmd.getStatus], 22, rfl⟩
    · exact ⟨enumerationFrames.drop 2, 21, rfl⟩
  · rw [h1, testConnect_eq, if_neg hsame]
  · rw [h1, testConnect_eq, if_neg hsame]
    exact framesWritten_step _ _ _
  · rw [h1, testConnect_eq, if_neg hsame]
    rfl

theorem enumeration_not_retried_witness :
    (⟨false, false, 0, 1, CH375IntStatus.disconnect⟩ : PS4AuthPassThroughAddon).curIntStatus
      ≠ (exLink failedEnumerationRx).peek 0
    ∧ (exLink failedEnumerationRx).peek 0 = CH375IntStatus.connect
    ∧ (exLink (fun _ => 0x15)).peek 0 = CH375IntStatus.connect
    ∧ (ch375TestConnect ⟨false, false, 0, 1, CH375IntStatus.disconnect⟩
        (exLink failedEnumerationRx)).1
        = { (⟨false, false, 0, 1, CH375IntStatus.disconnect⟩ : PS4AuthPassThroughAddon) with
            curIntStatus := CH375IntStatus.connect }
    ∧ framesWritten (exLink (fun _ => 0x15))
        (ch375TestConnect (ch375TestConnect ⟨false, false, 0, 1, CH375IntStatus.disconnect⟩
          (exLink failedEnumerationRx)).1 (exLink (fun _ => 0x15))).2
        = [Frame.cmd CH375Cmd.testConnect] :=
  ⟨by decide, by decide, by decide,
    (enumeration_not_retried ⟨false, false, 0, 1, CH375IntStatus.disconnect⟩
      (exLink failedEnumerationRx) (exLink (fun _ => 0x15)) (by decide) (by decide)
      (by decide)).1,
    (enumeration_not_retried ⟨false, false, 0, 1, CH375IntStatus.disconnect⟩
      (exLink failedEnumerationRx) (exLink (fun _ => 0x15)) (by decide) (by decide)
      (by decide)).2.2.2.1⟩

/-- C28: `ch375TestConnect` always writes the test-connect command (0x16)
and reads one status byte `s`. If `s` equals the recorded status it writes
nothing more, reads nothing more and changes no state. If `s` is disconnect
and differs from the recorded status it writes exactly the set-USB-mode
command (0x15) and the host-enabled mode byte (0x05), reads one
acknowledgement, and records disconnect as the status whatever the
acknowledgement is. -/
theorem testConnect_gating (self : PS4AuthPassThroughAddon) (u : Uart) :
    (∃ fs k, (ch375TestConnect self u).2 = u.step ([Frame.cmd CH375Cmd.testConnect] ++ fs) (1 + k))
    ∧ (Frame.cmd CH375Cmd.testConnect).byte = 0x16
    ∧ (u.peek 0 = self.curIntStatus →
        (ch375TestConnect self u).1 = self
        ∧ framesWritten u (ch375TestConnect self u).2 = [Frame.cmd CH375Cmd.testConnect]
        ∧ (ch375TestConnect self u).2.rd = u.rd + 1)
    ∧ (u.peek 0 = CH375IntStatus.disconnect → u.peek 0 ≠ self.curIntStatus →
        framesWritten u (ch375TestConnect self u).2
          = [Frame.cmd CH375Cmd.testConnect, Frame.cmd CH375Cmd.setUsbMode,
              Frame.data CH375UsbMode.hostEnabled]
        ∧ (framesWritten u (ch375TestConnect self u).2).map Frame.byte = [0x16, 0x15, 0x05]
        ∧ (ch375TestConnect self u).2.rd = u.rd + 2
        ∧ (ch375TestConnect self u).1 = { self with curIntStatus := CH375IntStatus.disconnect }) := by
  refine ⟨?_, rfl, fun heq => ?_, fun hd hne => ?_⟩
  · rw [testConnect_eq]
    by_cases h : self.curIntStatus = u.peek 0
    · rw [if_neg (not_not.2 h)]
      exact ⟨[], 0, rfl⟩
    · rw [if_pos h]
      by_cases hd : u.peek 0 = CH375IntStatus.disconnect
      · rw [if_pos hd]
        exact ⟨[Frame.cmd CH375Cmd.setUsbMode, Frame.data CH375UsbMode.hostEnabled], 1, rfl⟩
      · rw [if_neg hd]
        by_cases hc : u.peek 0 = CH375IntStatus.connect
        · rw [if_pos hc, connectCase_eq]
          split_ifs <;> simp only [step_step] <;> exact ⟨_, _, rfl⟩
        · rw [if_neg hc]
          exact ⟨[], 0, rfl⟩
  · rw [testConnect_eq, if_neg (not_not.2 heq.symm)]
    exact ⟨rfl, framesWritten_step _ _ _, rfl⟩
  · rw [testConnect_eq, if_pos (fun h => hne h.symm), if_pos hd]
    refine ⟨framesWritten_step _ _ _, ?_, rfl, ?_⟩
    · rw [framesWritten_step]
      rfl
    · rw [hd]

theorem testConnect_gating_witness :
    (exLink (fun n => if n = 0 then 0x16 else 0x5f)).peek 0 = CH375IntStatus.disconnect
    ∧ (exLink (fun n => if n = 0 then 0x16 else 0x5f)).peek 0
        ≠ (⟨false, true, 0, 1, CH375IntStatus.connect⟩ : PS4AuthPassThroughAddon).curIntStatus
    ∧ (exLink (fun n => if n = 0 then 0x16 else 0x5f)).peek 1 = CH375Retcode.abrt
    ∧ (framesWritten (exLink (fun n => if n = 0 then 0x16 else 0x5f))
        (ch375TestConnect ⟨false, true, 0, 1, CH375IntStatus.connect⟩
          (exLink (fun n => if n = 0 then 0x16 else 0x5f))).2).map Frame.byte = [0x16, 0x15, 0x05]
    ∧ (ch375TestConnect ⟨false, true, 0, 1, CH375IntStatus.connect⟩
          (exLink (fun n => if n = 0 then 0x16 else 0x5f))).1
        = { (⟨false, true, 0, 1, CH375IntStatus.connect⟩ : PS4AuthPassThroughAddon) with
            curIntStatus := CH375IntStatus.disconnect } :=
  ⟨by decide, by decide, by decide,
    ((testConnect_gating ⟨false, true, 0, 1, CH375IntStatus.connect⟩
      (exLink (fun n => if n = 0 then 0x16 else 0x5f))).2.2.2 (by decide) (by decide)).2.1,
    ((testConnect_gating ⟨false, true, 0, 1, CH375IntStatus.connect⟩
      (exLink (fun n => if n = 0 then 0x16 else 0x5f))).2.2.2 (by decide) (by decide)).2.2.2⟩

/-- C29 (the code departs from the claim): a signature report read with
success statuses whose chunk index byte is 0xff has its payload written at
positions 14280..14335 of the result buffer, beyond the 1064 bytes of the
buffer; positions 0..55 are left as they were. The same happens in a tick
of `process` in awaiting-signature. -/
theorem signature_write_out_of_bounds :
    reportByte (exLink outOfRangeRx) 0 2 = 0xff
    ∧ (ch375SendRequest signChunkRequest (fun _ => 0) (exLink outOfRangeRx)).1 = true
    ∧ (ch375GetSignatureChunk (fun _ => 0) (fun _ => 0) (exLink outOfRangeRx)).2.1 14280 = 0xab
    ∧ (ch375GetSignatureChunk (fun _ => 0) (fun _ => 0) (exLink outOfRangeRx)).2.1 14335 = 0xab
    ∧ (ch375GetSignatureChunk (fun _ => 0) (fun _ => 0) (exLink outOfRangeRx)).2.1 0 = 0
    ∧ 19 * DS4_CHUNK_SIZE = 1064
    ∧ outOfRangeWorld.ps4.ps4_auth_buffer 14280 = 0
    ∧ (process exCrc (exEnv 1001) outOfRangeWorld).ps4.ps4_auth_buffer 14280 = 0xab
    ∧ (process exCrc (exEnv 1001) outOfRangeWorld).ps4.ps4_auth_buffer 14335 = 0xab
    ∧ (process exCrc (exEnv 1001) outOfRangeWorld).ps4.ps4State
        = PS4State.signed_nonce_ready := by
  decide!

/-- C30: under the standard semantics of the parity modes, the parity bit
of the frame `getParity` selects is 1 for every command byte and 0 for every
data byte, whatever the value of the byte; so for every byte `b` the mode
chosen for `b` as a command differs from the one chosen for `b` as data, and
so do the frames `ch375SendCmd` and `ch375SendData` put on the wire. -/
theorem parity_bit_marks_kind (b : Nat) (hb : b < 256) :
    wireParityBit (getParity b true) b = some 1
    ∧ wireParityBit (getParity b false) b = some 0
    ∧ getParity b true ≠ getParity b false
    ∧ wireParityBit (Frame.cmd b).parity (Frame.cmd b).byte = some 1
    ∧ wireParityBit (Frame.data b).parity (Frame.data b).byte = some 0
    ∧ (∀ u : Uart, framesWritten u (ch375SendCmd u b) = [Frame.cmd b]
        ∧ framesWritten u (ch375SendData u b) = [Frame.data b]) := by
  have h := countBits_eq_popCount b hb
  have hm : b % 256 = b := Nat.mod_eq_of_lt hb
  have h1 : wireParityBit (getParity b true) b = some 1 := by
    rcases Nat.mod_two_eq_zero_or_one (popCount b) with hp | hp
    · simp [getParity, h, hp, wireParityBit, Nat.add_mod]
    · simp [getParity, h, hp, wireParityBit]
  have h0 : wireParityBit (getParity b false) b = some 0 := by
    rcases Nat.mod_two_eq_zero_or_one (popCount b) with hp | hp
    · simp [getParity, h, hp, wireParityBit]
    · simp [getParity, h, hp, wireParityBit, Nat.add_mod]
  refine ⟨h1, h0, getParity_ne b, ?_, ?_, fun u => ⟨?_, ?_⟩⟩
  · simp only [Frame.cmd, hm]
    exact h1
  · simp only [Frame.data, hm]
    exact h0
  · rw [sendCmd_eq, framesWritten_step]
  · rw [sendData_eq, framesWritten_step]

theorem parity_bit_marks_kind_witness :
    0x16 < 256
    ∧ wireParityBit (getParity 0x16 true) 0x16 = some 1
    ∧ wireParityBit (getParity 0x16 false) 0x16 = some 0
    ∧ getParity 0x16 true ≠ getParity 0x16 false :=
  ⟨by decide, (parity_bit_marks_kind 0x16 (by decide)).1,
    (parity_bit_marks_kind 0x16 (by decide)).2.1, (parity_bit_marks_kind 0x16 (by decide)).2.2.1⟩

end PS4Auth
